import Mathlib

/-!
Verification development for the Pentomino-Solver repository.

This file shallowly embeds the geometry module (`src/utils/geometry.ts`),
the pentomino piece catalog (`src/utils/pentomino-definitions.ts`),
the board utilities (`src/utils/board-utils.ts`), the backtracking solver
(`src/solvers/BacktrackingSolver.ts`) and the dancing-links solver
(`src/solvers/DancingLinksSolver.ts`), and proves or refutes the frozen
claims about them.

Embedding conventions:
* JavaScript numbers that hold coordinates, sizes and times are embedded as
  `Int` (all arithmetic in these modules is integer arithmetic).
* JavaScript object mutation is embedded by explicit state passing; the
  mutable board references held by callers are embedded by a small heap,
  `Heap := List Board`, with board references as indices, so that statements
  about non-mutation of the caller board are meaningful.
* `Date.now()` is embedded by an explicit clock `Nat → Int` mapping the
  index of the call to the returned time, threaded through the solver state.
* Thrown exceptions are embedded with `Except`; the error value carries the
  solver state, matching the fact that the JS solver object retains its
  fields when `solve` catches the exception.
* The recursion of the backtracking solver decreases structurally in the
  number of remaining pieces, so it needs no fuel; the dancing-links loops
  walk cyclic linked lists, so they take explicit fuel.
* The module-level constant `PENTOMINO_DEFINITIONS` is passed to its users
  as an explicit `Defs` argument (dependency injection of the global).
* The ghost field `events` records, in reverse chronological order, when the
  solver tries a placement and when it records a solution; it observes the
  code without influencing it.
-/

/-- Integer coordinate pair, from `types/index.ts` (`Point`). -/
structure Point where
  x : Int
  y : Int
deriving DecidableEq, Repr

/-- Width/height pair, from `types/index.ts` (`Dimensions`). -/
structure Dimensions where
  width : Int
  height : Int
deriving DecidableEq, Repr

/-- A pentomino shape: cells plus bounding box, from `types/index.ts`. -/
structure PentominoShape where
  cells : List Point
  bounds : Dimensions
deriving DecidableEq, Repr

/-- geometry.ts `pointsEqual`. -/
def pointsEqual (a b : Point) : Bool :=
  a.x == b.x && a.y == b.y

/-- geometry.ts `addPoints`. -/
def addPoints (a b : Point) : Point :=
  { x := a.x + b.x, y := a.y + b.y }

/-- geometry.ts `isPointInBounds`; `bounds` is anything with width/height. -/
def isPointInBounds (point : Point) (bounds : Dimensions) : Bool :=
  point.x >= 0 && point.x < bounds.width && point.y >= 0 && point.y < bounds.height

/-- geometry.ts `rotatePoint90CW`: `(x, y) -> (y, -x)`. -/
def rotatePoint90CW (point : Point) : Point :=
  { x := point.y, y := -point.x }

/-- geometry.ts `flipPointHorizontal`: `(x, y) -> (-x, y)`. -/
def flipPointHorizontal (point : Point) : Point :=
  { x := -point.x, y := point.y }

def normalizeShape (cells : List Point) : PentominoShape :=
  match cells with
  | [] => { cells := [], bounds := { width := 0, height := 0 } }
  | c0 :: _ =>
    let minX := (cells.map (·.x)).foldl min c0.x
    let minY := (cells.map (·.y)).foldl min c0.y
    let maxX := (cells.map (·.x)).foldl max c0.x
    let maxY := (cells.map (·.y)).foldl max c0.y
    let normalizedCells := cells.map (fun p => { x := p.x - minX, y := p.y - minY : Point })
    { cells := normalizedCells,
      bounds := { width := maxX - minX + 1, height := maxY - minY + 1 } }

/-- geometry.ts `rotateShape90CW`. -/
def rotateShape90CW (shape : PentominoShape) : PentominoShape :=
  normalizeShape (shape.cells.map rotatePoint90CW)

/-- geometry.ts `flipShapeHorizontal`. -/
def flipShapeHorizontal (shape : PentominoShape) : PentominoShape :=
  normalizeShape (shape.cells.map flipPointHorizontal)

/-- Insert a point into a list sorted by `(a, b) => a.y - b.y || a.x - b.x`. -/
def insertByYX (p : Point) : List Point → List Point
  | [] => [p]
  | q :: rest =>
    if p.y < q.y || (p.y == q.y && p.x <= q.x) then p :: q :: rest
    else q :: insertByYX p rest

def sortByYX (l : List Point) : List Point :=
  l.foldr insertByYX []

/-- geometry.ts `shapeToString`: canonical key, cells sorted by (y, x). -/
def shapeToString (shape : PentominoShape) : String :=
  let sortedCells := sortByYX shape.cells
  String.intercalate "|" (sortedCells.map (fun p => toString p.x ++ "," ++ toString p.y))

def addVariant (acc : List PentominoShape × List String) (shape : PentominoShape) :
    List PentominoShape × List String :=
  let key := shapeToString shape
  if acc.2.contains key then acc
  else (acc.1 ++ [shape], acc.2 ++ [key])

def rotationSweep : Nat → PentominoShape → (List PentominoShape × List String) →
    PentominoShape × (List PentominoShape × List String)
  | 0, current, acc => (current, acc)
  | n + 1, current, acc =>
    let next := rotateShape90CW current
    rotationSweep n next (addVariant acc next)

def generateShapeVariants (baseShape : PentominoShape) : List PentominoShape :=
  let acc0 := addVariant ([], []) baseShape
  let (_, acc1) := rotationSweep 3 baseShape acc0
  let flipped := flipShapeHorizontal baseShape
  let acc2 := addVariant acc1 flipped
  let (_, acc3) := rotationSweep 3 flipped acc2
  acc3.1

/-- geometry.ts `getPieceCells`: absolute cells of a shape at a position. -/
def getPieceCells (shape : PentominoShape) (position : Point) : List Point :=
  shape.cells.map (fun cell => addPoints cell position)

/-- The 12 pentomino type letters, from `types/index.ts`. -/
inductive PentominoType where
  | F | I | L | N | P | T | U | V | W | X | Y | Z
deriving DecidableEq, Repr, Fintype

/-- pentomino-definitions.ts `BASE_SHAPES`: the 12 base shapes. -/
def BASE_SHAPES : PentominoType → PentominoShape
  | .F => normalizeShape [⟨1, 0⟩, ⟨2, 0⟩, ⟨0, 1⟩, ⟨1, 1⟩, ⟨1, 2⟩]
  | .I => normalizeShape [⟨0, 0⟩, ⟨1, 0⟩, ⟨2, 0⟩, ⟨3, 0⟩, ⟨4, 0⟩]
  | .L => normalizeShape [⟨0, 0⟩, ⟨0, 1⟩, ⟨0, 2⟩, ⟨0, 3⟩, ⟨1, 3⟩]
  | .N => normalizeShape [⟨1, 0⟩, ⟨0, 1⟩, ⟨1, 1⟩, ⟨0, 2⟩, ⟨0, 3⟩]
  | .P => normalizeShape [⟨0, 0⟩, ⟨1, 0⟩, ⟨0, 1⟩, ⟨1, 1⟩, ⟨0, 2⟩]
  | .T => normalizeShape [⟨0, 0⟩, ⟨1, 0⟩, ⟨2, 0⟩, ⟨1, 1⟩, ⟨1, 2⟩]
  | .U => normalizeShape [⟨0, 0⟩, ⟨2, 0⟩, ⟨0, 1⟩, ⟨1, 1⟩, ⟨2, 1⟩]
  | .V => normalizeShape [⟨0, 0⟩, ⟨0, 1⟩, ⟨0, 2⟩, ⟨1, 2⟩, ⟨2, 2⟩]
  | .W => normalizeShape [⟨0, 0⟩, ⟨0, 1⟩, ⟨1, 1⟩, ⟨1, 2⟩, ⟨2, 2⟩]
  | .X => normalizeShape [⟨1, 0⟩, ⟨0, 1⟩, ⟨1, 1⟩, ⟨2, 1⟩, ⟨1, 2⟩]
  | .Y => normalizeShape [⟨1, 0⟩, ⟨0, 1⟩, ⟨1, 1⟩, ⟨1, 2⟩, ⟨1, 3⟩]
  | .Z => normalizeShape [⟨0, 0⟩, ⟨1, 0⟩, ⟨1, 1⟩, ⟨1, 2⟩, ⟨2, 2⟩]

structure PentominoDefinition where
  type : PentominoType
  baseShape : PentominoShape
  variants : List PentominoShape
deriving DecidableEq, Repr

def Defs : Type := PentominoType → PentominoDefinition

/-- pentomino-definitions.ts `createPentominoDefinitions` (per type). -/
def createPentominoDefinitions : Defs := fun type =>
  { type := type
    baseShape := BASE_SHAPES type
    variants := generateShapeVariants (BASE_SHAPES type) }

def PENTOMINO_DEFINITIONS : Defs := createPentominoDefinitions

def getAllPentominoTypes : List PentominoType :=
  [.F, .I, .L, .N, .P, .T, .U, .V, .W, .X, .Y, .Z]

def jsIndex {α : Type} (l : List α) (i : Int) : Option α :=
  if i < 0 then none else l.get? i.toNat

def getPentominoVariantD (defs : Defs) (type : PentominoType) (variantIndex : Int) :
    PentominoShape :=
  let definition := defs type
  (jsIndex definition.variants variantIndex).getD definition.baseShape

/-- pentomino-definitions.ts `getPentominoVariantCount`. -/
def getPentominoVariantCountD (defs : Defs) (type : PentominoType) : Nat :=
  (defs type).variants.length

/-- `getPentominoVariant` with the module-level definition table. -/
def getPentominoVariant (type : PentominoType) (variantIndex : Int) : PentominoShape :=
  getPentominoVariantD PENTOMINO_DEFINITIONS type variantIndex

/-- `getPentominoVariantCount` with the module-level definition table. -/
def getPentominoVariantCount (type : PentominoType) : Nat :=
  getPentominoVariantCountD PENTOMINO_DEFINITIONS type

/-- pentomino-definitions.ts `getPentominoDefinition`. -/
def getPentominoDefinition (type : PentominoType) : PentominoDefinition :=
  PENTOMINO_DEFINITIONS type

/-- Shorthand point constructor for the evaluated definition table. -/
def pt (x y : Int) : Point := { x := x, y := y }

/-- Shorthand shape constructor for the evaluated definition table. -/
def sh (cells : List Point) (width height : Int) : PentominoShape :=
  { cells := cells, bounds := { width := width, height := height } }

def literalDefs : Defs := fun type =>
  match type with
  | .F =>
    { type := .F,
      baseShape := sh [pt 1 0, pt 2 0, pt 0 1, pt 1 1, pt 1 2] 3 3,
      variants := [
        sh [pt 1 0, pt 2 0, pt 0 1, pt 1 1, pt 1 2] 3 3,
        sh [pt 0 1, pt 0 0, pt 1 2, pt 1 1, pt 2 1] 3 3,
        sh [pt 1 2, pt 0 2, pt 2 1, pt 1 1, pt 1 0] 3 3,
        sh [pt 2 1, pt 2 2, pt 1 0, pt 1 1, pt 0 1] 3 3,
        sh [pt 1 0, pt 0 0, pt 2 1, pt 1 1, pt 1 2] 3 3,
        sh [pt 0 1, pt 0 2, pt 1 0, pt 1 1, pt 2 1] 3 3,
        sh [pt 1 2, pt 2 2, pt 0 1, pt 1 1, pt 1 0] 3 3,
        sh [pt 2 1, pt 2 0, pt 1 2, pt 1 1, pt 0 1] 3 3
      ] }
  | .I =>
    { type := .I,
      baseShape := sh [pt 0 0, pt 1 0, pt 2 0, pt 3 0, pt 4 0] 5 1,
      variants := [
        sh [pt 0 0, pt 1 0, pt 2 0, pt 3 0, pt 4 0] 5 1,
        sh [pt 0 4, pt 0 3, pt 0 2, pt 0 1, pt 0 0] 1 5
      ] }
  | .L =>
    { type := .L,
      baseShape := sh [pt 0 0, pt 0 1, pt 0 2, pt 0 3, pt 1 3] 2 4,
      variants := [
        sh [pt 0 0, pt 0 1, pt 0 2, pt 0 3, pt 1 3] 2 4,
        sh [pt 0 1, pt 1 1, pt 2 1, pt 3 1, pt 3 0] 4 2,
        sh [pt 1 3, pt 1 2, pt 1 1, pt 1 0, pt 0 0] 2 4,
        sh [pt 3 0, pt 2 0, pt 1 0, pt 0 0, pt 0 1] 4 2,
        sh [pt 1 0, pt 1 1, pt 1 2, pt 1 3, pt 0 3] 2 4,
        sh [pt 0 0, pt 1 0, pt 2 0, pt 3 0, pt 3 1] 4 2,
        sh [pt 0 3, pt 0 2, pt 0 1, pt 0 0, pt 1 0] 2 4,
        sh [pt 3 1, pt 2 1, pt 1 1, pt 0 1, pt 0 0] 4 2
      ] }
  | .N =>
    { type := .N,
      baseShape := sh [pt 1 0, pt 0 1, pt 1 1, pt 0 2, pt 0 3] 2 4,
      variants := [
        sh [pt 1 0, pt 0 1, pt 1 1, pt 0 2, pt 0 3] 2 4,
        sh [pt 0 0, pt 1 1, pt 1 0, pt 2 1, pt 3 1] 4 2,
        sh [pt 0 3, pt 1 2, pt 0 2, pt 1 1, pt 1 0] 2 4,
        sh [pt 3 1, pt 2 0, pt 2 1, pt 1 0, pt 0 0] 4 2,
        sh [pt 0 0, pt 1 1, pt 0 1, pt 1 2, pt 1 3] 2 4,
        sh [pt 0 1, pt 1 0, pt 1 1, pt 2 0, pt 3 0] 4 2,
        sh [pt 1 3, pt 0 2, pt 1 2, pt 0 1, pt 0 0] 2 4,
        sh [pt 3 0, pt 2 1, pt 2 0, pt 1 1, pt 0 1] 4 2
      ] }
  | .P =>
    { type := .P,
      baseShape := sh [pt 0 0, pt 1 0, pt 0 1, pt 1 1, pt 0 2] 2 3,
      variants := [
        sh [pt 0 0, pt 1 0, pt 0 1, pt 1 1, pt 0 2] 2 3,
        sh [pt 0 1, pt 0 0, pt 1 1, pt 1 0, pt 2 1] 3 2,
        sh [pt 1 2, pt 0 2, pt 1 1, pt 0 1, pt 1 0] 2 3,
        sh [pt 2 0, pt 2 1, pt 1 0, pt 1 1, pt 0 0] 3 2,
        sh [pt 1 0, pt 0 0, pt 1 1, pt 0 1, pt 1 2] 2 3,
        sh [pt 0 0, pt 0 1, pt 1 0, pt 1 1, pt 2 0] 3 2,
        sh [pt 0 2, pt 1 2, pt 0 1, pt 1 1, pt 0 0] 2 3,
        sh [pt 2 1, pt 2 0, pt 1 1, pt 1 0, pt 0 1] 3 2
      ] }
  | .T =>
    { type := .T,
      baseShape := sh [pt 0 0, pt 1 0, pt 2 0, pt 1 1, pt 1 2] 3 3,
      variants := [
        sh [pt 0 0, pt 1 0, pt 2 0, pt 1 1, pt 1 2] 3 3,
        sh [pt 0 2, pt 0 1, pt 0 0, pt 1 1, pt 2 1] 3 3,
        sh [pt 2 2, pt 1 2, pt 0 2, pt 1 1, pt 1 0] 3 3,
        sh [pt 2 0, pt 2 1, pt 2 2, pt 1 1, pt 0 1] 3 3
      ] }
  | .U =>
    { type := .U,
      baseShape := sh [pt 0 0, pt 2 0, pt 0 1, pt 1 1, pt 2 1] 3 2,
      variants := [
        sh [pt 0 0, pt 2 0, pt 0 1, pt 1 1, pt 2 1] 3 2,
        sh [pt 0 2, pt 0 0, pt 1 2, pt 1 1, pt 1 0] 2 3,
        sh [pt 2 1, pt 0 1, pt 2 0, pt 1 0, pt 0 0] 3 2,
        sh [pt 1 0, pt 1 2, pt 0 0, pt 0 1, pt 0 2] 2 3
      ] }
  | .V =>
    { type := .V,
      baseShape := sh [pt 0 0, pt 0 1, pt 0 2, pt 1 2, pt 2 2] 3 3,
      variants := [
        sh [pt 0 0, pt 0 1, pt 0 2, pt 1 2, pt 2 2] 3 3,
        sh [pt 0 2, pt 1 2, pt 2 2, pt 2 1, pt 2 0] 3 3,
        sh [pt 2 2, pt 2 1, pt 2 0, pt 1 0, pt 0 0] 3 3,
        sh [pt 2 0, pt 1 0, pt 0 0, pt 0 1, pt 0 2] 3 3
      ] }
  | .W =>
    { type := .W,
      baseShape := sh [pt 0 0, pt 0 1, pt 1 1, pt 1 2, pt 2 2] 3 3,
      variants := [
        sh [pt 0 0, pt 0 1, pt 1 1, pt 1 2, pt 2 2] 3 3,
        sh [pt 0 2, pt 1 2, pt 1 1, pt 2 1, pt 2 0] 3 3,
        sh [pt 2 2, pt 2 1, pt 1 1, pt 1 0, pt 0 0] 3 3,
        sh [pt 2 0, pt 1 0, pt 1 1, pt 0 1, pt 0 2] 3 3
      ] }
  | .X =>
    { type := .X,
      baseShape := sh [pt 1 0, pt 0 1, pt 1 1, pt 2 1, pt 1 2] 3 3,
      variants := [
        sh [pt 1 0, pt 0 1, pt 1 1, pt 2 1, pt 1 2] 3 3
      ] }
  | .Y =>
    { type := .Y,
      baseShape := sh [pt 1 0, pt 0 1, pt 1 1, pt 1 2, pt 1 3] 2 4,
      variants := [
        sh [pt 1 0, pt 0 1, pt 1 1, pt 1 2, pt 1 3] 2 4,
        sh [pt 0 0, pt 1 1, pt 1 0, pt 2 0, pt 3 0] 4 2,
        sh [pt 0 3, pt 1 2, pt 0 2, pt 0 1, pt 0 0] 2 4,
        sh [pt 3 1, pt 2 0, pt 2 1, pt 1 1, pt 0 1] 4 2,
        sh [pt 0 0, pt 1 1, pt 0 1, pt 0 2, pt 0 3] 2 4,
        sh [pt 0 1, pt 1 0, pt 1 1, pt 2 1, pt 3 1] 4 2,
        sh [pt 1 3, pt 0 2, pt 1 2, pt 1 1, pt 1 0] 2 4,
        sh [pt 3 0, pt 2 1, pt 2 0, pt 1 0, pt 0 0] 4 2
      ] }
  | .Z =>
    { type := .Z,
      baseShape := sh [pt 0 0, pt 1 0, pt 1 1, pt 1 2, pt 2 2] 3 3,
      variants := [
        sh [pt 0 0, pt 1 0, pt 1 1, pt 1 2, pt 2 2] 3 3,
        sh [pt 0 2, pt 0 1, pt 1 1, pt 2 1, pt 2 0] 3 3,
        sh [pt 2 0, pt 1 0, pt 1 1, pt 1 2, pt 0 2] 3 3,
        sh [pt 0 0, pt 0 1, pt 1 1, pt 2 1, pt 2 2] 3 3
      ] }

/-- Cell states, from `types/index.ts`. -/
inductive CellState where
  | empty | blocked | occupied
deriving DecidableEq, Repr

/-- A board cell, from `types/index.ts` (`BoardCell`). -/
structure BoardCell where
  state : CellState
  pieceId : Option String := none
  pieceType : Option PentominoType := none
deriving DecidableEq, Repr

/-- Board configuration, from `types/index.ts` (`BoardConfig`). -/
structure BoardConfig where
  width : Int
  height : Int
  blockedCells : List Point
  name : String
  description : String
deriving DecidableEq, Repr

def BoardConfig.dims (config : BoardConfig) : Dimensions :=
  { width := config.width, height := config.height }

/-- A board, from `types/index.ts` (`Board`). -/
structure Board where
  config : BoardConfig
  cells : List (List BoardCell)
  emptyCellCount : Int
deriving DecidableEq, Repr

instance : Inhabited Board :=
  ⟨{ config := { width := 0, height := 0, blockedCells := [], name := "", description := "" },
     cells := [], emptyCellCount := 0 }⟩

def setGridCell (cells : List (List BoardCell)) (x y : Nat) (cell : BoardCell) :
    List (List BoardCell) :=
  match cells.get? y with
  | none => cells
  | some row => cells.set y (row.set x cell)

/-- Read one grid entry. -/
def getGridCell (cells : List (List BoardCell)) (x y : Nat) : Option BoardCell :=
  (cells.get? y).bind (fun row => row.get? x)

def createBoard (config : BoardConfig) : Board :=
  let cells := (List.range config.height.toNat).map
    (fun _ => (List.range config.width.toNat).map (fun _ => ({ state := .empty } : BoardCell)))
  let emptyCellCount : Int := config.width.toNat * config.height.toNat
  let step := fun (acc : List (List BoardCell) × Int) (blockedCell : Point) =>
    if isPointInBounds blockedCell config.dims then
      (setGridCell acc.1 blockedCell.x.toNat blockedCell.y.toNat { state := .blocked }, acc.2 - 1)
    else acc
  let result := config.blockedCells.foldl step (cells, emptyCellCount)
  { config := config, cells := result.1, emptyCellCount := result.2 }

def cloneBoard (board : Board) : Board :=
  { config := { board.config with blockedCells := board.config.blockedCells }
    cells := board.cells.map (fun row => row.map (fun cell => cell))
    emptyCellCount := board.emptyCellCount }

/-- board-utils.ts `isValidPosition`. -/
def isValidPosition (board : Board) (position : Point) : Bool :=
  isPointInBounds position board.config.dims

/-- board-utils.ts `getCellState`. -/
def getCellState (board : Board) (position : Point) : Option CellState :=
  if !isValidPosition board position then none
  else (getGridCell board.cells position.x.toNat position.y.toNat).map (·.state)

def setCellState (board : Board) (position : Point) (state : CellState)
    (pieceId : Option String := none) (pieceType : Option PentominoType := none) :
    Board × Bool :=
  if !isValidPosition board position then (board, false)
  else
    match getGridCell board.cells position.x.toNat position.y.toNat with
    | none => (board, false)
    | some cell =>
      let oldState := cell.state
      let newCell : BoardCell := { state := state, pieceId := pieceId, pieceType := pieceType }
      let cells := setGridCell board.cells position.x.toNat position.y.toNat newCell
      let emptyCellCount :=
        if oldState == .empty && state != .empty then board.emptyCellCount - 1
        else if oldState != .empty && state == .empty then board.emptyCellCount + 1
        else board.emptyCellCount
      ({ board with cells := cells, emptyCellCount := emptyCellCount }, true)

/-- A pentomino piece instance, from `types/index.ts` (`PentominoPiece`). -/
structure PentominoPiece where
  id : String
  type : PentominoType
  position : Point
  variantIndex : Int
  isPlaced : Bool
  isDragging : Bool
  zIndex : Int
deriving DecidableEq, Repr

instance : Inhabited PentominoPiece :=
  ⟨{ id := "", type := .F, position := { x := 0, y := 0 }, variantIndex := 0,
     isPlaced := false, isDragging := false, zIndex := 0 }⟩

def createPentominoPiece (type : PentominoType) (id : String) : PentominoPiece :=
  { id := id, type := type, position := { x := 0, y := 0 }, variantIndex := 0,
    isPlaced := false, isDragging := false, zIndex := 0 }

/-- board-utils.ts `canPlacePiece`: all five cells in bounds and empty. -/
def canPlacePiece (defs : Defs) (board : Board) (piece : PentominoPiece)
    (position : Point) (variantIndex : Option Int) : Bool :=
  let variant := getPentominoVariantD defs piece.type (variantIndex.getD piece.variantIndex)
  let pieceCells := getPieceCells variant position
  pieceCells.all (fun cell =>
    isValidPosition board cell && getCellState board cell == some .empty)

/-- board-utils.ts `placePiece`: check, then occupy the five cells. -/
def placePiece (defs : Defs) (board : Board) (piece : PentominoPiece)
    (position : Point) (variantIndex : Option Int) : Board × Bool :=
  if !canPlacePiece defs board piece position variantIndex then (board, false)
  else
    let variant := getPentominoVariantD defs piece.type (variantIndex.getD piece.variantIndex)
    let pieceCells := getPieceCells variant position
    let board := pieceCells.foldl
      (fun b cell => (setCellState b cell .occupied (some piece.id) (some piece.type)).1) board
    (board, true)

def removePiece (defs : Defs) (board : Board) (piece : PentominoPiece) : Board × Bool :=
  if !piece.isPlaced then (board, false)
  else
    let variant := getPentominoVariantD defs piece.type piece.variantIndex
    let pieceCells := getPieceCells variant piece.position
    let board := pieceCells.foldl
      (fun b cell =>
        if isValidPosition b cell then
          match getGridCell b.cells cell.x.toNat cell.y.toNat with
          | some boardCell =>
            if boardCell.pieceId == some piece.id then (setCellState b cell .empty).1 else b
          | none => b
        else b) board
    (board, true)

/-- board-utils.ts `isBoardComplete`. -/
def isBoardComplete (board : Board) : Bool :=
  board.emptyCellCount == 0

def resetBoard (board : Board) : Board :=
  let cells := board.cells.map (fun row => row.map (fun _ => ({ state := .empty } : BoardCell)))
  let cells := board.config.blockedCells.foldl
    (fun cs blockedCell =>
      if isPointInBounds blockedCell board.config.dims then
        setGridCell cs blockedCell.x.toNat blockedCell.y.toNat { state := .blocked }
      else cs) cells
  { board with
    cells := cells
    emptyCellCount := board.config.width * board.config.height - board.config.blockedCells.length }

/-- Solver algorithm selector, from `types/index.ts`. -/
inductive SolverAlgorithm where
  | backtracking | dancingLinks
deriving DecidableEq, Repr

/-- Solver engine selector, from `types/index.ts`. -/
inductive SolverEngine where
  | javascript | webassembly
deriving DecidableEq, Repr

structure SolverConfig where
  algorithm : SolverAlgorithm
  engine : SolverEngine
  maxTime : Option Int
  maxSolutions : Option Int
  trackSteps : Bool
deriving DecidableEq, Repr

def jsTruthy (v : Option Int) : Bool :=
  match v with
  | none => false
  | some n => n != 0

/-- One placement entry of a solution, from `types/index.ts`. -/
structure SolutionPlacement where
  pieceType : PentominoType
  position : Point
  variantIndex : Int
deriving DecidableEq, Repr

/-- A solver visualization step, from `types/index.ts` (`SolverStep`). -/
structure SolverStep where
  stepNumber : Nat
  pieceType : PentominoType
  position : Point
  variantIndex : Int
  isPlacement : Bool
  boardState : List (List BoardCell)
deriving DecidableEq, Repr

/-- A found solution, from `types/index.ts` (`SolverSolution`). -/
structure SolverSolution where
  id : Nat
  placements : List SolutionPlacement
  steps : List SolverStep
  solvingTime : Int
deriving DecidableEq, Repr

instance : Inhabited SolverSolution :=
  ⟨{ id := 0, placements := [], steps := [], solvingTime := 0 }⟩

/-- The result of a solve call, from `types/index.ts` (`SolverResult`). -/
structure SolverResult where
  success : Bool
  solutions : List SolverSolution
  totalTime : Int
  stepsExplored : Nat
  error : Option String
deriving DecidableEq, Repr

inductive BEvent where
  | step | record
deriving DecidableEq, Repr

/-- The heap of live board objects; a board reference is an index. -/
abbrev Heap : Type := List Board

/-- Dereference a board reference. -/
def heapGet (heap : Heap) (r : Nat) : Board :=
  (List.get? heap r).getD default

/-- Write through a board reference. -/
def heapSet (heap : Heap) (r : Nat) (b : Board) : Heap :=
  List.set heap r b

/-- `placePiece` acting through a board reference. -/
def placePieceH (defs : Defs) (heap : Heap) (r : Nat) (piece : PentominoPiece)
    (position : Point) (variantIndex : Option Int) : Heap × Bool :=
  let (b, ok) := placePiece defs (heapGet heap r) piece position variantIndex
  (heapSet heap r b, ok)

/-- `removePiece` acting through a board reference. -/
def removePieceH (defs : Defs) (heap : Heap) (r : Nat) (piece : PentominoPiece) :
    Heap × Bool :=
  let (b, ok) := removePiece defs (heapGet heap r) piece
  (heapSet heap r b, ok)

structure BState where
  solutions : List SolverSolution
  steps : List SolverStep
  stepsExplored : Nat
  shouldStop : Bool
  clockCalls : Nat
  events : List BEvent
deriving DecidableEq, Repr

/-- One `Date.now()` call: read the clock at the current call index. -/
def tick (clock : Nat → Int) (st : BState) : Int × BState :=
  (clock st.clockCalls, { st with clockCalls := st.clockCalls + 1 })

/-- BacktrackingSolver.addStep (a no-op unless `trackSteps`). -/
def addStep (cfg : SolverConfig) (piece : PentominoPiece) (position : Point)
    (variantIndex : Int) (isPlacement : Bool) (board : Board) (st : BState) : BState :=
  if !cfg.trackSteps then st
  else
    let step : SolverStep :=
      { stepNumber := st.steps.length + 1, pieceType := piece.type, position := position,
        variantIndex := variantIndex, isPlacement := isPlacement,
        boardState := board.cells.map (fun row => row.map (fun cell => cell)) }
    { st with steps := st.steps ++ [step] }

def addSolutionB (cfg : SolverConfig) (clock : Nat → Int) (startTime : Int)
    (pieces : List PentominoPiece) (st : BState) : BState :=
  let solutionSteps := if cfg.trackSteps then st.steps else []
  let placements := (pieces.filter (·.isPlaced)).map
    (fun piece => { pieceType := piece.type, position := piece.position,
                    variantIndex := piece.variantIndex : SolutionPlacement })
  let (now, st) := tick clock st
  let solution : SolverSolution :=
    { id := st.solutions.length + 1, placements := placements, steps := solutionSteps,
      solvingTime := now - startTime }
  { st with solutions := st.solutions ++ [solution], events := .record :: st.events }

def BErr : Type := String × Heap × BState

def BLoopRes : Type := Except BErr (Bool × Heap × List PentominoPiece × BState)

def xLoop (defs : Defs) (cfg : SolverConfig) (r : Nat) (pieceIndex : Nat) (vi : Int)
    (y : Int)
    (recur : Heap → List PentominoPiece → BState →
      Except BErr (Heap × List PentominoPiece × BState)) :
    Nat → Int → Heap → List PentominoPiece → BState → BLoopRes
  | 0, _, heap, pieces, st => .ok (false, heap, pieces, st)
  | xrem + 1, x, heap, pieces, .mk sols stps se stop cc evs =>
    if stop then .ok (true, heap, pieces, .mk sols stps se stop cc evs)
    else
      let position : Point := { x := x, y := y }
      let st : BState := .mk sols stps (se + 1) stop cc (.step :: evs)
      let currentPiece := (pieces.get? pieceIndex).getD default
      if canPlacePiece defs (heapGet heap r) currentPiece position (some vi) then
        let (heap, success) := placePieceH defs heap r currentPiece position (some vi)
        if success then
          let currentPiece := { currentPiece with position := position, isPlaced := true }
          let pieces := pieces.set pieceIndex currentPiece
          let st := addStep cfg currentPiece position vi true (heapGet heap r) st
          match recur heap pieces st with
          | .error e => .error e
          | .ok (heap, pieces, st) =>
            let currentPiece := (pieces.get? pieceIndex).getD default
            let (heap, _) := removePieceH defs heap r currentPiece
            let currentPiece := { currentPiece with isPlaced := false }
            let pieces := pieces.set pieceIndex currentPiece
            let st := addStep cfg currentPiece position vi false (heapGet heap r) st
            xLoop defs cfg r pieceIndex vi y recur xrem (x + 1) heap pieces st
        else xLoop defs cfg r pieceIndex vi y recur xrem (x + 1) heap pieces st
      else xLoop defs cfg r pieceIndex vi y recur xrem (x + 1) heap pieces st

/-- The y scan of BacktrackingSolver.backtrack. -/
def yLoop (defs : Defs) (cfg : SolverConfig) (r : Nat) (pieceIndex : Nat) (vi : Int)
    (width : Nat)
    (recur : Heap → List PentominoPiece → BState →
      Except BErr (Heap × List PentominoPiece × BState)) :
    Nat → Int → Heap → List PentominoPiece → BState → BLoopRes
  | 0, _, heap, pieces, st => .ok (false, heap, pieces, st)
  | yrem + 1, y, heap, pieces, st =>
    match xLoop defs cfg r pieceIndex vi y recur width 0 heap pieces st with
    | .error e => .error e
    | .ok (true, heap, pieces, st) => .ok (true, heap, pieces, st)
    | .ok (false, heap, pieces, st) =>
      yLoop defs cfg r pieceIndex vi width recur yrem (y + 1) heap pieces st

def variantLoop (defs : Defs) (cfg : SolverConfig) (r : Nat) (pieceIndex : Nat)
    (width height : Nat)
    (recur : Heap → List PentominoPiece → BState →
      Except BErr (Heap × List PentominoPiece × BState)) :
    Nat → Int → Heap → List PentominoPiece → BState → BLoopRes
  | 0, _, heap, pieces, st => .ok (false, heap, pieces, st)
  | vrem + 1, vi, heap, pieces, st =>
    if st.shouldStop then .ok (true, heap, pieces, st)
    else
      match yLoop defs cfg r pieceIndex vi width recur height 0 heap
          (pieces.set pieceIndex
            { (pieces.get? pieceIndex).getD default with variantIndex := vi }) st with
      | .error e => .error e
      | .ok (true, heap, pieces, st) => .ok (true, heap, pieces, st)
      | .ok (false, heap, pieces, st) =>
        variantLoop defs cfg r pieceIndex width height recur vrem (vi + 1) heap pieces st

def backtrackStep (defs : Defs) (cfg : SolverConfig) (clock : Nat → Int) (startTime : Int)
    (r : Nat)
    (recur : Heap → List PentominoPiece → Nat → BState →
      Except BErr (Heap × List PentominoPiece × BState))
    (heap : Heap) (pieces : List PentominoPiece) (pieceIndex : Nat) (st : BState) :
    Except BErr (Heap × List PentominoPiece × BState) :=
  match (if jsTruthy cfg.maxTime then
      (if (tick clock st).1 - startTime > cfg.maxTime.getD 0 then
        .error ("Solver timed out", heap,
          { (tick clock st).2 with shouldStop := true })
      else .ok (tick clock st).2)
    else .ok st : Except BErr BState) with
  | .error e => .error e
  | .ok st =>
    if jsTruthy cfg.maxSolutions &&
        (st.solutions.length : Int) >= cfg.maxSolutions.getD 0 then
      .ok (heap, pieces, { st with shouldStop := true })
    else if pieceIndex >= pieces.length then
      if isBoardComplete (heapGet heap r) then
        .ok (heap, pieces, addSolutionB cfg clock startTime pieces st)
      else .ok (heap, pieces, st)
    else
      match variantLoop defs cfg r pieceIndex (heapGet heap r).config.width.toNat
          (heapGet heap r).config.height.toNat
          (fun heap pieces st => recur heap pieces (pieceIndex + 1) st)
          (getPentominoVariantCountD defs ((pieces.get? pieceIndex).getD default).type)
          0 heap pieces st with
      | .error e => .error e
      | .ok (_, heap, pieces, st) => .ok (heap, pieces, st)

def backtrack (defs : Defs) (cfg : SolverConfig) (clock : Nat → Int) (startTime : Int)
    (r : Nat) (rem : Nat) :
    Heap → List PentominoPiece → Nat → BState →
      Except BErr (Heap × List PentominoPiece × BState) :=
  Nat.rec (motive := fun _ => Heap → List PentominoPiece → Nat → BState →
      Except BErr (Heap × List PentominoPiece × BState))
    (fun heap pieces _ st => .ok (heap, pieces, st))
    (fun _ ih => backtrackStep defs cfg clock startTime r ih)
    rem

/-- The letter of a pentomino type, for the solver piece ids. -/
def PentominoType.letter : PentominoType → String
  | .F => "F" | .I => "I" | .L => "L" | .N => "N" | .P => "P" | .T => "T"
  | .U => "U" | .V => "V" | .W => "W" | .X => "X" | .Y => "Y" | .Z => "Z"

def solveB (defs : Defs) (heap : Heap) (r : Nat) (cfg : SolverConfig)
    (clock : Nat → Int) : Heap × SolverResult × BState :=
  let st : BState :=
    { solutions := [], steps := [], stepsExplored := 0, shouldStop := false,
      clockCalls := 0, events := [] }
  let (startTime, st) := tick clock st
  let pieces := getAllPentominoTypes.map
    (fun type => createPentominoPiece type (type.letter ++ "-solver"))
  let workingBoard := cloneBoard (heapGet heap r)
  let w := List.length heap
  let heap := heap ++ [workingBoard]
  match backtrack defs cfg clock startTime w (pieces.length + 1) heap pieces 0 st with
  | .ok (heap, _, st) =>
    let (endTime, st) := tick clock st
    (heap,
     { success := true, solutions := st.solutions, totalTime := endTime - startTime,
       stepsExplored := st.stepsExplored, error := none },
     st)
  | .error (msg, heap, st) =>
    let (endTime, st) := tick clock st
    (heap,
     { success := false, solutions := st.solutions, totalTime := endTime - startTime,
       stepsExplored := st.stepsExplored, error := some msg },
     st)

def stopFree : List Point :=
  [pt 0 0, pt 1 0, pt 2 0, pt 3 0, pt 4 0, pt 6 0, pt 10 0, pt 6 1, pt 9 1, pt 10 1, pt 6 2,
   pt 9 2, pt 6 3, pt 7 3, pt 9 3, pt 1 5, pt 2 5, pt 4 5, pt 5 5, pt 6 5, pt 8 5, pt 10 5,
   pt 0 6, pt 1 6, pt 5 6, pt 8 6, pt 9 6, pt 10 6, pt 1 7, pt 5 7, pt 0 9, pt 1 9, pt 3 9,
   pt 8 9, pt 0 10, pt 1 10, pt 3 10, pt 4 10, pt 7 10, pt 8 10, pt 9 10, pt 0 11, pt 4 11,
   pt 5 11, pt 8 11, pt 0 13, pt 6 13, pt 8 13, pt 0 14, pt 4 14, pt 5 14, pt 6 14, pt 7 14,
   pt 8 14, pt 9 14, pt 10 14, pt 0 15, pt 1 15, pt 2 15, pt 10 15]

/-- The 11x16 board configuration with exactly 60 free cells. -/
def stopConfig : BoardConfig :=
  { width := 11, height := 16
    blockedCells :=
      ((List.range 16).map (fun y => (List.range 11).map (fun x => pt x y))).flatten.filter
        (fun p => !(stopFree.contains p))
    name := "stopper", description := "" }

/-- The concrete board for claim C7. -/
def stopBoard : Board := createBoard stopConfig

/-- A solver configuration asking for one solution, no time limit. -/
def oneSolutionConfig : SolverConfig :=
  { algorithm := .backtracking, engine := .javascript, maxTime := none,
    maxSolutions := some 1, trackSteps := false }

structure DLXNodeData where
  left : Nat
  right : Nat
  up : Nat
  down : Nat
  column : Option Nat
  rowId : Int
  size : Int
  name : String
deriving DecidableEq, Repr

instance : Inhabited DLXNodeData :=
  ⟨{ left := 0, right := 0, up := 0, down := 0, column := none, rowId := -1,
     size := 0, name := "" }⟩

/-- The arena of dancing-links nodes plus the header index. -/
structure DLXMatrix where
  nodes : List DLXNodeData
  header : Nat
deriving DecidableEq, Repr

/-- Read a node. -/
def dlxGet (m : DLXMatrix) (i : Nat) : DLXNodeData :=
  (m.nodes.get? i).getD default

/-- Overwrite a node. -/
def dlxSet (m : DLXMatrix) (i : Nat) (n : DLXNodeData) : DLXMatrix :=
  { m with nodes := m.nodes.set i n }

/-- Field assignment `nodes[i].left = v`. -/
def setLeft (m : DLXMatrix) (i : Nat) (v : Nat) : DLXMatrix :=
  dlxSet m i { dlxGet m i with left := v }

/-- Field assignment `nodes[i].right = v`. -/
def setRight (m : DLXMatrix) (i : Nat) (v : Nat) : DLXMatrix :=
  dlxSet m i { dlxGet m i with right := v }

/-- Field assignment `nodes[i].up = v`. -/
def setUp (m : DLXMatrix) (i : Nat) (v : Nat) : DLXMatrix :=
  dlxSet m i { dlxGet m i with up := v }

/-- Field assignment `nodes[i].down = v`. -/
def setDown (m : DLXMatrix) (i : Nat) (v : Nat) : DLXMatrix :=
  dlxSet m i { dlxGet m i with down := v }

/-- Field assignment `nodes[i].size = v`. -/
def setSize (m : DLXMatrix) (i : Nat) (v : Int) : DLXMatrix :=
  dlxSet m i { dlxGet m i with size := v }

/-- Allocate a fresh node (`new DLXNode(...)`): self-linked. -/
def newDLXNode (m : DLXMatrix) (column : Option Nat) (rowId : Int) (size : Int)
    (name : String) : DLXMatrix × Nat :=
  let i := m.nodes.length
  ({ m with nodes := m.nodes ++
      [{ left := i, right := i, up := i, down := i, column := column,
         rowId := rowId, size := size, name := name }] }, i)

def newColumnNode (m : DLXMatrix) (name : String) : DLXMatrix × Nat :=
  let i := m.nodes.length
  (({ m with nodes := m.nodes ++
      [{ left := i, right := i, up := i, down := i, column := some i,
         rowId := -1, size := 0, name := name }] }, i))

/-- DancingLinksSolver.linkColumnToHeader. -/
def linkColumnToHeader (m : DLXMatrix) (c : Nat) : DLXMatrix :=
  let h := m.header
  let m := setLeft m c (dlxGet m h).left
  let m := setRight m c h
  let m := setRight m (dlxGet m h).left c
  setLeft m h c

/-- DancingLinksSolver.linkNodeToColumn. -/
def linkNodeToColumn (m : DLXMatrix) (node c : Nat) : DLXMatrix :=
  let m := setDown m node c
  let m := setUp m node (dlxGet m c).up
  let m := setDown m (dlxGet m c).up node
  let m := setUp m c node
  setSize m c ((dlxGet m c).size + 1)

def unlinkNode (m : DLXMatrix) (j : Nat) : DLXMatrix :=
  let m := setUp m (dlxGet m j).down (dlxGet m j).up
  let m := setDown m (dlxGet m j).up (dlxGet m j).down
  let c := ((dlxGet m j).column).getD 0
  setSize m c ((dlxGet m c).size - 1)

def relinkNode (m : DLXMatrix) (j : Nat) : DLXMatrix :=
  let c := ((dlxGet m j).column).getD 0
  let m := setSize m c ((dlxGet m c).size + 1)
  let m := setUp m (dlxGet m j).down j
  setDown m (dlxGet m j).up j

/-- The inner loop of cover: `for (j = row.right; j !== row; j = j.right)`. -/
def coverNodesLoop : Nat → DLXMatrix → Nat → Nat → DLXMatrix
  | 0, m, _, _ => m
  | fuel + 1, m, row, j =>
    if j == row then m
    else
      let m := unlinkNode m j
      coverNodesLoop fuel m row (dlxGet m j).right

def coverRowsLoop : Nat → DLXMatrix → Nat → Nat → DLXMatrix
  | 0, m, _, _ => m
  | fuel + 1, m, c, row =>
    if row == c then m
    else
      let m := coverNodesLoop m.nodes.length m row (dlxGet m row).right
      coverRowsLoop fuel m c (dlxGet m row).down

/-- DancingLinksSolver.cover. -/
def cover (m : DLXMatrix) (c : Nat) : DLXMatrix :=
  let m := setLeft m (dlxGet m c).right (dlxGet m c).left
  let m := setRight m (dlxGet m c).left (dlxGet m c).right
  coverRowsLoop m.nodes.length m c (dlxGet m c).down

/-- The inner loop of uncover: `for (j = row.left; j !== row; j = j.left)`. -/
def uncoverNodesLoop : Nat → DLXMatrix → Nat → Nat → DLXMatrix
  | 0, m, _, _ => m
  | fuel + 1, m, row, j =>
    if j == row then m
    else
      let m := relinkNode m j
      uncoverNodesLoop fuel m row (dlxGet m j).left

def uncoverRowsLoop : Nat → DLXMatrix → Nat → Nat → DLXMatrix
  | 0, m, _, _ => m
  | fuel + 1, m, c, row =>
    if row == c then m
    else
      let m := uncoverNodesLoop m.nodes.length m row (dlxGet m row).left
      uncoverRowsLoop fuel m c (dlxGet m row).up

/-- DancingLinksSolver.uncover. -/
def uncover (m : DLXMatrix) (c : Nat) : DLXMatrix :=
  let m := uncoverRowsLoop m.nodes.length m c (dlxGet m c).up
  let m := setLeft m (dlxGet m c).right c
  setRight m (dlxGet m c).left c

/-- Comparison with the initial `minSize = Infinity`. -/
def ltMin (a : Int) : Option Int → Bool
  | none => true
  | some v => a < v

/-- DancingLinksSolver.chooseColumn loop. -/
def chooseColumnLoop : Nat → DLXMatrix → Nat → Option Int → Nat → Nat
  | 0, _, _, _, chosen => chosen
  | fuel + 1, m, col, minSize, chosen =>
    if col == m.header then chosen
    else
      let sz := (dlxGet m col).size
      if ltMin sz minSize then
        chooseColumnLoop fuel m (dlxGet m col).right (some sz) col
      else
        chooseColumnLoop fuel m (dlxGet m col).right minSize chosen

/-- DancingLinksSolver.chooseColumn: the active column of minimum size. -/
def chooseColumn (m : DLXMatrix) : Nat :=
  chooseColumnLoop m.nodes.length m (dlxGet m m.header).right none
    (dlxGet m m.header).right

structure DlxSt where
  solutions : List SolverSolution
  stepsExplored : Nat
  shouldStop : Bool
  clockCalls : Nat
  matrix : DLXMatrix
deriving DecidableEq, Repr

/-- One `Date.now()` call in the dancing-links solver. -/
def dlxTick (clock : Nat → Int) (st : DlxSt) : Int × DlxSt :=
  (clock st.clockCalls, { st with clockCalls := st.clockCalls + 1 })

/-- The map from row ids to placements (`rowToPlacement`). -/
abbrev RowMap : Type := List (Int × SolutionPlacement)

instance : Inhabited SolutionPlacement :=
  ⟨{ pieceType := .F, position := { x := 0, y := 0 }, variantIndex := 0 }⟩

def addSolutionD (clock : Nat → Int) (startTime : Int) (rowMap : RowMap)
    (solutionRows : List Int) (st : DlxSt) : DlxSt :=
  let placements := solutionRows.map (fun rowId => (rowMap.lookup rowId).getD default)
  let (now, st) := dlxTick clock st
  let solution : SolverSolution :=
    { id := st.solutions.length + 1, placements := placements, steps := [],
      solvingTime := now - startTime }
  { st with solutions := st.solutions ++ [solution] }

def coverRowColumns : Nat → DLXMatrix → Nat → Nat → DLXMatrix
  | 0, m, _, _ => m
  | fuel + 1, m, row, j =>
    if j == row then m
    else
      let m := cover m ((dlxGet m j).column.getD 0)
      coverRowColumns fuel m row (dlxGet m j).right

def uncoverRowColumns : Nat → DLXMatrix → Nat → Nat → DLXMatrix
  | 0, m, _, _ => m
  | fuel + 1, m, row, j =>
    if j == row then m
    else
      let m := uncover m ((dlxGet m j).column.getD 0)
      uncoverRowColumns fuel m row (dlxGet m j).left

/-- Error value for the dancing-links throw. -/
def DErr : Type := String × DlxSt

def dlxRowLoop (recur : List Int → DlxSt → Except DErr (List Int × DlxSt)) :
    Nat → Nat → Nat → List Int → DlxSt → Except DErr (Bool × List Int × DlxSt)
  | 0, _, _, solution, st => .ok (false, solution, st)
  | fuel + 1, column, row, solution, st =>
    if row == column then .ok (false, solution, st)
    else if st.shouldStop then .ok (true, solution, st)
    else
      match recur (solution ++ [(dlxGet st.matrix row).rowId])
          { st with
            matrix := coverRowColumns st.matrix.nodes.length st.matrix row
              (dlxGet st.matrix row).right } with
      | .error e => .error e
      | .ok (solution, st) =>
        dlxRowLoop recur fuel column
          (dlxGet (uncoverRowColumns st.matrix.nodes.length st.matrix row
            (dlxGet st.matrix row).left) row).down
          solution.dropLast
          { st with
            matrix := uncoverRowColumns st.matrix.nodes.length st.matrix row
              (dlxGet st.matrix row).left }

def searchStep (cfg : SolverConfig) (clock : Nat → Int) (startTime : Int) (rowMap : RowMap)
    (recur : List Int → DlxSt → Except DErr (List Int × DlxSt))
    (solution : List Int) (st : DlxSt) : Except DErr (List Int × DlxSt) :=
  match (if jsTruthy cfg.maxTime then
      (if (dlxTick clock st).1 - startTime > cfg.maxTime.getD 0 then
        .error ("Solver timed out", { (dlxTick clock st).2 with shouldStop := true })
      else .ok (dlxTick clock st).2)
    else .ok st : Except DErr DlxSt) with
  | .error e => .error e
  | .ok st =>
    if jsTruthy cfg.maxSolutions &&
        (st.solutions.length : Int) >= cfg.maxSolutions.getD 0 then
      .ok (solution, { st with shouldStop := true })
    else if st.shouldStop then .ok (solution, st)
    else if (dlxGet st.matrix st.matrix.header).right == st.matrix.header then
      .ok (solution, addSolutionD clock startTime rowMap solution
        { st with stepsExplored := st.stepsExplored + 1 })
    else
      match dlxRowLoop recur
          (cover st.matrix (chooseColumn st.matrix)).nodes.length
          (chooseColumn st.matrix)
          (dlxGet (cover st.matrix (chooseColumn st.matrix))
            (chooseColumn st.matrix)).down
          solution
          { st with
            stepsExplored := st.stepsExplored + 1
            matrix := cover st.matrix (chooseColumn st.matrix) } with
      | .error e => .error e
      | .ok (true, solution2, st2) => .ok (solution2, st2)
      | .ok (false, solution2, st2) =>
        .ok (solution2, { st2 with matrix := uncover st2.matrix (chooseColumn st.matrix) })

def dlxSearch (cfg : SolverConfig) (clock : Nat → Int) (startTime : Int)
    (rowMap : RowMap) (fuel : Nat) :
    List Int → DlxSt → Except DErr (List Int × DlxSt) :=
  Nat.rec (motive := fun _ => List Int → DlxSt → Except DErr (List Int × DlxSt))
    (fun solution st => .ok (solution, st))
    (fun _ ih => searchStep cfg clock startTime rowMap ih)
    fuel

/-- Field assignment `nodes[i].column = v`. -/
def setColumn (m : DLXMatrix) (i : Nat) (v : Option Nat) : DLXMatrix :=
  dlxSet m i { dlxGet m i with column := v }

/-- The string key `x,y` used by `cellToIndex`. -/
def cellKey (x y : Int) : String :=
  toString x ++ "," ++ toString y

/-- DancingLinksSolver.getPieceBounds. -/
def getPieceBounds (pieceCells : List Point) : Dimensions :=
  match pieceCells with
  | [] => { width := 0, height := 0 }
  | c0 :: _ =>
    let minX := pieceCells.foldl (fun acc c => min acc c.x) c0.x
    let maxX := pieceCells.foldl (fun acc c => max acc c.x) c0.x
    let minY := pieceCells.foldl (fun acc c => min acc c.y) c0.y
    let maxY := pieceCells.foldl (fun acc c => max acc c.y) c0.y
    { width := maxX - minX + 1, height := maxY - minY + 1 }

/-- The cell lookup map built by buildMatrix: string key to cell index. -/
abbrev CellIndex : Type := List (String × Nat)

def createRow (columns : List Nat) (rowId : Int) (pieceType : PentominoType)
    (pieceCells : List Point) (cellToIndex : CellIndex) (pieceColumnOffset : Nat)
    (m : DLXMatrix) : DLXMatrix :=
  let pieceColumnIndex : Int :=
    match getAllPentominoTypes.indexOf? pieceType with
    | some i => (i : Int)
    | none => -1
  let state : DLXMatrix × List Nat :=
    if 0 <= pieceColumnIndex && pieceColumnIndex.toNat < columns.length then
      let col := (columns.get? pieceColumnIndex.toNat).getD 0
      let (m, node) := newDLXNode m none rowId 0 ""
      let m := setColumn m node (some col)
      let m := linkNodeToColumn m node col
      (m, [node])
    else (m, [])
  let state := pieceCells.foldl
    (fun (acc : DLXMatrix × List Nat) cell =>
      let (m, rowNodes) := acc
      match cellToIndex.lookup (cellKey cell.x cell.y) with
      | some cellIndex =>
        let cellColumnIndex := pieceColumnOffset + cellIndex
        if cellColumnIndex < columns.length then
          let col := (columns.get? cellColumnIndex).getD 0
          let (m, node) := newDLXNode m none rowId 0 ""
          let m := setColumn m node (some col)
          let m := linkNodeToColumn m node col
          (m, rowNodes ++ [node])
        else (m, rowNodes)
      | none => (m, rowNodes)) state
  let (m, rowNodes) := state
  if rowNodes.length == 6 then
    (List.range rowNodes.length).foldl
      (fun m i =>
        let current := (rowNodes.get? i).getD 0
        let next := (rowNodes.get? ((i + 1) % rowNodes.length)).getD 0
        let prev := (rowNodes.get? ((i + rowNodes.length - 1) % rowNodes.length)).getD 0
        let m := setRight m current next
        setLeft m current prev) m
  else m

def buildMatrix (defs : Defs) (board : Board) (m0 : DLXMatrix)
    (columns0 : List Nat) (rowMap0 : RowMap) : DLXMatrix × List Nat × RowMap :=
  let W := board.config.width.toNat
  let H := board.config.height.toNat
  let scan : List Point × CellIndex := (List.range H).foldl
    (fun acc y => (List.range W).foldl
      (fun (acc : List Point × CellIndex) x =>
        let isEmpty :=
          match getGridCell board.cells x y with
          | some cell => cell.state == .empty
          | none => false
        if isEmpty = true then
          (acc.1 ++ [pt x y], acc.2 ++ [(cellKey x y, acc.1.length)])
        else acc) acc)
    ([], [])
  let (emptyCells, cellToIndex) := scan
  if emptyCells.length < 60 then (m0, columns0, rowMap0)
  else
    let (m, h) := newColumnNode m0 "header"
    let m := { m with header := h }
    let pieceTypes := getAllPentominoTypes
    let state := pieceTypes.foldl
      (fun (acc : DLXMatrix × List Nat) pieceType =>
        let (m, c) := newColumnNode acc.1 ("piece-" ++ pieceType.letter)
        (linkColumnToHeader m c, acc.2 ++ [c])) (m, [])
    let state := emptyCells.foldl
      (fun (acc : DLXMatrix × List Nat) cell =>
        let (m, c) := newColumnNode acc.1
          ("cell-" ++ toString cell.x ++ "-" ++ toString cell.y)
        (linkColumnToHeader m c, acc.2 ++ [c])) state
    let (m, columns) := state
    let rowState := pieceTypes.foldl
      (fun (acc : DLXMatrix × RowMap × Int) pieceType =>
        let variantCount := getPentominoVariantCountD defs pieceType
        (List.range variantCount).foldl
          (fun (acc : DLXMatrix × RowMap × Int) variantIndex =>
            let variant := getPentominoVariantD defs pieceType variantIndex
            let pieceCells := getPieceCells variant (pt 0 0)
            let bounds := getPieceBounds pieceCells
            let maxX := board.config.width - bounds.width
            let maxY := board.config.height - bounds.height
            (List.range (maxY + 1).toNat).foldl
              (fun (acc : DLXMatrix × RowMap × Int) y =>
                (List.range (maxX + 1).toNat).foldl
                  (fun (acc : DLXMatrix × RowMap × Int) x =>
                    let (m, rowMap, rowId) := acc
                    let position := pt x y
                    let pieceCells := getPieceCells variant position
                    let isValidPlacement := pieceCells.all
                      (fun cell =>
                        (cellToIndex.lookup (cellKey cell.x cell.y)).isSome)
                    if isValidPlacement && pieceCells.length == 5 then
                      let m := createRow columns rowId pieceType pieceCells
                        cellToIndex pieceTypes.length m
                      (m, rowMap ++
                        [(rowId,
                          { pieceType := pieceType, position := position,
                            variantIndex := variantIndex })], rowId + 1)
                    else acc) acc) acc) acc)
      (m, rowMap0, (0 : Int))
    (rowState.1, columns, rowState.2.1)

def initialDLXMatrix : DLXMatrix :=
  { nodes := [{ left := 0, right := 0, up := 0, down := 0, column := some 0,
                rowId := -1, size := 0, name := "header" }]
    header := 0 }

def solveD (defs : Defs) (heap : Heap) (r : Nat) (cfg : SolverConfig)
    (clock : Nat → Int) : Heap × SolverResult × DlxSt :=
  let st : DlxSt :=
    { solutions := [], stepsExplored := 0, shouldStop := false, clockCalls := 0,
      matrix := initialDLXMatrix }
  let (startTime, st) := dlxTick clock st
  let (matrix, _, rowMap) := buildMatrix defs (heapGet heap r) st.matrix [] []
  let st := { st with matrix := matrix }
  let fuel := st.matrix.nodes.length + 1
  match dlxSearch cfg clock startTime rowMap fuel [] st with
  | .ok (_, st) =>
    let (endTime, st) := dlxTick clock st
    (heap,
     { success := true, solutions := st.solutions, totalTime := endTime - startTime,
       stepsExplored := st.stepsExplored, error := none },
     st)
  | .error (msg, st) =>
    let (endTime, st) := dlxTick clock st
    (heap,
     { success := false, solutions := st.solutions, totalTime := endTime - startTime,
       stepsExplored := st.stepsExplored, error := some msg },
     st)

def validateSolution (board : Board) (solution : SolverSolution) :
    Bool × List String :=
  let errors : List String := []
  let errors :=
    if solution.placements.length != 12 then
      errors ++ ["Solution should have 12 pieces, but has " ++
        toString solution.placements.length]
    else errors
  let pieceTypes := solution.placements.map (·.pieceType)
  let uniqueTypes := pieceTypes.foldl
    (fun (acc : List PentominoType) t => if acc.contains t then acc else acc ++ [t]) []
  let errors :=
    if uniqueTypes.length != pieceTypes.length then
      errors ++ ["Solution contains duplicate piece types"]
    else errors
  let errors := solution.placements.foldl
    (fun errors placement =>
      let position := placement.position
      if position.x < 0 || position.x >= board.config.width ||
          position.y < 0 || position.y >= board.config.height then
        errors ++ ["Piece position is out of bounds"]
      else errors) errors
  let testBoard := resetBoard (cloneBoard board)
  let final := solution.placements.foldl
    (fun (acc : List String × List String) placement =>
      let (errors, occupiedCells) := acc
      let variant := getPentominoVariant placement.pieceType placement.variantIndex
      variant.cells.foldl
        (fun (acc : List String × List String) cell =>
          let (errors, occupiedCells) := acc
          let actualX := placement.position.x + cell.x
          let actualY := placement.position.y + cell.y
          let key := cellKey actualX actualY
          if actualX < 0 || actualX >= board.config.width ||
              actualY < 0 || actualY >= board.config.height then
            (errors ++ ["Piece extends outside board bounds"], occupiedCells)
          else
            let (errors, occupiedCells) :=
              if occupiedCells.contains key then
                (errors ++ ["Piece overlaps with another piece"], occupiedCells)
              else (errors, occupiedCells ++ [key])
            let isBlocked :=
              match getGridCell testBoard.cells actualX.toNat actualY.toNat with
              | some boardCell => boardCell.state == .blocked
              | none => false
            if isBlocked = true then
              (errors ++ ["Piece tries to occupy blocked cell"], occupiedCells)
            else (errors, occupiedCells)) (errors, occupiedCells))
    (errors, [])
  (final.1.length == 0, final.1)

/-- A progress snapshot, the return shape of `getProgress`. -/
structure SolverProgress where
  stepsExplored : Nat
  solutionsFound : Nat
  timeElapsed : Int
deriving DecidableEq, Repr

structure BacktrackingSolverObj where
  config : SolverConfig
  startTime : Int
  solutions : List SolverSolution
  steps : List SolverStep
  stepsExplored : Nat
  shouldStop : Bool
deriving Repr

/-- `new BacktrackingSolver(config)`: field initializers. -/
def newBacktrackingSolver (config : SolverConfig) : BacktrackingSolverObj :=
  { config := config, startTime := 0, solutions := [], steps := [],
    stepsExplored := 0, shouldStop := false }

def backtrackingGetProgress (s : BacktrackingSolverObj) (now : Int) : SolverProgress :=
  { stepsExplored := s.stepsExplored, solutionsFound := s.solutions.length,
    timeElapsed := now - s.startTime }

/-- The fields of a `DancingLinksSolver` object relevant to `getProgress`. -/
structure DancingLinksSolverObj where
  config : SolverConfig
  startTime : Int
  solutions : List SolverSolution
  stepsExplored : Nat
  shouldStop : Bool
  matrix : DLXMatrix
deriving Repr

/-- `new DancingLinksSolver(config)`: field initializers. -/
def newDancingLinksSolver (config : SolverConfig) : DancingLinksSolverObj :=
  { config := config, startTime := 0, solutions := [], stepsExplored := 0,
    shouldStop := false, matrix := initialDLXMatrix }

/-- DancingLinksSolver.getProgress. -/
def dancingLinksGetProgress (s : DancingLinksSolverObj) (now : Int) : SolverProgress :=
  { stepsExplored := s.stepsExplored, solutionsFound := s.solutions.length,
    timeElapsed := now - s.startTime }

/-- The 7x7 board with no blocked cells: 49 free cells, fewer than 60. -/
def sevenConfig : BoardConfig :=
  { width := 7, height := 7, blockedCells := [], name := "7x7", description := "" }

/-- The concrete board exhibiting the under-60 dancing-links behavior. -/
def sevenBoard : Board := createBoard sevenConfig

def countEmpty (cells : List (List BoardCell)) : Nat :=
  (cells.map (fun row => row.countP (fun c => c.state == .empty))).sum

/-- A mutation of a board through the public board-utils API. -/
inductive BoardOp where
  | set (position : Point) (state : CellState) (pieceId : Option String)
      (pieceType : Option PentominoType)
  | place (piece : PentominoPiece) (position : Point) (variantIndex : Option Int)
  | remove (piece : PentominoPiece)

/-- Apply one board operation, discarding the returned success flag. -/
def applyOp (defs : Defs) (board : Board) : BoardOp → Board
  | .set position state pieceId pieceType =>
    (setCellState board position state pieceId pieceType).1
  | .place piece position variantIndex =>
    (placePiece defs board piece position variantIndex).1
  | .remove piece => (removePiece defs board piece).1

/-- Apply a sequence of board operations. -/
def applyOps (defs : Defs) (ops : List BoardOp) (board : Board) : Board :=
  ops.foldl (applyOp defs) board

/-- The grid has `height` rows of `width` cells each. -/
def GridWF (board : Board) : Prop :=
  board.cells.length = board.config.height.toNat ∧
  ∀ row ∈ board.cells, row.length = board.config.width.toNat

/-- The cached `emptyCellCount` equals the actual number of empty cells. -/
def CountInv (board : Board) : Prop :=
  board.emptyCellCount = (countEmpty board.cells : Int)

def timeoutConfig : SolverConfig :=
  { algorithm := .backtracking, engine := .javascript, maxTime := some 1,
    maxSolutions := none, trackSteps := false }

def tinyConfig : BoardConfig :=
  { width := 1, height := 1, blockedCells := [], name := "1x1", description := "" }

def tinyBoard : Board := createBoard tinyConfig

def lateClock : Nat → Int := fun n => if n == 0 then 0 else 100

def bstOfRec : Except BErr (Heap × List PentominoPiece × BState) → BState
  | .ok (_, _, st) => st
  | .error (_, _, st) => st

def bstOfLoop : BLoopRes → BState
  | .ok (_, _, _, st) => st
  | .error (_, _, st) => st

def dstOfRec : Except DErr (List Int × DlxSt) → DlxSt
  | .ok (_, st) => st
  | .error (_, st) => st

def dstOfLoop : Except DErr (Bool × List Int × DlxSt) → DlxSt
  | .ok (_, _, st) => st
  | .error (_, st) => st

def bheapOfRec : Except BErr (Heap × List PentominoPiece × BState) → Heap
  | .ok (h, _, _) => h
  | .error (_, h, _) => h

def bheapOfLoop : BLoopRes → Heap
  | .ok (_, h, _, _) => h
  | .error (_, h, _) => h

def vOK (m : DLXMatrix) (j : Nat) : Prop :=
  j < m.nodes.length ∧
  (dlxGet m j).down < m.nodes.length ∧
  (dlxGet m j).up < m.nodes.length ∧
  (dlxGet m (dlxGet m j).down).up = j ∧
  (dlxGet m (dlxGet m j).up).down = j

def PairedOK : DLXMatrix → List Nat → Prop
  | _, [] => True
  | m, j :: rest => vOK m j ∧ PairedOK (unlinkNode m j) rest

def chainList (f : Nat → Nat) (stop : Nat) : Nat → Nat → List Nat
  | 0, _ => []
  | fuel + 1, x => if x == stop then [] else x :: chainList f stop fuel (f x)

def colOf (m0 : DLXMatrix) (x : Nat) : Option Nat := (dlxGet m0 x).column

structure StInv (c : Nat) (m0 m : DLXMatrix) : Prop where
  len : m.nodes.length = m0.nodes.length
  right : ∀ x, (dlxGet m x).right = (dlxGet m0 x).right
  left : ∀ x, (dlxGet m x).left = (dlxGet m0 x).left
  column : ∀ x, (dlxGet m x).column = (dlxGet m0 x).column
  vbound : ∀ x, x < m0.nodes.length →
    (dlxGet m x).up < m0.nodes.length ∧ (dlxGet m x).down < m0.nodes.length
  colCl : ∀ x, x < m0.nodes.length →
    colOf m0 ((dlxGet m x).up) = colOf m0 x ∧
    colOf m0 ((dlxGet m x).down) = colOf m0 x
  cUp : ∀ x, x < m0.nodes.length → colOf m0 x = some c →
    (dlxGet m x).up = (dlxGet m0 x).up
  cDown : ∀ x, x < m0.nodes.length → colOf m0 x = some c →
    (dlxGet m x).down = (dlxGet m0 x).down

def dlxRows (m : DLXMatrix) (c : Nat) : List Nat :=
  chainList (fun x => (dlxGet m x).down) c m.nodes.length ((dlxGet m c).down)

def dlxRowNodes (m : DLXMatrix) (r : Nat) : List Nat :=
  chainList (fun x => (dlxGet m x).right) r m.nodes.length ((dlxGet m r).right)

def dlxWF (m : DLXMatrix) (c : Nat) : Prop :=
  c < m.nodes.length ∧
  (∀ x, x < m.nodes.length → (dlxGet m x).up < m.nodes.length ∧
    (dlxGet m x).down < m.nodes.length) ∧
  (∀ x, x < m.nodes.length →
    colOf m ((dlxGet m x).up) = colOf m x ∧
    colOf m ((dlxGet m x).down) = colOf m x) ∧
  colOf m c = some c ∧
  (dlxGet m c).right ≠ c ∧
  (dlxGet m c).left ≠ c ∧
  (dlxGet m (dlxGet m c).right).left = c ∧
  (dlxGet m (dlxGet m c).left).right = c ∧
  (∀ r ∈ dlxRows m c, r < m.nodes.length ∧ colOf m r = some c) ∧
  (∀ r ∈ dlxRows m c, ∀ j ∈ dlxRowNodes m r,
    j < m.nodes.length ∧ colOf m j ≠ some c ∧ vOK m j) ∧
  ((dlxRows m c).bind (dlxRowNodes m)).Nodup ∧
  chainList (fun x => (dlxGet m x).up) c m.nodes.length ((dlxGet m c).up) =
    (dlxRows m c).reverse ∧
  (∀ r ∈ dlxRows m c,
    chainList (fun x => (dlxGet m x).left) r m.nodes.length ((dlxGet m r).left) =
      (dlxRowNodes m r).reverse) ∧
  (dlxGet m c).right ∉ dlxRows m c ∧
  (dlxGet m c).left ∉ dlxRows m c ∧
  (∀ r ∈ dlxRows m c, (dlxGet m c).right ∉ dlxRowNodes m r ∧
    (dlxGet m c).left ∉ dlxRowNodes m r)

def coverHdr (m : DLXMatrix) (c : Nat) : DLXMatrix :=
  setRight (setLeft m (dlxGet m c).right (dlxGet m c).left)
    (dlxGet m c).left (dlxGet m c).right

instance vOK.dec (m : DLXMatrix) (j : Nat) : Decidable (vOK m j) := by
  unfold vOK
  exact inferInstance

instance dlxWF.dec (m : DLXMatrix) (c : Nat) : Decidable (dlxWF m c) := by
  unfold dlxWF
  exact inferInstance

def wfNode (l r u d : Nat) (col : Nat) : DLXNodeData :=
  { left := l
    right := r
    up := u
    down := d
    column := some col
    rowId := 0
    size := 1
    name := "" }

def wfMatrix : DLXMatrix :=
  { nodes := [wfNode 2 1 0 0 0, wfNode 0 2 3 3 1, wfNode 1 0 4 4 2,
      wfNode 4 4 1 1 1, wfNode 3 3 2 2 2]
    header := 0 }

/-- The literal table is exactly the module-level `PENTOMINO_DEFINITIONS`. -/
theorem literalDefs_eq : literalDefs = PENTOMINO_DEFINITIONS := by
  funext t
  cases t <;> rfl

theorem xLoop_error_msg (defs : Defs) (cfg : SolverConfig) (r pieceIndex : Nat) (vi : Int)
    (y : Int)
    (recur : Heap → List PentominoPiece → BState →
      Except BErr (Heap × List PentominoPiece × BState))
    (hrec : ∀ h p s e, recur h p s = .error e → e.1 = "Solver timed out") :
    ∀ xrem (x : Int) heap pieces st e,
      xLoop defs cfg r pieceIndex vi y recur xrem x heap pieces st = .error e →
      e.1 = "Solver timed out" := by
  intro xrem
  induction xrem with
  | zero =>
    intro x heap pieces st e h
    simp [xLoop] at h
  | succ n ih =>
    intro x heap pieces st e h
    cases st with
    | mk sols stps se stop cc evs =>
      rw [xLoop] at h
      dsimp only at h
      split at h
      case isTrue => exact absurd h (by simp)
      case isFalse =>
        split at h
        case isTrue =>
          split at h
          case isTrue =>
            split at h
            case h_1 e1 heq =>
              cases h
              exact hrec _ _ _ _ heq
            case h_2 => exact ih _ _ _ _ _ h
          case isFalse => exact ih _ _ _ _ _ h
        case isFalse => exact ih _ _ _ _ _ h

theorem yLoop_error_msg (defs : Defs) (cfg : SolverConfig) (r pieceIndex : Nat) (vi : Int)
    (width : Nat)
    (recur : Heap → List PentominoPiece → BState →
      Except BErr (Heap × List PentominoPiece × BState))
    (hrec : ∀ h p s e, recur h p s = .error e → e.1 = "Solver timed out") :
    ∀ yrem (y : Int) heap pieces st e,
      yLoop defs cfg r pieceIndex vi width recur yrem y heap pieces st = .error e →
      e.1 = "Solver timed out" := by
  intro yrem
  induction yrem with
  | zero =>
    intro y heap pieces st e h
    simp [yLoop] at h
  | succ n ih =>
    intro y heap pieces st e h
    rw [yLoop] at h
    split at h
    case h_1 e1 heq =>
      cases h
      exact xLoop_error_msg defs cfg r pieceIndex vi y recur hrec _ _ _ _ _ _ heq
    case h_2 => exact absurd h (by simp)
    case h_3 => exact ih _ _ _ _ _ h

theorem variantLoop_error_msg (defs : Defs) (cfg : SolverConfig) (r pieceIndex : Nat)
    (width height : Nat)
    (recur : Heap → List PentominoPiece → BState →
      Except BErr (Heap × List PentominoPiece × BState))
    (hrec : ∀ h p s e, recur h p s = .error e → e.1 = "Solver timed out") :
    ∀ vrem (vi : Int) heap pieces st e,
      variantLoop defs cfg r pieceIndex width height recur vrem vi heap pieces st =
        .error e →
      e.1 = "Solver timed out" := by
  intro vrem
  induction vrem with
  | zero =>
    intro vi heap pieces st e h
    simp [variantLoop] at h
  | succ n ih =>
    intro vi heap pieces st e h
    rw [variantLoop] at h
    split at h
    case isTrue => exact absurd h (by simp)
    case isFalse =>
      split at h
      case h_1 e1 heq =>
        cases h
        exact yLoop_error_msg defs cfg r pieceIndex vi width recur hrec _ _ _ _ _ _ heq
      case h_2 => exact absurd h (by simp)
      case h_3 => exact ih _ _ _ _ _ h

theorem backtrackStep_error_msg (defs : Defs) (cfg : SolverConfig) (clock : Nat → Int)
    (startTime : Int) (r : Nat)
    (recur : Heap → List PentominoPiece → Nat → BState →
      Except BErr (Heap × List PentominoPiece × BState))
    (hrec : ∀ h p i s e, recur h p i s = .error e → e.1 = "Solver timed out") :
    ∀ heap pieces pieceIndex st e,
      backtrackStep defs cfg clock startTime r recur heap pieces pieceIndex st =
        .error e →
      e.1 = "Solver timed out" := by
  intro heap pieces pieceIndex st e h
  rw [backtrackStep] at h
  split at h
  case h_1 e1 heq =>
    cases h
    split at heq
    · dsimp only at heq
      split at heq
      · cases heq
        rfl
      · exact absurd heq (by simp)
    · exact absurd heq (by simp)
  case h_2 =>
    split at h
    case isTrue => exact absurd h (by simp)
    case isFalse =>
      split at h
      case isTrue =>
        split at h <;> exact absurd h (by simp)
      case isFalse =>
        split at h
        case h_1 e1 heq =>
          cases h
          exact variantLoop_error_msg defs cfg r pieceIndex _ _ _
            (fun hh pp ss ee hhh => hrec _ _ _ _ _ hhh) _ _ _ _ _ _ heq
        case h_2 => exact absurd h (by simp)

theorem backtrack_error_msg (defs : Defs) (cfg : SolverConfig) (clock : Nat → Int)
    (startTime : Int) (r : Nat) :
    ∀ rem heap pieces pieceIndex st e,
      backtrack defs cfg clock startTime r rem heap pieces pieceIndex st = .error e →
      e.1 = "Solver timed out" := by
  intro rem
  induction rem with
  | zero =>
    intro heap pieces pieceIndex st e h
    exact absurd h (by simp [backtrack])
  | succ n ih =>
    intro heap pieces pieceIndex st e h
    exact backtrackStep_error_msg defs cfg clock startTime r
      (backtrack defs cfg clock startTime r n) ih heap pieces pieceIndex st e h

theorem dlxRowLoop_error_msg
    (recur : List Int → DlxSt → Except DErr (List Int × DlxSt))
    (hrec : ∀ s t e, recur s t = .error e → e.1 = "Solver timed out") :
    ∀ fuel column row solution st e,
      dlxRowLoop recur fuel column row solution st = .error e →
      e.1 = "Solver timed out" := by
  intro fuel
  induction fuel with
  | zero =>
    intro column row solution st e h
    simp [dlxRowLoop] at h
  | succ n ih =>
    intro column row solution st e h
    rw [dlxRowLoop] at h
    split at h
    case isTrue => exact absurd h (by simp)
    case isFalse =>
      split at h
      case isTrue => exact absurd h (by simp)
      case isFalse =>
        split at h
        case h_1 e1 heq =>
          cases h
          exact hrec _ _ _ heq
        case h_2 => exact ih _ _ _ _ _ h

theorem searchStep_error_msg (cfg : SolverConfig) (clock : Nat → Int) (startTime : Int)
    (rowMap : RowMap)
    (recur : List Int → DlxSt → Except DErr (List Int × DlxSt))
    (hrec : ∀ s t e, recur s t = .error e → e.1 = "Solver timed out") :
    ∀ solution st e,
      searchStep cfg clock startTime rowMap recur solution st = .error e →
      e.1 = "Solver timed out" := by
  intro solution st e h
  rw [searchStep] at h
  split at h
  case h_1 e1 heq =>
    cases h
    split at heq
    · split at heq
      · cases heq
        rfl
      · exact absurd heq (by simp)
    · exact absurd heq (by simp)
  case h_2 =>
    split at h
    case isTrue => exact absurd h (by simp)
    case isFalse =>
      split at h
      case isTrue => exact absurd h (by simp)
      case isFalse =>
        split at h
        case isTrue => exact absurd h (by simp)
        case isFalse =>
          split at h
          case h_1 e1 heq =>
            cases h
            exact dlxRowLoop_error_msg recur hrec _ _ _ _ _ _ heq
          case h_2 => exact absurd h (by simp)
          case h_3 => exact absurd h (by simp)

theorem dlxSearch_error_msg (cfg : SolverConfig) (clock : Nat → Int) (startTime : Int)
    (rowMap : RowMap) :
    ∀ fuel solution st e,
      dlxSearch cfg clock startTime rowMap fuel solution st = .error e →
      e.1 = "Solver timed out" := by
  intro fuel
  induction fuel with
  | zero =>
    intro solution st e h
    exact absurd h (by simp [dlxSearch])
  | succ n ih =>
    intro solution st e h
    exact searchStep_error_msg cfg clock startTime rowMap
      (dlxSearch cfg clock startTime rowMap n) ih solution st e h

theorem solveB_timeout (defs : Defs) (heap : Heap) (r : Nat) (cfg : SolverConfig)
    (clock : Nat → Int)
    (hsome : (solveB defs heap r cfg clock).2.1.error.isSome = true) :
    (solveB defs heap r cfg clock).2.1.success = false ∧
    (solveB defs heap r cfg clock).2.1.error = some "Solver timed out" ∧
    (solveB defs heap r cfg clock).2.1.solutions =
      (solveB defs heap r cfg clock).2.2.solutions := by
  revert hsome
  unfold solveB
  dsimp only
  split
  case h_1 x heap2 pieces2 st2 heq =>
    intro hsome
    exact absurd hsome (by simp)
  case h_2 x e heq =>
    intro hsome
    obtain ⟨msg, heap2, st2⟩ := e
    refine ⟨rfl, ?_, rfl⟩
    have := backtrack_error_msg defs cfg clock _ heap.length _ _ _ _ _ _ heq
    exact congrArg some this

theorem solveD_timeout (defs : Defs) (heap : Heap) (r : Nat) (cfg : SolverConfig)
    (clock : Nat → Int)
    (hsome : (solveD defs heap r cfg clock).2.1.error.isSome = true) :
    (solveD defs heap r cfg clock).2.1.success = false ∧
    (solveD defs heap r cfg clock).2.1.error = some "Solver timed out" ∧
    (solveD defs heap r cfg clock).2.1.solutions =
      (solveD defs heap r cfg clock).2.2.solutions := by
  revert hsome
  unfold solveD
  dsimp only
  split
  case h_1 x sol st2 heq =>
    intro hsome
    exact absurd hsome (by simp)
  case h_2 x e heq =>
    intro hsome
    obtain ⟨msg, st2⟩ := e
    refine ⟨rfl, ?_, rfl⟩
    have := dlxSearch_error_msg cfg clock _ _ _ _ _ _ heq
    exact congrArg some this

/-- Counterexample to claim C3 as stated: a 1x1 board with
`maxTime := some 1` and a clock that jumps from 0 to 100 makes the deadline
expire inside both solvers, and the returned result has `success = false`,
not the claimed `success: true` (and `SolverResult` has no `timedOut`
field at all). -/
theorem c3_timeout_counterexample :
    (solveB PENTOMINO_DEFINITIONS [tinyBoard] 0 timeoutConfig lateClock).2.1.error.isSome = true ∧
    (solveB PENTOMINO_DEFINITIONS [tinyBoard] 0 timeoutConfig lateClock).2.1.success ≠ true ∧
    (solveD PENTOMINO_DEFINITIONS [tinyBoard] 0 timeoutConfig lateClock).2.1.error.isSome = true ∧
    (solveD PENTOMINO_DEFINITIONS [tinyBoard] 0 timeoutConfig lateClock).2.1.success ≠ true := by
  decide

/-- Claim C3 (amended): whenever the `maxTime` deadline expires during a
solve call (the timeout throw is the only error path of either solver, so
`error.isSome` characterizes it), the returned result has `success = false`
and `error = some "Solver timed out"`, and every solution found before the
deadline is included in the returned solutions list rather than discarded:
`result.solutions` equals the solutions list of the final solver state
carried by the exception. -/
theorem c3_timeout_reports_failure (defs : Defs) (heap : Heap) (r : Nat)
    (cfg : SolverConfig) (clock : Nat → Int) :
    ((solveB defs heap r cfg clock).2.1.error.isSome = true →
      (solveB defs heap r cfg clock).2.1.success = false ∧
      (solveB defs heap r cfg clock).2.1.error = some "Solver timed out" ∧
      (solveB defs heap r cfg clock).2.1.solutions =
        (solveB defs heap r cfg clock).2.2.solutions) ∧
    ((solveD defs heap r cfg clock).2.1.error.isSome = true →
      (solveD defs heap r cfg clock).2.1.success = false ∧
      (solveD defs heap r cfg clock).2.1.error = some "Solver timed out" ∧
      (solveD defs heap r cfg clock).2.1.solutions =
        (solveD defs heap r cfg clock).2.2.solutions) :=
  ⟨solveB_timeout defs heap r cfg clock, solveD_timeout defs heap r cfg clock⟩

/-- Witness for claim C3: the amended theorem applied to the concrete
timed-out run of both solvers on the 1x1 board. -/
theorem c3_timeout_reports_failure_witness :
    ((solveB PENTOMINO_DEFINITIONS [tinyBoard] 0 timeoutConfig lateClock).2.1.error.isSome = true ∧
      ((solveB PENTOMINO_DEFINITIONS [tinyBoard] 0 timeoutConfig lateClock).2.1.success = false ∧
       (solveB PENTOMINO_DEFINITIONS [tinyBoard] 0 timeoutConfig lateClock).2.1.error = some "Solver timed out" ∧
       (solveB PENTOMINO_DEFINITIONS [tinyBoard] 0 timeoutConfig lateClock).2.1.solutions =
         (solveB PENTOMINO_DEFINITIONS [tinyBoard] 0 timeoutConfig lateClock).2.2.solutions)) ∧
    ((solveD PENTOMINO_DEFINITIONS [tinyBoard] 0 timeoutConfig lateClock).2.1.error.isSome = true ∧
      ((solveD PENTOMINO_DEFINITIONS [tinyBoard] 0 timeoutConfig lateClock).2.1.success = false ∧
       (solveD PENTOMINO_DEFINITIONS [tinyBoard] 0 timeoutConfig lateClock).2.1.error = some "Solver timed out" ∧
       (solveD PENTOMINO_DEFINITIONS [tinyBoard] 0 timeoutConfig lateClock).2.1.solutions =
         (solveD PENTOMINO_DEFINITIONS [tinyBoard] 0 timeoutConfig lateClock).2.2.solutions)) :=
  ⟨⟨by decide,
    (c3_timeout_reports_failure PENTOMINO_DEFINITIONS [tinyBoard] 0 timeoutConfig lateClock).1 (by decide)⟩,
   ⟨by decide,
    (c3_timeout_reports_failure PENTOMINO_DEFINITIONS [tinyBoard] 0 timeoutConfig lateClock).2 (by decide)⟩⟩

/-- Claim C1 (code bug): every Solution returned by a solve call is claimed
to have exactly 12 placements, one per piece type, covering exactly the 60
free cells. Refuted on the dancing-links solver: on a 7x7 all-free board
(49 free cells) `buildMatrix` returns early before the reallocated
constructor header is linked to any column, so the header is self-linked,
`search` immediately records the running (empty) solution, and `solve`
returns success with one solution that has 0 placements; the repository's
own `validateSolution` rejects it. -/
theorem c1_dlx_returns_invalid_solution :
    ((solveD PENTOMINO_DEFINITIONS [sevenBoard] 0 oneSolutionConfig (fun _ => 0)).2.1.success = true) ∧
    ((solveD PENTOMINO_DEFINITIONS [sevenBoard] 0 oneSolutionConfig (fun _ => 0)).2.1.solutions.length = 1) ∧
    (((solveD PENTOMINO_DEFINITIONS [sevenBoard] 0 oneSolutionConfig (fun _ => 0)).2.1.solutions.getD 0 default).placements.length = 0) ∧
    ((validateSolution sevenBoard
      ((solveD PENTOMINO_DEFINITIONS [sevenBoard] 0 oneSolutionConfig (fun _ => 0)).2.1.solutions.getD 0 default)).1 = false) := by
  decide

/-- Claim C2 (code bug): a board whose free-cell count is not 60 is claimed
to yield `success: true` with an empty solutions list on both solvers.
Refuted on the dancing-links solver: the 7x7 all-free board has 49 free
cells, yet `solveD` returns a non-empty solutions list (the bogus empty
solution recorded through the self-linked header left by the early return
of `buildMatrix`). -/
theorem c2_infeasible_board_nonempty_solutions :
    (countEmpty sevenBoard.cells ≠ 60) ∧
    ((solveD PENTOMINO_DEFINITIONS [sevenBoard] 0 oneSolutionConfig (fun _ => 0)).2.1.solutions ≠ []) := by
  decide

/-- Counterexample to claim C5 as stated: the T pentomino generates 4
orientations, not the claimed 8 (it has an axis of symmetry, so the
reflections duplicate rotations and are deduplicated). -/
theorem c5_variant_counts_counterexample :
    (generateShapeVariants (BASE_SHAPES PentominoType.T)).length ≠ 8 := by decide

/-- Claim C5 (amended): `generateShapeVariants` on the 12 base shapes
yields orientation-set sizes F=8, I=2, L=8, N=8, P=8, T=4, U=4, V=4, W=4,
X=1, Y=8, Z=4 (the claimed 8 for T, U, V, W is wrong: those pieces have a
mirror symmetry), and every generated variant has exactly 5 cells with
minimum x and minimum y both 0. -/
theorem c5_variant_counts :
    ((generateShapeVariants (BASE_SHAPES .F)).length = 8 ∧
     (generateShapeVariants (BASE_SHAPES .I)).length = 2 ∧
     (generateShapeVariants (BASE_SHAPES .L)).length = 8 ∧
     (generateShapeVariants (BASE_SHAPES .N)).length = 8 ∧
     (generateShapeVariants (BASE_SHAPES .P)).length = 8 ∧
     (generateShapeVariants (BASE_SHAPES .T)).length = 4 ∧
     (generateShapeVariants (BASE_SHAPES .U)).length = 4 ∧
     (generateShapeVariants (BASE_SHAPES .V)).length = 4 ∧
     (generateShapeVariants (BASE_SHAPES .W)).length = 4 ∧
     (generateShapeVariants (BASE_SHAPES .X)).length = 1 ∧
     (generateShapeVariants (BASE_SHAPES .Y)).length = 8 ∧
     (generateShapeVariants (BASE_SHAPES .Z)).length = 4) ∧
    (∀ t : PentominoType, ∀ v ∈ generateShapeVariants (BASE_SHAPES t),
      v.cells.length = 5 ∧ (v.cells.map (fun p => p.x)).min? = some 0 ∧
      (v.cells.map (fun p => p.y)).min? = some 0) := by decide

/-- Counterexample to claim C8 as stated: on a freshly constructed solver
`getProgress` does not return `timeElapsed = 0` when the clock reads 1000:
`startTime` is initialized to 0, so `timeElapsed = Date.now() - 0` is the
full clock value, for both solvers. -/
theorem c8_fresh_progress_counterexample :
    (backtrackingGetProgress (newBacktrackingSolver oneSolutionConfig) 1000).timeElapsed ≠ 0 ∧
    (dancingLinksGetProgress (newDancingLinksSolver oneSolutionConfig) 1000).timeElapsed ≠ 0 := by
  decide

/-- Claim C8 (amended): `getProgress` on a freshly constructed solver
returns `stepsExplored = 0` and `solutionsFound = 0`, but `timeElapsed`
equals the current `Date.now()` value (not 0), because `startTime` is
initialized to 0 rather than to the construction time — for both
solvers. -/
theorem c8_fresh_progress (cfg : SolverConfig) (now : Int) :
    backtrackingGetProgress (newBacktrackingSolver cfg) now =
      { stepsExplored := 0, solutionsFound := 0, timeElapsed := now } ∧
    dancingLinksGetProgress (newDancingLinksSolver cfg) now =
      { stepsExplored := 0, solutionsFound := 0, timeElapsed := now } := by
  constructor <;> simp [backtrackingGetProgress, dancingLinksGetProgress,
    newBacktrackingSolver, newDancingLinksSolver]

/-- Claim C10 (confirmed): `getPentominoVariant` is total: for every
pentomino type and every integer variantIndex it returns the variant at
that index when `0 ≤ variantIndex < getPentominoVariantCount type`, and
the piece's `baseShape` for any out-of-range index (the `|| baseShape`
fallback catches the out-of-range `undefined`). -/
theorem c10_variant_total : ∀ (t : PentominoType) (i : Int),
    getPentominoVariant t i =
      if h : 0 ≤ i ∧ i.toNat < getPentominoVariantCount t then
        (getPentominoDefinition t).variants.get ⟨i.toNat, h.2⟩
      else (getPentominoDefinition t).baseShape := by
  intro t i
  unfold getPentominoVariant getPentominoVariantD jsIndex getPentominoVariantCount
    getPentominoVariantCountD getPentominoDefinition
  by_cases h0 : i < 0
  · rw [dif_neg (fun hc => by omega)]
    simp [h0]
  · by_cases hl : i.toNat < (PENTOMINO_DEFINITIONS t).variants.length
    · rw [dif_pos ⟨by omega, hl⟩]
      simp [h0, List.getElem?_eq_getElem hl]
    · rw [dif_neg (fun hc => hl hc.2)]
      simp [h0, List.getElem?_eq_none (Nat.le_of_not_lt hl)]

theorem addStep_solutions (cfg : SolverConfig) (piece : PentominoPiece) (position : Point)
    (vi : Int) (isPlacement : Bool) (board : Board) (st : BState) :
    (addStep cfg piece position vi isPlacement board st).solutions = st.solutions := by
  unfold addStep
  split <;> rfl

theorem xLoop_sol_bound (defs : Defs) (cfg : SolverConfig) (r pieceIndex : Nat) (vi y : Int)
    (n : Nat)
    (recur : Heap → List PentominoPiece → BState →
      Except BErr (Heap × List PentominoPiece × BState))
    (hrec : ∀ h p s res, recur h p s = res → s.solutions.length ≤ n →
      (bstOfRec res).solutions.length ≤ n) :
    ∀ xrem (x : Int) heap pieces st res,
      xLoop defs cfg r pieceIndex vi y recur xrem x heap pieces st = res →
      st.solutions.length ≤ n →
      (bstOfLoop res).solutions.length ≤ n := by
  intro xrem
  induction xrem with
  | zero =>
    intro x heap pieces st res heq hb
    subst heq
    exact hb
  | succ m ih =>
    intro x heap pieces st res heq hb
    subst heq
    cases st with
    | mk sols stps se stop cc evs =>
      rw [xLoop]
      dsimp only
      split
      case isTrue => exact hb
      case isFalse =>
        split
        case isTrue =>
          split
          case isTrue =>
            split
            case h_1 e heq2 =>
              exact hrec _ _ _ _ heq2 (by rw [addStep_solutions]; exact hb)
            case h_2 h2 p2 s2 heq2 =>
              have hx := hrec _ _ _ _ heq2 (by rw [addStep_solutions]; exact hb)
              refine ih _ _ _ _ _ rfl ?_
              rw [addStep_solutions]
              exact hx
          case isFalse => exact ih _ _ _ _ _ rfl hb
        case isFalse => exact ih _ _ _ _ _ rfl hb

theorem yLoop_sol_bound (defs : Defs) (cfg : SolverConfig) (r pieceIndex : Nat) (vi : Int)
    (width : Nat) (n : Nat)
    (recur : Heap → List PentominoPiece → BState →
      Except BErr (Heap × List PentominoPiece × BState))
    (hrec : ∀ h p s res, recur h p s = res → s.solutions.length ≤ n →
      (bstOfRec res).solutions.length ≤ n) :
    ∀ yrem (y : Int) heap pieces st res,
      yLoop defs cfg r pieceIndex vi width recur yrem y heap pieces st = res →
      st.solutions.length ≤ n →
      (bstOfLoop res).solutions.length ≤ n := by
  intro yrem
  induction yrem with
  | zero =>
    intro y heap pieces st res heq hb
    subst heq
    exact hb
  | succ m ih =>
    intro y heap pieces st res heq hb
    subst heq
    rw [yLoop]
    split
    case h_1 e heq2 =>
      exact xLoop_sol_bound defs cfg r pieceIndex vi y n recur hrec _ _ _ _ _ _ heq2 hb
    case h_2 heap2 pieces2 st2 heq2 =>
      exact xLoop_sol_bound defs cfg r pieceIndex vi y n recur hrec _ _ _ _ _ _ heq2 hb
    case h_3 heap2 pieces2 st2 heq2 =>
      refine ih _ _ _ _ _ rfl ?_
      exact xLoop_sol_bound defs cfg r pieceIndex vi y n recur hrec _ _ _ _ _ _ heq2 hb

theorem variantLoop_sol_bound (defs : Defs) (cfg : SolverConfig) (r pieceIndex : Nat)
    (width height : Nat) (n : Nat)
    (recur : Heap → List PentominoPiece → BState →
      Except BErr (Heap × List PentominoPiece × BState))
    (hrec : ∀ h p s res, recur h p s = res → s.solutions.length ≤ n →
      (bstOfRec res).solutions.length ≤ n) :
    ∀ vrem (vi : Int) heap pieces st res,
      variantLoop defs cfg r pieceIndex width height recur vrem vi heap pieces st = res →
      st.solutions.length ≤ n →
      (bstOfLoop res).solutions.length ≤ n := by
  intro vrem
  induction vrem with
  | zero =>
    intro vi heap pieces st res heq hb
    subst heq
    exact hb
  | succ m ih =>
    intro vi heap pieces st res heq hb
    subst heq
    rw [variantLoop]
    split
    case isTrue => exact hb
    case isFalse =>
      split
      case h_1 e heq2 =>
        exact yLoop_sol_bound defs cfg r pieceIndex vi width n recur hrec _ _ _ _ _ _ heq2 hb
      case h_2 heap2 pieces2 st2 heq2 =>
        exact yLoop_sol_bound defs cfg r pieceIndex vi width n recur hrec _ _ _ _ _ _ heq2 hb
      case h_3 heap2 pieces2 st2 heq2 =>
        refine ih _ _ _ _ _ rfl ?_
        exact yLoop_sol_bound defs cfg r pieceIndex vi width n recur hrec _ _ _ _ _ _ heq2 hb

theorem addSolutionB_solutions_length (cfg : SolverConfig) (clock : Nat → Int)
    (startTime : Int) (pieces : List PentominoPiece) (st : BState) :
    (addSolutionB cfg clock startTime pieces st).solutions.length =
      st.solutions.length + 1 := by
  simp [addSolutionB, tick]

theorem backtrackStep_sol_bound (defs : Defs) (cfg : SolverConfig) (clock : Nat → Int)
    (startTime : Int) (r : Nat)
    (recur : Heap → List PentominoPiece → Nat → BState →
      Except BErr (Heap × List PentominoPiece × BState))
    (hk : jsTruthy cfg.maxSolutions = true)
    (hrec : ∀ h p i s res, recur h p i s = res →
      s.solutions.length ≤ (cfg.maxSolutions.getD 0).toNat →
      (bstOfRec res).solutions.length ≤ (cfg.maxSolutions.getD 0).toNat) :
    ∀ heap pieces pieceIndex st res,
      backtrackStep defs cfg clock startTime r recur heap pieces pieceIndex st = res →
      st.solutions.length ≤ (cfg.maxSolutions.getD 0).toNat →
      (bstOfRec res).solutions.length ≤ (cfg.maxSolutions.getD 0).toNat := by
  intro heap pieces pieceIndex st res heq hb
  subst heq
  rw [backtrackStep]
  split
  case h_1 e heq2 =>
    split at heq2
    · split at heq2
      · cases heq2
        exact hb
      · exact absurd heq2 (by simp)
    · exact absurd heq2 (by simp)
  case h_2 st2 heq2 =>
    have hb2 : st2.solutions.length ≤ (cfg.maxSolutions.getD 0).toNat := by
      split at heq2
      · split at heq2
        · exact absurd heq2 (by simp)
        · cases heq2
          exact hb
      · cases heq2
        exact hb
    split
    case isTrue => exact hb2
    case isFalse h2 =>
      have hlt : (st2.solutions.length : Int) < cfg.maxSolutions.getD 0 := by
        rw [hk] at h2
        simpa using h2
      split
      case isTrue =>
        split
        case isTrue =>
          rw [show (bstOfRec (.ok (heap, pieces,
            addSolutionB cfg clock startTime pieces st2)) : BState) =
            addSolutionB cfg clock startTime pieces st2 from rfl]
          rw [addSolutionB_solutions_length]
          omega
        case isFalse => exact hb2
      case isFalse =>
        split
        case h_1 e heq3 =>
          refine variantLoop_sol_bound defs cfg r pieceIndex _ _ _ _
            ?_ _ _ _ _ _ _ heq3 hb2
          intro h p s res2 heq4 hbnd
          exact hrec _ _ _ _ _ heq4 hbnd
        case h_2 b heap2 pieces2 st3 heq3 =>
          refine variantLoop_sol_bound defs cfg r pieceIndex _ _ _ _
            ?_ _ _ _ _ _ _ heq3 hb2
          intro h p s res2 heq4 hbnd
          exact hrec _ _ _ _ _ heq4 hbnd

theorem backtrack_sol_bound (defs : Defs) (cfg : SolverConfig) (clock : Nat → Int)
    (startTime : Int) (r : Nat)
    (hk : jsTruthy cfg.maxSolutions = true) :
    ∀ rem heap pieces pieceIndex st res,
      backtrack defs cfg clock startTime r rem heap pieces pieceIndex st = res →
      st.solutions.length ≤ (cfg.maxSolutions.getD 0).toNat →
      (bstOfRec res).solutions.length ≤ (cfg.maxSolutions.getD 0).toNat := by
  intro rem
  induction rem with
  | zero =>
    intro heap pieces pieceIndex st res heq hb
    subst heq
    exact hb
  | succ m ih =>
    intro heap pieces pieceIndex st res heq hb
    exact backtrackStep_sol_bound defs cfg clock startTime r
      (backtrack defs cfg clock startTime r m) hk ih heap pieces pieceIndex st res heq hb

theorem solveB_sol_bound (defs : Defs) (heap : Heap) (r : Nat) (cfg : SolverConfig)
    (clock : Nat → Int) (hk : jsTruthy cfg.maxSolutions = true) :
    (solveB defs heap r cfg clock).2.1.solutions.length ≤
      (cfg.maxSolutions.getD 0).toNat := by
  unfold solveB
  dsimp only
  split
  case h_1 x heap2 pieces2 st2 heq =>
    exact backtrack_sol_bound defs cfg clock _ _ hk _ _ _ _ _ _ heq (Nat.zero_le _)
  case h_2 x e heq =>
    obtain ⟨msg, heap2, st2⟩ := e
    exact backtrack_sol_bound defs cfg clock _ _ hk _ _ _ _ _ _ heq (Nat.zero_le _)

theorem addSolutionD_solutions_length (clock : Nat → Int) (startTime : Int)
    (rowMap : RowMap) (solutionRows : List Int) (st : DlxSt) :
    (addSolutionD clock startTime rowMap solutionRows st).solutions.length =
      st.solutions.length + 1 := by
  simp [addSolutionD, dlxTick]

theorem dlxRowLoop_sol_bound (n : Nat)
    (recur : List Int → DlxSt → Except DErr (List Int × DlxSt))
    (hrec : ∀ s t res, recur s t = res → t.solutions.length ≤ n →
      (dstOfRec res).solutions.length ≤ n) :
    ∀ fuel column row solution st res,
      dlxRowLoop recur fuel column row solution st = res →
      st.solutions.length ≤ n →
      (dstOfLoop res).solutions.length ≤ n := by
  intro fuel
  induction fuel with
  | zero =>
    intro column row solution st res heq hb
    subst heq
    exact hb
  | succ m ih =>
    intro column row solution st res heq hb
    subst heq
    rw [dlxRowLoop]
    split
    case isTrue => exact hb
    case isFalse =>
      split
      case isTrue => exact hb
      case isFalse =>
        split
        case h_1 e heq2 =>
          exact hrec _ _ _ heq2 hb
        case h_2 sol2 st2 heq2 =>
          refine ih _ _ _ _ _ rfl ?_
          exact hrec _ _ _ heq2 hb

theorem searchStep_sol_bound (cfg : SolverConfig) (clock : Nat → Int) (startTime : Int)
    (rowMap : RowMap)
    (recur : List Int → DlxSt → Except DErr (List Int × DlxSt))
    (hk : jsTruthy cfg.maxSolutions = true)
    (hrec : ∀ s t res, recur s t = res →
      t.solutions.length ≤ (cfg.maxSolutions.getD 0).toNat →
      (dstOfRec res).solutions.length ≤ (cfg.maxSolutions.getD 0).toNat) :
    ∀ solution st res,
      searchStep cfg clock startTime rowMap recur solution st = res →
      st.solutions.length ≤ (cfg.maxSolutions.getD 0).toNat →
      (dstOfRec res).solutions.length ≤ (cfg.maxSolutions.getD 0).toNat := by
  intro solution st res heq hb
  subst heq
  rw [searchStep]
  split
  case h_1 e heq2 =>
    split at heq2
    · split at heq2
      · cases heq2
        exact hb
      · exact absurd heq2 (by simp)
    · exact absurd heq2 (by simp)
  case h_2 st2 heq2 =>
    have hb2 : st2.solutions.length ≤ (cfg.maxSolutions.getD 0).toNat := by
      split at heq2
      · split at heq2
        · exact absurd heq2 (by simp)
        · cases heq2
          exact hb
      · cases heq2
        exact hb
    split
    case isTrue => exact hb2
    case isFalse h2 =>
      have hlt : (st2.solutions.length : Int) < cfg.maxSolutions.getD 0 := by
        rw [hk] at h2
        simpa using h2
      split
      case isTrue => exact hb2
      case isFalse =>
        split
        case isTrue =>
          rw [show (dstOfRec (.ok (solution, addSolutionD clock startTime rowMap solution
            { st2 with stepsExplored := st2.stepsExplored + 1 })) : DlxSt) =
            addSolutionD clock startTime rowMap solution
              { st2 with stepsExplored := st2.stepsExplored + 1 } from rfl]
          rw [addSolutionD_solutions_length]
          dsimp only
          omega
        case isFalse =>
          split
          case h_1 e heq3 =>
            exact dlxRowLoop_sol_bound _ recur hrec _ _ _ _ _ _ heq3 hb2
          case h_2 sol2 st3 heq3 =>
            exact dlxRowLoop_sol_bound _ recur hrec _ _ _ _ _ _ heq3 hb2
          case h_3 sol2 st3 heq3 =>
            exact dlxRowLoop_sol_bound _ recur hrec _ _ _ _ _ _ heq3 hb2

theorem dlxSearch_sol_bound (cfg : SolverConfig) (clock : Nat → Int) (startTime : Int)
    (rowMap : RowMap) (hk : jsTruthy cfg.maxSolutions = true) :
    ∀ fuel solution st res,
      dlxSearch cfg clock startTime rowMap fuel solution st = res →
      st.solutions.length ≤ (cfg.maxSolutions.getD 0).toNat →
      (dstOfRec res).solutions.length ≤ (cfg.maxSolutions.getD 0).toNat := by
  intro fuel
  induction fuel with
  | zero =>
    intro solution st res heq hb
    subst heq
    exact hb
  | succ m ih =>
    intro solution st res heq hb
    exact searchStep_sol_bound cfg clock startTime rowMap
      (dlxSearch cfg clock startTime rowMap m) hk ih solution st res heq hb

theorem solveD_sol_bound (defs : Defs) (heap : Heap) (r : Nat) (cfg : SolverConfig)
    (clock : Nat → Int) (hk : jsTruthy cfg.maxSolutions = true) :
    (solveD defs heap r cfg clock).2.1.solutions.length ≤
      (cfg.maxSolutions.getD 0).toNat := by
  unfold solveD
  dsimp only
  split
  case h_1 x sol2 st2 heq =>
    exact dlxSearch_sol_bound cfg clock _ _ hk _ _ _ _ heq (Nat.zero_le _)
  case h_2 x e heq =>
    obtain ⟨msg, st2⟩ := e
    exact dlxSearch_sol_bound cfg clock _ _ hk _ _ _ _ heq (Nat.zero_le _)

/-- Claim C7 (amended): for every config with `maxSolutions = some k`,
`k ≥ 1`, and every board, both solvers return at most `k` solutions. The
second half of the original claim (no further placements are tried once
the k-th solution is recorded) is false: the stop flag is only set on the
next backtrack/search entry, so placements are still tried after the k-th
solution is recorded. -/
theorem c7_max_solutions_bound (defs : Defs) (heap : Heap) (r : Nat) (cfg : SolverConfig)
    (clock : Nat → Int) (k : Int) (hmax : cfg.maxSolutions = some k) (h1 : 1 ≤ k) :
    ((solveB defs heap r cfg clock).2.1.solutions.length : Int) ≤ k ∧
    ((solveD defs heap r cfg clock).2.1.solutions.length : Int) ≤ k := by
  have hk : jsTruthy cfg.maxSolutions = true := by
    rw [hmax]
    simp only [jsTruthy, bne_iff_ne, ne_eq, decide_eq_true_eq]
    omega
  have hB := solveB_sol_bound defs heap r cfg clock hk
  have hD := solveD_sol_bound defs heap r cfg clock hk
  rw [hmax] at hB hD
  simp only [Option.getD_some] at hB hD
  constructor <;> omega

/-- Witness for claim C7: the at-most-k bound applied to a concrete run
of both solvers with maxSolutions = 1. -/
theorem c7_max_solutions_bound_witness :
    oneSolutionConfig.maxSolutions = some 1 ∧
    ((solveB PENTOMINO_DEFINITIONS [tinyBoard] 0 oneSolutionConfig (fun _ => 0)).2.1.solutions.length : Int) ≤ 1 ∧
    ((solveD PENTOMINO_DEFINITIONS [tinyBoard] 0 oneSolutionConfig (fun _ => 0)).2.1.solutions.length : Int) ≤ 1 :=
  ⟨rfl,
   (c7_max_solutions_bound PENTOMINO_DEFINITIONS [tinyBoard] 0 oneSolutionConfig (fun _ => 0) 1 rfl
     (by decide)).1,
   (c7_max_solutions_bound PENTOMINO_DEFINITIONS [tinyBoard] 0 oneSolutionConfig (fun _ => 0) 1 rfl
     (by decide)).2⟩

set_option maxRecDepth 4000000 in
set_option maxHeartbeats 256000000 in
/-- Counterexample to claim C7 as stated: on a concrete 11x16 board with
maxSolutions = 1 the backtracking solver records exactly one solution, yet
the ghost event trace (newest first) shows placement attempts (`step`
events) occurring after the `record` event: the search did not stop at the
moment the first solution was recorded. -/
theorem c7_max_solutions_counterexample :
    ((solveB PENTOMINO_DEFINITIONS [stopBoard] 0 oneSolutionConfig (fun _ => 0)).2.1.solutions.length = 1) ∧
    ((solveB PENTOMINO_DEFINITIONS [stopBoard] 0 oneSolutionConfig (fun _ => 0)).2.2.events.contains BEvent.record = true) ∧
    (((solveB PENTOMINO_DEFINITIONS [stopBoard] 0 oneSolutionConfig (fun _ => 0)).2.2.events.takeWhile
        (fun e => e != BEvent.record)).contains BEvent.step = true) := by
  rw [← literalDefs_eq]
  decide

theorem heapSet_frame (heap : Heap) (r : Nat) (b : Board) (q : Nat) (hq : q ≠ r) :
    (heapSet heap r b)[q]? = heap[q]? := by
  simp [heapSet, List.getElem?_set_ne (Ne.symm hq)]

theorem placePieceH_frame (defs : Defs) (heap : Heap) (r : Nat) (piece : PentominoPiece)
    (position : Point) (vi : Option Int) (q : Nat) (hq : q ≠ r) :
    (placePieceH defs heap r piece position vi).1[q]? = heap[q]? := by
  unfold placePieceH
  exact heapSet_frame heap r _ q hq

theorem removePieceH_frame (defs : Defs) (heap : Heap) (r : Nat) (piece : PentominoPiece)
    (q : Nat) (hq : q ≠ r) :
    (removePieceH defs heap r piece).1[q]? = heap[q]? := by
  unfold removePieceH
  exact heapSet_frame heap r _ q hq

theorem xLoop_frame (defs : Defs) (cfg : SolverConfig) (r pieceIndex : Nat) (vi y : Int)
    (recur : Heap → List PentominoPiece → BState →
      Except BErr (Heap × List PentominoPiece × BState))
    (hrec : ∀ h p s res, recur h p s = res → ∀ q, q ≠ r →
      (bheapOfRec res)[q]? = h[q]?) :
    ∀ xrem (x : Int) heap pieces st res,
      xLoop defs cfg r pieceIndex vi y recur xrem x heap pieces st = res →
      ∀ q, q ≠ r → (bheapOfLoop res)[q]? = heap[q]? := by
  intro xrem
  induction xrem with
  | zero =>
    intro x heap pieces st res heq q hq
    subst heq
    rfl
  | succ m ih =>
    intro x heap pieces st res heq q hq
    subst heq
    cases st with
    | mk sols stps se stop cc evs =>
      rw [xLoop]
      dsimp only
      split
      case isTrue => rfl
      case isFalse =>
        split
        case isTrue =>
          split
          case isTrue =>
            split
            case h_1 e heq2 =>
              exact (hrec _ _ _ _ heq2 q hq).trans
                (placePieceH_frame defs heap r _ _ _ q hq)
            case h_2 h2 p2 s2 heq2 =>
              refine (ih _ _ _ _ _ rfl q hq).trans ?_
              refine (removePieceH_frame defs h2 r _ q hq).trans ?_
              exact (hrec _ _ _ _ heq2 q hq).trans
                (placePieceH_frame defs heap r _ _ _ q hq)
          case isFalse =>
            exact (ih _ _ _ _ _ rfl q hq).trans
              (placePieceH_frame defs heap r _ _ _ q hq)
        case isFalse => exact ih _ _ _ _ _ rfl q hq

theorem yLoop_frame (defs : Defs) (cfg : SolverConfig) (r pieceIndex : Nat) (vi : Int)
    (width : Nat)
    (recur : Heap → List PentominoPiece → BState →
      Except BErr (Heap × List PentominoPiece × BState))
    (hrec : ∀ h p s res, recur h p s = res → ∀ q, q ≠ r →
      (bheapOfRec res)[q]? = h[q]?) :
    ∀ yrem (y : Int) heap pieces st res,
      yLoop defs cfg r pieceIndex vi width recur yrem y heap pieces st = res →
      ∀ q, q ≠ r → (bheapOfLoop res)[q]? = heap[q]? := by
  intro yrem
  induction yrem with
  | zero =>
    intro y heap pieces st res heq q hq
    subst heq
    rfl
  | succ m ih =>
    intro y heap pieces st res heq q hq
    subst heq
    rw [yLoop]
    split
    case h_1 e heq2 =>
      exact xLoop_frame defs cfg r pieceIndex vi y recur hrec _ _ _ _ _ _ heq2 q hq
    case h_2 heap2 pieces2 st2 heq2 =>
      exact xLoop_frame defs cfg r pieceIndex vi y recur hrec _ _ _ _ _ _ heq2 q hq
    case h_3 heap2 pieces2 st2 heq2 =>
      exact (ih _ _ _ _ _ rfl q hq).trans
        (xLoop_frame defs cfg r pieceIndex vi y recur hrec _ _ _ _ _ _ heq2 q hq)

theorem variantLoop_frame (defs : Defs) (cfg : SolverConfig) (r pieceIndex : Nat)
    (width height : Nat)
    (recur : Heap → List PentominoPiece → BState →
      Except BErr (Heap × List PentominoPiece × BState))
    (hrec : ∀ h p s res, recur h p s = res → ∀ q, q ≠ r →
      (bheapOfRec res)[q]? = h[q]?) :
    ∀ vrem (vi : Int) heap pieces st res,
      variantLoop defs cfg r pieceIndex width height recur vrem vi heap pieces st = res →
      ∀ q, q ≠ r → (bheapOfLoop res)[q]? = heap[q]? := by
  intro vrem
  induction vrem with
  | zero =>
    intro vi heap pieces st res heq q hq
    subst heq
    rfl
  | succ m ih =>
    intro vi heap pieces st res heq q hq
    subst heq
    rw [variantLoop]
    split
    case isTrue => rfl
    case isFalse =>
      split
      case h_1 e heq2 =>
        exact yLoop_frame defs cfg r pieceIndex vi width recur hrec _ _ _ _ _ _ heq2 q hq
      case h_2 heap2 pieces2 st2 heq2 =>
        exact yLoop_frame defs cfg r pieceIndex vi width recur hrec _ _ _ _ _ _ heq2 q hq
      case h_3 heap2 pieces2 st2 heq2 =>
        exact (ih _ _ _ _ _ rfl q hq).trans
          (yLoop_frame defs cfg r pieceIndex vi width recur hrec _ _ _ _ _ _ heq2 q hq)

theorem backtrackStep_frame (defs : Defs) (cfg : SolverConfig) (clock : Nat → Int)
    (startTime : Int) (r : Nat)
    (recur : Heap → List PentominoPiece → Nat → BState →
      Except BErr (Heap × List PentominoPiece × BState))
    (hrec : ∀ h p i s res, recur h p i s = res → ∀ q, q ≠ r →
      (bheapOfRec res)[q]? = h[q]?) :
    ∀ heap pieces pieceIndex st res,
      backtrackStep defs cfg clock startTime r recur heap pieces pieceIndex st = res →
      ∀ q, q ≠ r → (bheapOfRec res)[q]? = heap[q]? := by
  intro heap pieces pieceIndex st res heq q hq
  subst heq
  rw [backtrackStep]
  split
  case h_1 e heq2 =>
    split at heq2
    · split at heq2
      · cases heq2
        rfl
      · exact absurd heq2 (by simp)
    · exact absurd heq2 (by simp)
  case h_2 st2 heq2 =>
    split
    case isTrue => rfl
    case isFalse =>
      split
      case isTrue =>
        split
        case isTrue => rfl
        case isFalse => rfl
      case isFalse =>
        split
        case h_1 e heq3 =>
          refine variantLoop_frame defs cfg r pieceIndex _ _ _
            ?_ _ _ _ _ _ _ heq3 q hq
          intro h p s res2 heq4 q2 hq2
          exact hrec _ _ _ _ _ heq4 q2 hq2
        case h_2 b heap2 pieces2 st3 heq3 =>
          refine variantLoop_frame defs cfg r pieceIndex _ _ _
            ?_ _ _ _ _ _ _ heq3 q hq
          intro h p s res2 heq4 q2 hq2
          exact hrec _ _ _ _ _ heq4 q2 hq2

theorem backtrack_frame (defs : Defs) (cfg : SolverConfig) (clock : Nat → Int)
    (startTime : Int) (r : Nat) :
    ∀ rem heap pieces pieceIndex st res,
      backtrack defs cfg clock startTime r rem heap pieces pieceIndex st = res →
      ∀ q, q ≠ r → (bheapOfRec res)[q]? = heap[q]? := by
  intro rem
  induction rem with
  | zero =>
    intro heap pieces pieceIndex st res heq q hq
    subst heq
    rfl
  | succ m ih =>
    intro heap pieces pieceIndex st res heq q hq
    exact backtrackStep_frame defs cfg clock startTime r
      (backtrack defs cfg clock startTime r m) ih heap pieces pieceIndex st res heq q hq

theorem solveB_frame (defs : Defs) (heap : Heap) (r : Nat) (cfg : SolverConfig)
    (clock : Nat → Int) :
    ∀ q, q < heap.length → (solveB defs heap r cfg clock).1[q]? = heap[q]? := by
  intro q hql
  unfold solveB
  dsimp only
  split
  case h_1 x heap2 pieces2 st2 heq =>
    have := backtrack_frame defs cfg clock _ heap.length _ _ _ _ _ _ heq q
      (Nat.ne_of_lt hql)
    rw [show (bheapOfRec (.ok (heap2, pieces2, st2))) = heap2 from rfl] at this
    rw [this]
    rw [List.getElem?_append, if_pos hql]
  case h_2 x msg2 heap2 st2 heq =>
    have := backtrack_frame defs cfg clock _ heap.length _ _ _ _ _ _ heq q
      (Nat.ne_of_lt hql)
    rw [show (bheapOfRec (.error (msg2, heap2, st2))) = heap2 from rfl] at this
    rw [this]
    rw [List.getElem?_append, if_pos hql]

theorem solveD_heap (defs : Defs) (heap : Heap) (r : Nat) (cfg : SolverConfig)
    (clock : Nat → Int) : (solveD defs heap r cfg clock).1 = heap := by
  unfold solveD
  dsimp only
  split <;> rfl

/-- Claim C4 (confirmed): on every return path of solve the caller's board
argument is unchanged. `solveB` clones the board into a fresh heap
reference and `backtrack` writes only through that reference, so every
pre-existing heap entry (in particular the caller's board, with its cells,
config and emptyCellCount) is unchanged; `solveD` never writes the heap at
all. -/
theorem c4_board_unchanged (defs : Defs) (heap : Heap) (r : Nat) (cfg : SolverConfig)
    (clock : Nat → Int) :
    (∀ q, q < heap.length → (solveB defs heap r cfg clock).1[q]? = heap[q]?) ∧
    (solveD defs heap r cfg clock).1 = heap :=
  ⟨solveB_frame defs heap r cfg clock, solveD_heap defs heap r cfg clock⟩

/-- Witness for claim C4: the frame theorem applied to a concrete run of
both solvers on a one-board heap. -/
theorem c4_board_unchanged_witness :
    0 < ([tinyBoard] : Heap).length ∧
    (solveB PENTOMINO_DEFINITIONS [tinyBoard] 0 oneSolutionConfig (fun _ => 0)).1[0]? =
      ([tinyBoard] : Heap)[0]? ∧
    (solveD PENTOMINO_DEFINITIONS [tinyBoard] 0 oneSolutionConfig (fun _ => 0)).1 =
      [tinyBoard] :=
  ⟨by decide,
   (c4_board_unchanged PENTOMINO_DEFINITIONS [tinyBoard] 0 oneSolutionConfig
     (fun _ => 0)).1 0 (by decide),
   (c4_board_unchanged PENTOMINO_DEFINITIONS [tinyBoard] 0 oneSolutionConfig
     (fun _ => 0)).2⟩

/-- Witness for claim C5: the per-variant normalization facts applied to a
concrete member of the generated X orientation set. -/
theorem c5_variant_counts_witness :
    BASE_SHAPES .X ∈ generateShapeVariants (BASE_SHAPES .X) ∧
    ((BASE_SHAPES .X).cells.length = 5 ∧
     ((BASE_SHAPES .X).cells.map (fun p => p.x)).min? = some 0 ∧
     ((BASE_SHAPES .X).cells.map (fun p => p.y)).min? = some 0) :=
  ⟨by decide, c5_variant_counts.2 .X (BASE_SHAPES .X) (by decide)⟩

theorem countP_set_add {α : Type} (p : α → Bool) :
    ∀ (l : List α) (i : Nat) (a b : α), l[i]? = some b →
      (l.set i a).countP p + (if p b then 1 else 0) =
        l.countP p + (if p a then 1 else 0) := by
  intro l
  induction l with
  | nil =>
    intro i a b h
    simp at h
  | cons x xs ih =>
    intro i a b h
    cases i with
    | zero =>
      simp only [List.getElem?_cons_zero, Option.some.injEq] at h
      subst h
      simp only [List.set_cons_zero, List.countP_cons]
      omega
    | succ n =>
      simp only [List.getElem?_cons_succ] at h
      simp only [List.set_cons_succ, List.countP_cons]
      have := ih n a b h
      omega

theorem sum_set_add :
    ∀ (l : List Nat) (i : Nat) (a b : Nat), l[i]? = some b →
      (l.set i a).sum + b = l.sum + a := by
  intro l
  induction l with
  | nil =>
    intro i a b h
    simp at h
  | cons x xs ih =>
    intro i a b h
    cases i with
    | zero =>
      simp only [List.getElem?_cons_zero, Option.some.injEq] at h
      subst h
      simp only [List.set_cons_zero, List.sum_cons]
      omega
    | succ n =>
      simp only [List.getElem?_cons_succ] at h
      simp only [List.set_cons_succ, List.sum_cons]
      have := ih n a b h
      omega

theorem getGridCell_eq_some {cells : List (List BoardCell)} {x y : Nat} {c : BoardCell}
    (h : getGridCell cells x y = some c) :
    ∃ row, cells[y]? = some row ∧ row[x]? = some c := by
  unfold getGridCell at h
  rw [List.get?_eq_getElem?] at h
  cases hy : cells[y]? with
  | none =>
    rw [hy] at h
    simp at h
  | some row =>
    rw [hy] at h
    refine ⟨row, rfl, ?_⟩
    rw [← List.get?_eq_getElem?]
    exact h

theorem countEmpty_setGridCell (cells : List (List BoardCell)) (x y : Nat)
    (cell old : BoardCell) (h : getGridCell cells x y = some old) :
    countEmpty (setGridCell cells x y cell) + (if old.state == .empty then 1 else 0) =
      countEmpty cells + (if cell.state == .empty then 1 else 0) := by
  obtain ⟨row, hy, hx⟩ := getGridCell_eq_some h
  unfold setGridCell
  rw [show cells.get? y = some row from (List.get?_eq_getElem? cells y).trans hy]
  unfold countEmpty
  rw [List.map_set]
  have hrow := countP_set_add (fun c => c.state == CellState.empty) row x cell old hx
  dsimp only at hrow
  have hmap : (cells.map (fun r => r.countP (fun c => c.state == CellState.empty)))[y]? =
      some (row.countP (fun c => c.state == CellState.empty)) := by
    rw [List.getElem?_map, hy]
    rfl
  have hsum := sum_set_add (cells.map (fun r => r.countP (fun c => c.state == CellState.empty)))
    y ((row.set x cell).countP (fun c => c.state == CellState.empty))
    (row.countP (fun c => c.state == CellState.empty)) hmap
  omega

theorem getGridCell_setGridCell_other (cells : List (List BoardCell)) (x y x2 y2 : Nat)
    (cell : BoardCell) (hne : x2 ≠ x ∨ y2 ≠ y) :
    getGridCell (setGridCell cells x y cell) x2 y2 = getGridCell cells x2 y2 := by
  unfold setGridCell
  cases hy : cells.get? y with
  | none => rfl
  | some row =>
    unfold getGridCell
    simp only [List.get?_eq_getElem?]
    rw [List.get?_eq_getElem?] at hy
    by_cases hyy : y2 = y
    · subst hyy
      have hylt : y2 < cells.length := by
        by_contra hc
        rw [List.getElem?_eq_none (Nat.le_of_not_lt hc)] at hy
        cases hy
      rw [List.getElem?_set_self hylt, hy]
      have hxne : x2 ≠ x := hne.resolve_right (fun hc => hc rfl)
      simp only [Option.some_bind]
      rw [List.getElem?_set_ne (fun hc => hxne hc.symm)]
    · rw [List.getElem?_set_ne (fun hc => hyy hc.symm)]

theorem setCellState_countInv (board : Board) (position : Point) (state : CellState)
    (pieceId : Option String) (pieceType : Option PentominoType)
    (hinv : CountInv board) :
    CountInv (setCellState board position state pieceId pieceType).1 := by
  unfold setCellState
  split
  case isTrue => exact hinv
  case isFalse =>
    split
    case h_1 => exact hinv
    case h_2 cell hcell =>
      unfold CountInv at hinv ⊢
      dsimp only
      have hcnt := countEmpty_setGridCell board.cells position.x.toNat position.y.toNat
        { state := state, pieceId := pieceId, pieceType := pieceType } cell hcell
      by_cases h1 : cell.state = CellState.empty <;> by_cases h2 : state = CellState.empty <;>
        simp [h1, h2] at hcnt ⊢ <;> omega

theorem foldl_preserve {α β : Type} (P : α → Prop) (f : α → β → α)
    (hf : ∀ a b, P a → P (f a b)) :
    ∀ (l : List β) (a : α), P a → P (l.foldl f a) := by
  intro l
  induction l with
  | nil => intro a ha; exact ha
  | cons x xs ih =>
    intro a ha
    exact ih (f a x) (hf a x ha)

theorem placePiece_countInv (defs : Defs) (board : Board) (piece : PentominoPiece)
    (position : Point) (variantIndex : Option Int) (hinv : CountInv board) :
    CountInv (placePiece defs board piece position variantIndex).1 := by
  unfold placePiece
  split
  case isTrue => exact hinv
  case isFalse =>
    exact foldl_preserve CountInv _
      (fun b cell hb => setCellState_countInv b cell .occupied _ _ hb) _ board hinv

theorem removePiece_countInv (defs : Defs) (board : Board) (piece : PentominoPiece)
    (hinv : CountInv board) :
    CountInv (removePiece defs board piece).1 := by
  unfold removePiece
  split
  case isTrue => exact hinv
  case isFalse =>
    refine foldl_preserve CountInv _ ?_ _ board hinv
    intro b cell hb
    dsimp only
    split
    case isTrue =>
      split
      case h_1 boardCell hcell =>
        split
        case isTrue => exact setCellState_countInv b cell .empty _ _ hb
        case isFalse => exact hb
      case h_2 => exact hb
    case isFalse => exact hb

theorem applyOp_countInv (defs : Defs) (board : Board) (op : BoardOp)
    (hinv : CountInv board) : CountInv (applyOp defs board op) := by
  cases op with
  | set position state pieceId pieceType =>
    exact setCellState_countInv board position state pieceId pieceType hinv
  | place piece position variantIndex =>
    exact placePiece_countInv defs board piece position variantIndex hinv
  | remove piece => exact removePiece_countInv defs board piece hinv

theorem applyOps_countInv (defs : Defs) (ops : List BoardOp) (board : Board)
    (hinv : CountInv board) : CountInv (applyOps defs ops board) :=
  foldl_preserve CountInv _ (fun b op hb => applyOp_countInv defs b op hb) ops board hinv

theorem countEmpty_initial (w h : Nat) :
    countEmpty ((List.range h).map
      (fun _ => (List.range w).map (fun _ => ({ state := .empty } : BoardCell)))) =
      w * h := by
  induction h with
  | zero => simp [countEmpty]
  | succ n ih =>
    rw [List.range_succ, List.map_append]
    unfold countEmpty at ih ⊢
    rw [List.map_append, List.sum_append]
    rw [ih]
    have hall : ∀ a ∈ ((List.range w).map
        (fun _ => ({ state := .empty } : BoardCell))),
        (fun c => c.state == CellState.empty) a = true := by
      intro a ha
      obtain ⟨i, hi, rfl⟩ := List.mem_map.mp ha
      rfl
    simp only [List.map_cons, List.map_nil, List.sum_cons, List.sum_nil]
    rw [List.countP_eq_length.mpr hall, List.length_map, List.length_range, Nat.mul_succ]
    omega

theorem getGridCell_initial (w h x y : Nat) (hx : x < w) (hy : y < h) :
    getGridCell ((List.range h).map
      (fun _ => (List.range w).map (fun _ => ({ state := .empty } : BoardCell)))) x y =
      some { state := .empty } := by
  unfold getGridCell
  rw [List.get?_eq_getElem?, List.getElem?_map]
  rw [List.getElem?_range hy]
  simp only [Option.map_some', Option.some_bind]
  rw [List.get?_eq_getElem?, List.getElem?_map, List.getElem?_range hx]
  rfl

theorem createBoard_fold (dims : Dimensions) :
    ∀ (bl : List Point) (cells : List (List BoardCell)) (cnt : Int),
      bl.Pairwise (fun a b => a ≠ b) →
      (∀ p ∈ bl, isPointInBounds p dims = true →
        getGridCell cells p.x.toNat p.y.toNat = some { state := .empty }) →
      cnt = (countEmpty cells : Int) →
      (bl.foldl (fun (acc : List (List BoardCell) × Int) (blockedCell : Point) =>
        if isPointInBounds blockedCell dims then
          (setGridCell acc.1 blockedCell.x.toNat blockedCell.y.toNat { state := .blocked },
            acc.2 - 1)
        else acc) (cells, cnt)).2 =
      (countEmpty ((bl.foldl (fun (acc : List (List BoardCell) × Int) (blockedCell : Point) =>
        if isPointInBounds blockedCell dims then
          (setGridCell acc.1 blockedCell.x.toNat blockedCell.y.toNat { state := .blocked },
            acc.2 - 1)
        else acc) (cells, cnt)).1) : Int) := by
  intro bl
  induction bl with
  | nil =>
    intro cells cnt hpw hemp hc
    exact hc
  | cons b rest ih =>
    intro cells cnt hpw hemp hc
    rw [List.foldl_cons]
    obtain ⟨hhead, htail⟩ := List.pairwise_cons.mp hpw
    by_cases hb : isPointInBounds b dims = true
    · rw [if_pos hb]
      have hbempty := hemp b (List.mem_cons_self b rest) hb
      have hcnt := countEmpty_setGridCell cells b.x.toNat b.y.toNat
        { state := .blocked } { state := .empty } hbempty
      refine ih _ _ htail ?_ ?_
      · intro p hp hpb
        rw [getGridCell_setGridCell_other]
        · exact hemp p (List.mem_cons_of_mem b hp) hpb
        · have hne := hhead p hp
          by_contra hc2
          push_neg at hc2
          apply hne
          have hx : p.x = b.x := by
            have hb1 : b.x ≥ 0 := by
              unfold isPointInBounds at hb
              simp at hb
              omega
            have hp1 : p.x ≥ 0 := by
              unfold isPointInBounds at hpb
              simp at hpb
              omega
            omega
          have hy : p.y = b.y := by
            have hb1 : b.y ≥ 0 := by
              unfold isPointInBounds at hb
              simp at hb
              omega
            have hp1 : p.y ≥ 0 := by
              unfold isPointInBounds at hpb
              simp at hpb
              omega
            omega
          cases p
          cases b
          simp at hx hy
          rw [hx, hy]
      · dsimp only
        simp at hcnt
        omega
    · rw [if_neg hb]
      refine ih _ _ htail ?_ hc
      intro p hp hpb
      exact hemp p (List.mem_cons_of_mem b hp) hpb

theorem createBoard_countInv (config : BoardConfig)
    (hdist : config.blockedCells.Pairwise (fun a b => a ≠ b)) :
    CountInv (createBoard config) := by
  unfold createBoard CountInv
  dsimp only
  refine createBoard_fold config.dims config.blockedCells _ _ hdist ?_ ?_
  · intro p hp hb
    simp only [isPointInBounds, BoardConfig.dims, Bool.and_eq_true, decide_eq_true_eq] at hb
    apply getGridCell_initial
    · omega
    · omega
  · rw [countEmpty_initial]
    push_cast
    ring

theorem countEmpty_eq_zero_iff (cells : List (List BoardCell)) :
    countEmpty cells = 0 ↔
      ∀ row ∈ cells, ∀ c ∈ row, ¬ c.state = CellState.empty := by
  unfold countEmpty
  rw [List.sum_eq_zero_iff]
  constructor
  · intro h row hrow c hc
    have h2 := h _ (List.mem_map_of_mem _ hrow)
    rw [List.countP_eq_zero] at h2
    have h3 := h2 c hc
    simpa using h3
  · intro h x hx
    obtain ⟨row, hrow, rfl⟩ := List.mem_map.mp hx
    rw [List.countP_eq_zero]
    intro c hc
    simpa using h row hrow c hc

theorem isBoardComplete_iff_of_countInv (board : Board) (hinv : CountInv board) :
    isBoardComplete board = true ↔
      ∀ row ∈ board.cells, ∀ c ∈ row, ¬ c.state = CellState.empty := by
  unfold isBoardComplete
  unfold CountInv at hinv
  rw [hinv]
  rw [beq_iff_eq, Int.natCast_eq_zero]
  exact countEmpty_eq_zero_iff board.cells

/-- Claim C9 (confirmed): for every board created by `createBoard` from a
config whose blockedCells are pairwise distinct and in bounds, and mutated
only through `setCellState`, `placePiece` and `removePiece` (any sequence
of `BoardOp`s), the field `emptyCellCount` always equals the number of
cells whose state is `empty`; consequently `isBoardComplete` holds iff no
cell has state `empty`. -/
theorem c9_empty_count_invariant (defs : Defs) (config : BoardConfig) (ops : List BoardOp)
    (hdist : config.blockedCells.Pairwise (fun a b => a ≠ b))
    (hbounds : ∀ p ∈ config.blockedCells, isPointInBounds p config.dims = true) :
    CountInv (applyOps defs ops (createBoard config)) ∧
    (isBoardComplete (applyOps defs ops (createBoard config)) = true ↔
      ∀ row ∈ (applyOps defs ops (createBoard config)).cells, ∀ c ∈ row,
        ¬ c.state = CellState.empty) := by
  have h1 := applyOps_countInv defs ops _ (createBoard_countInv config hdist)
  exact ⟨h1, isBoardComplete_iff_of_countInv _ h1⟩

/-- Witness for claim C9: the invariant applied to a concrete one-cell
board mutated by one `setCellState` operation. -/
theorem c9_empty_count_invariant_witness :
    (tinyConfig.blockedCells.Pairwise (fun a b => a ≠ b) ∧
     (∀ p ∈ tinyConfig.blockedCells, isPointInBounds p tinyConfig.dims = true)) ∧
    (CountInv (applyOps PENTOMINO_DEFINITIONS
        [BoardOp.set { x := 0, y := 0 } .occupied none none] (createBoard tinyConfig)) ∧
     (isBoardComplete (applyOps PENTOMINO_DEFINITIONS
        [BoardOp.set { x := 0, y := 0 } .occupied none none] (createBoard tinyConfig)) = true ↔
      ∀ row ∈ (applyOps PENTOMINO_DEFINITIONS
        [BoardOp.set { x := 0, y := 0 } .occupied none none] (createBoard tinyConfig)).cells,
        ∀ c ∈ row, ¬ c.state = CellState.empty)) :=
  ⟨⟨by decide, by decide⟩,
   c9_empty_count_invariant PENTOMINO_DEFINITIONS tinyConfig
     [BoardOp.set { x := 0, y := 0 } .occupied none none] (by decide) (by decide)⟩

theorem list_set_get_self {α : Type} : ∀ (l : List α) (i : Nat) (h : i < l.length),
    l.set i (l.get ⟨i, h⟩) = l := by
  intro l
  induction l with
  | nil => intro i h; cases h
  | cons x xs ih =>
    intro i h
    cases i with
    | zero => rfl
    | succ n =>
      simp only [List.set_cons_succ, List.get_cons_succ]
      rw [ih n (Nat.lt_of_succ_lt_succ h)]

@[simp] theorem dlxSet_length (m : DLXMatrix) (i : Nat) (n : DLXNodeData) :
    (dlxSet m i n).nodes.length = m.nodes.length := by
  simp [dlxSet]

@[simp] theorem dlxSet_header (m : DLXMatrix) (i : Nat) (n : DLXNodeData) :
    (dlxSet m i n).header = m.header := rfl

theorem dlxGet_dlxSet_self (m : DLXMatrix) (i : Nat) (n : DLXNodeData)
    (h : i < m.nodes.length) : dlxGet (dlxSet m i n) i = n := by
  unfold dlxGet dlxSet
  simp only [List.get?_eq_getElem?]
  rw [List.getElem?_set_self h]
  rfl

theorem dlxGet_dlxSet_ne (m : DLXMatrix) (i : Nat) (n : DLXNodeData) (k : Nat)
    (h : k ≠ i) : dlxGet (dlxSet m i n) k = dlxGet m k := by
  unfold dlxGet dlxSet
  simp only [List.get?_eq_getElem?]
  rw [List.getElem?_set_ne (fun hc => h hc.symm)]

theorem dlxSet_oob (m : DLXMatrix) (i : Nat) (n : DLXNodeData)
    (h : m.nodes.length ≤ i) : dlxSet m i n = m := by
  unfold dlxSet
  rw [List.set_eq_of_length_le h]

theorem dlxSet_dlxSet_same (m : DLXMatrix) (i : Nat) (a b : DLXNodeData) :
    dlxSet (dlxSet m i a) i b = dlxSet m i b := by
  unfold dlxSet
  simp [List.set_set]

theorem dlxSet_get_self (m : DLXMatrix) (i : Nat) :
    dlxSet m i (dlxGet m i) = m := by
  by_cases h : i < m.nodes.length
  · unfold dlxSet dlxGet
    simp only [List.get?_eq_getElem?]
    rw [List.getElem?_eq_getElem h]
    simp only [Option.getD_some]
    rw [show m.nodes[i] = m.nodes.get ⟨i, h⟩ from rfl, list_set_get_self]
  · exact dlxSet_oob m i _ (Nat.le_of_not_lt h)

@[simp] theorem setLeft_length (m : DLXMatrix) (i : Nat) (v : Nat) :
    (setLeft m i v).nodes.length = m.nodes.length := by
  unfold setLeft
  simp

@[simp] theorem setLeft_header (m : DLXMatrix) (i : Nat) (v : Nat) :
    (setLeft m i v).header = m.header := rfl

theorem setLeft_oob (m : DLXMatrix) (i : Nat) (v : Nat)
    (h : m.nodes.length ≤ i) : setLeft m i v = m := by
  unfold setLeft
  exact dlxSet_oob m i _ h

@[simp] theorem setLeft_get_left_self (m : DLXMatrix) (i : Nat) (v : Nat)
    (h : i < m.nodes.length) : (dlxGet (setLeft m i v) i).left = v := by
  unfold setLeft
  rw [dlxGet_dlxSet_self _ _ _ h]

@[simp] theorem setLeft_get_left_ne (m : DLXMatrix) (i : Nat) (v : Nat) (k : Nat)
    (h : k ≠ i) : (dlxGet (setLeft m i v) k).left = (dlxGet m k).left := by
  unfold setLeft
  rw [dlxGet_dlxSet_ne _ _ _ _ h]

@[simp] theorem setLeft_get_right (m : DLXMatrix) (i : Nat) (v : Nat) (k : Nat) :
    (dlxGet (setLeft m i v) k).right = (dlxGet m k).right := by
  unfold setLeft
  by_cases hb : i < m.nodes.length
  · by_cases hk : k = i
    · subst hk
      rw [dlxGet_dlxSet_self _ _ _ hb]
    · rw [dlxGet_dlxSet_ne _ _ _ _ hk]
  · rw [dlxSet_oob _ _ _ (Nat.le_of_not_lt hb)]

@[simp] theorem setLeft_get_up (m : DLXMatrix) (i : Nat) (v : Nat) (k : Nat) :
    (dlxGet (setLeft m i v) k).up = (dlxGet m k).up := by
  unfold setLeft
  by_cases hb : i < m.nodes.length
  · by_cases hk : k = i
    · subst hk
      rw [dlxGet_dlxSet_self _ _ _ hb]
    · rw [dlxGet_dlxSet_ne _ _ _ _ hk]
  · rw [dlxSet_oob _ _ _ (Nat.le_of_not_lt hb)]

@[simp] theorem setLeft_get_down (m : DLXMatrix) (i : Nat) (v : Nat) (k : Nat) :
    (dlxGet (setLeft m i v) k).down = (dlxGet m k).down := by
  unfold setLeft
  by_cases hb : i < m.nodes.length
  · by_cases hk : k = i
    · subst hk
      rw [dlxGet_dlxSet_self _ _ _ hb]
    · rw [dlxGet_dlxSet_ne _ _ _ _ hk]
  · rw [dlxSet_oob _ _ _ (Nat.le_of_not_lt hb)]

@[simp] theorem setLeft_get_column (m : DLXMatrix) (i : Nat) (v : Nat) (k : Nat) :
    (dlxGet (setLeft m i v) k).column = (dlxGet m k).column := by
  unfold setLeft
  by_cases hb : i < m.nodes.length
  · by_cases hk : k = i
    · subst hk
      rw [dlxGet_dlxSet_self _ _ _ hb]
    · rw [dlxGet_dlxSet_ne _ _ _ _ hk]
  · rw [dlxSet_oob _ _ _ (Nat.le_of_not_lt hb)]

@[simp] theorem setLeft_get_rowId (m : DLXMatrix) (i : Nat) (v : Nat) (k : Nat) :
    (dlxGet (setLeft m i v) k).rowId = (dlxGet m k).rowId := by
  unfold setLeft
  by_cases hb : i < m.nodes.length
  · by_cases hk : k = i
    · subst hk
      rw [dlxGet_dlxSet_self _ _ _ hb]
    · rw [dlxGet_dlxSet_ne _ _ _ _ hk]
  · rw [dlxSet_oob _ _ _ (Nat.le_of_not_lt hb)]

@[simp] theorem setLeft_get_size (m : DLXMatrix) (i : Nat) (v : Nat) (k : Nat) :
    (dlxGet (setLeft m i v) k).size = (dlxGet m k).size := by
  unfold setLeft
  by_cases hb : i < m.nodes.length
  · by_cases hk : k = i
    · subst hk
      rw [dlxGet_dlxSet_self _ _ _ hb]
    · rw [dlxGet_dlxSet_ne _ _ _ _ hk]
  · rw [dlxSet_oob _ _ _ (Nat.le_of_not_lt hb)]

@[simp] theorem setLeft_get_name (m : DLXMatrix) (i : Nat) (v : Nat) (k : Nat) :
    (dlxGet (setLeft m i v) k).name = (dlxGet m k).name := by
  unfold setLeft
  by_cases hb : i < m.nodes.length
  · by_cases hk : k = i
    · subst hk
      rw [dlxGet_dlxSet_self _ _ _ hb]
    · rw [dlxGet_dlxSet_ne _ _ _ _ hk]
  · rw [dlxSet_oob _ _ _ (Nat.le_of_not_lt hb)]

@[simp] theorem setRight_length (m : DLXMatrix) (i : Nat) (v : Nat) :
    (setRight m i v).nodes.length = m.nodes.length := by
  unfold setRight
  simp

@[simp] theorem setRight_header (m : DLXMatrix) (i : Nat) (v : Nat) :
    (setRight m i v).header = m.header := rfl

theorem setRight_oob (m : DLXMatrix) (i : Nat) (v : Nat)
    (h : m.nodes.length ≤ i) : setRight m i v = m := by
  unfold setRight
  exact dlxSet_oob m i _ h

@[simp] theorem setRight_get_left (m : DLXMatrix) (i : Nat) (v : Nat) (k : Nat) :
    (dlxGet (setRight m i v) k).left = (dlxGet m k).left := by
  unfold setRight
  by_cases hb : i < m.nodes.length
  · by_cases hk : k = i
    · subst hk
      rw [dlxGet_dlxSet_self _ _ _ hb]
    · rw [dlxGet_dlxSet_ne _ _ _ _ hk]
  · rw [dlxSet_oob _ _ _ (Nat.le_of_not_lt hb)]

@[simp] theorem setRight_get_right_self (m : DLXMatrix) (i : Nat) (v : Nat)
    (h : i < m.nodes.length) : (dlxGet (setRight m i v) i).right = v := by
  unfold setRight
  rw [dlxGet_dlxSet_self _ _ _ h]

@[simp] theorem setRight_get_right_ne (m : DLXMatrix) (i : Nat) (v : Nat) (k : Nat)
    (h : k ≠ i) : (dlxGet (setRight m i v) k).right = (dlxGet m k).right := by
  unfold setRight
  rw [dlxGet_dlxSet_ne _ _ _ _ h]

@[simp] theorem setRight_get_up (m : DLXMatrix) (i : Nat) (v : Nat) (k : Nat) :
    (dlxGet (setRight m i v) k).up = (dlxGet m k).up := by
  unfold setRight
  by_cases hb : i < m.nodes.length
  · by_cases hk : k = i
    · subst hk
      rw [dlxGet_dlxSet_self _ _ _ hb]
    · rw [dlxGet_dlxSet_ne _ _ _ _ hk]
  · rw [dlxSet_oob _ _ _ (Nat.le_of_not_lt hb)]

@[simp] theorem setRight_get_down (m : DLXMatrix) (i : Nat) (v : Nat) (k : Nat) :
    (dlxGet (setRight m i v) k).down = (dlxGet m k).down := by
  unfold setRight
  by_cases hb : i < m.nodes.length
  · by_cases hk : k = i
    · subst hk
      rw [dlxGet_dlxSet_self _ _ _ hb]
    · rw [dlxGet_dlxSet_ne _ _ _ _ hk]
  · rw [dlxSet_oob _ _ _ (Nat.le_of_not_lt hb)]

@[simp] theorem setRight_get_column (m : DLXMatrix) (i : Nat) (v : Nat) (k : Nat) :
    (dlxGet (setRight m i v) k).column = (dlxGet m k).column := by
  unfold setRight
  by_cases hb : i < m.nodes.length
  · by_cases hk : k = i
    · subst hk
      rw [dlxGet_dlxSet_self _ _ _ hb]
    · rw [dlxGet_dlxSet_ne _ _ _ _ hk]
  · rw [dlxSet_oob _ _ _ (Nat.le_of_not_lt hb)]

@[simp] theorem setRight_get_rowId (m : DLXMatrix) (i : Nat) (v : Nat) (k : Nat) :
    (dlxGet (setRight m i v) k).rowId = (dlxGet m k).rowId := by
  unfold setRight
  by_cases hb : i < m.nodes.length
  · by_cases hk : k = i
    · subst hk
      rw [dlxGet_dlxSet_self _ _ _ hb]
    · rw [dlxGet_dlxSet_ne _ _ _ _ hk]
  · rw [dlxSet_oob _ _ _ (Nat.le_of_not_lt hb)]

@[simp] theorem setRight_get_size (m : DLXMatrix) (i : Nat) (v : Nat) (k : Nat) :
    (dlxGet (setRight m i v) k).size = (dlxGet m k).size := by
  unfold setRight
  by_cases hb : i < m.nodes.length
  · by_cases hk : k = i
    · subst hk
      rw [dlxGet_dlxSet_self _ _ _ hb]
    · rw [dlxGet_dlxSet_ne _ _ _ _ hk]
  · rw [dlxSet_oob _ _ _ (Nat.le_of_not_lt hb)]

@[simp] theorem setRight_get_name (m : DLXMatrix) (i : Nat) (v : Nat) (k : Nat) :
    (dlxGet (setRight m i v) k).name = (dlxGet m k).name := by
  unfold setRight
  by_cases hb : i < m.nodes.length
  · by_cases hk : k = i
    · subst hk
      rw [dlxGet_dlxSet_self _ _ _ hb]
    · rw [dlxGet_dlxSet_ne _ _ _ _ hk]
  · rw [dlxSet_oob _ _ _ (Nat.le_of_not_lt hb)]

@[simp] theorem setUp_length (m : DLXMatrix) (i : Nat) (v : Nat) :
    (setUp m i v).nodes.length = m.nodes.length := by
  unfold setUp
  simp

@[simp] theorem setUp_header (m : DLXMatrix) (i : Nat) (v : Nat) :
    (setUp m i v).header = m.header := rfl

theorem setUp_oob (m : DLXMatrix) (i : Nat) (v : Nat)
    (h : m.nodes.length ≤ i) : setUp m i v = m := by
  unfold setUp
  exact dlxSet_oob m i _ h

@[simp] theorem setUp_get_left (m : DLXMatrix) (i : Nat) (v : Nat) (k : Nat) :
    (dlxGet (setUp m i v) k).left = (dlxGet m k).left := by
  unfold setUp
  by_cases hb : i < m.nodes.length
  · by_cases hk : k = i
    · subst hk
      rw [dlxGet_dlxSet_self _ _ _ hb]
    · rw [dlxGet_dlxSet_ne _ _ _ _ hk]
  · rw [dlxSet_oob _ _ _ (Nat.le_of_not_lt hb)]

@[simp] theorem setUp_get_right (m : DLXMatrix) (i : Nat) (v : Nat) (k : Nat) :
    (dlxGet (setUp m i v) k).right = (dlxGet m k).right := by
  unfold setUp
  by_cases hb : i < m.nodes.length
  · by_cases hk : k = i
    · subst hk
      rw [dlxGet_dlxSet_self _ _ _ hb]
    · rw [dlxGet_dlxSet_ne _ _ _ _ hk]
  · rw [dlxSet_oob _ _ _ (Nat.le_of_not_lt hb)]

@[simp] theorem setUp_get_up_self (m : DLXMatrix) (i : Nat) (v : Nat)
    (h : i < m.nodes.length) : (dlxGet (setUp m i v) i).up = v := by
  unfold setUp
  rw [dlxGet_dlxSet_self _ _ _ h]

@[simp] theorem setUp_get_up_ne (m : DLXMatrix) (i : Nat) (v : Nat) (k : Nat)
    (h : k ≠ i) : (dlxGet (setUp m i v) k).up = (dlxGet m k).up := by
  unfold setUp
  rw [dlxGet_dlxSet_ne _ _ _ _ h]

@[simp] theorem setUp_get_down (m : DLXMatrix) (i : Nat) (v : Nat) (k : Nat) :
    (dlxGet (setUp m i v) k).down = (dlxGet m k).down := by
  unfold setUp
  by_cases hb : i < m.nodes.length
  · by_cases hk : k = i
    · subst hk
      rw [dlxGet_dlxSet_self _ _ _ hb]
    · rw [dlxGet_dlxSet_ne _ _ _ _ hk]
  · rw [dlxSet_oob _ _ _ (Nat.le_of_not_lt hb)]

@[simp] theorem setUp_get_column (m : DLXMatrix) (i : Nat) (v : Nat) (k : Nat) :
    (dlxGet (setUp m i v) k).column = (dlxGet m k).column := by
  unfold setUp
  by_cases hb : i < m.nodes.length
  · by_cases hk : k = i
    · subst hk
      rw [dlxGet_dlxSet_self _ _ _ hb]
    · rw [dlxGet_dlxSet_ne _ _ _ _ hk]
  · rw [dlxSet_oob _ _ _ (Nat.le_of_not_lt hb)]

@[simp] theorem setUp_get_rowId (m : DLXMatrix) (i : Nat) (v : Nat) (k : Nat) :
    (dlxGet (setUp m i v) k).rowId = (dlxGet m k).rowId := by
  unfold setUp
  by_cases hb : i < m.nodes.length
  · by_cases hk : k = i
    · subst hk
      rw [dlxGet_dlxSet_self _ _ _ hb]
    · rw [dlxGet_dlxSet_ne _ _ _ _ hk]
  · rw [dlxSet_oob _ _ _ (Nat.le_of_not_lt hb)]

@[simp] theorem setUp_get_size (m : DLXMatrix) (i : Nat) (v : Nat) (k : Nat) :
    (dlxGet (setUp m i v) k).size = (dlxGet m k).size := by
  unfold setUp
  by_cases hb : i < m.nodes.length
  · by_cases hk : k = i
    · subst hk
      rw [dlxGet_dlxSet_self _ _ _ hb]
    · rw [dlxGet_dlxSet_ne _ _ _ _ hk]
  · rw [dlxSet_oob _ _ _ (Nat.le_of_not_lt hb)]

@[simp] theorem setUp_get_name (m : DLXMatrix) (i : Nat) (v : Nat) (k : Nat) :
    (dlxGet (setUp m i v) k).name = (dlxGet m k).name := by
  unfold setUp
  by_cases hb : i < m.nodes.length
  · by_cases hk : k = i
    · subst hk
      rw [dlxGet_dlxSet_self _ _ _ hb]
    · rw [dlxGet_dlxSet_ne _ _ _ _ hk]
  · rw [dlxSet_oob _ _ _ (Nat.le_of_not_lt hb)]

@[simp] theorem setDown_length (m : DLXMatrix) (i : Nat) (v : Nat) :
    (setDown m i v).nodes.length = m.nodes.length := by
  unfold setDown
  simp

@[simp] theorem setDown_header (m : DLXMatrix) (i : Nat) (v : Nat) :
    (setDown m i v).header = m.header := rfl

theorem setDown_oob (m : DLXMatrix) (i : Nat) (v : Nat)
    (h : m.nodes.length ≤ i) : setDown m i v = m := by
  unfold setDown
  exact dlxSet_oob m i _ h

@[simp] theorem setDown_get_left (m : DLXMatrix) (i : Nat) (v : Nat) (k : Nat) :
    (dlxGet (setDown m i v) k).left = (dlxGet m k).left := by
  unfold setDown
  by_cases hb : i < m.nodes.length
  · by_cases hk : k = i
    · subst hk
      rw [dlxGet_dlxSet_self _ _ _ hb]
    · rw [dlxGet_dlxSet_ne _ _ _ _ hk]
  · rw [dlxSet_oob _ _ _ (Nat.le_of_not_lt hb)]

@[simp] theorem setDown_get_right (m : DLXMatrix) (i : Nat) (v : Nat) (k : Nat) :
    (dlxGet (setDown m i v) k).right = (dlxGet m k).right := by
  unfold setDown
  by_cases hb : i < m.nodes.length
  · by_cases hk : k = i
    · subst hk
      rw [dlxGet_dlxSet_self _ _ _ hb]
    · rw [dlxGet_dlxSet_ne _ _ _ _ hk]
  · rw [dlxSet_oob _ _ _ (Nat.le_of_not_lt hb)]

@[simp] theorem setDown_get_up (m : DLXMatrix) (i : Nat) (v : Nat) (k : Nat) :
    (dlxGet (setDown m i v) k).up = (dlxGet m k).up := by
  unfold setDown
  by_cases hb : i < m.nodes.length
  · by_cases hk : k = i
    · subst hk
      rw [dlxGet_dlxSet_self _ _ _ hb]
    · rw [dlxGet_dlxSet_ne _ _ _ _ hk]
  · rw [dlxSet_oob _ _ _ (Nat.le_of_not_lt hb)]

@[simp] theorem setDown_get_down_self (m : DLXMatrix) (i : Nat) (v : Nat)
    (h : i < m.nodes.length) : (dlxGet (setDown m i v) i).down = v := by
  unfold setDown
  rw [dlxGet_dlxSet_self _ _ _ h]

@[simp] theorem setDown_get_down_ne (m : DLXMatrix) (i : Nat) (v : Nat) (k : Nat)
    (h : k ≠ i) : (dlxGet (setDown m i v) k).down = (dlxGet m k).down := by
  unfold setDown
  rw [dlxGet_dlxSet_ne _ _ _ _ h]

@[simp] theorem setDown_get_column (m : DLXMatrix) (i : Nat) (v : Nat) (k : Nat) :
    (dlxGet (setDown m i v) k).column = (dlxGet m k).column := by
  unfold setDown
  by_cases hb : i < m.nodes.length
  · by_cases hk : k = i
    · subst hk
      rw [dlxGet_dlxSet_self _ _ _ hb]
    · rw [dlxGet_dlxSet_ne _ _ _ _ hk]
  · rw [dlxSet_oob _ _ _ (Nat.le_of_not_lt hb)]

@[simp] theorem setDown_get_rowId (m : DLXMatrix) (i : Nat) (v : Nat) (k : Nat) :
    (dlxGet (setDown m i v) k).rowId = (dlxGet m k).rowId := by
  unfold setDown
  by_cases hb : i < m.nodes.length
  · by_cases hk : k = i
    · subst hk
      rw [dlxGet_dlxSet_self _ _ _ hb]
    · rw [dlxGet_dlxSet_ne _ _ _ _ hk]
  · rw [dlxSet_oob _ _ _ (Nat.le_of_not_lt hb)]

@[simp] theorem setDown_get_size (m : DLXMatrix) (i : Nat) (v : Nat) (k : Nat) :
    (dlxGet (setDown m i v) k).size = (dlxGet m k).size := by
  unfold setDown
  by_cases hb : i < m.nodes.length
  · by_cases hk : k = i
    · subst hk
      rw [dlxGet_dlxSet_self _ _ _ hb]
    · rw [dlxGet_dlxSet_ne _ _ _ _ hk]
  · rw [dlxSet_oob _ _ _ (Nat.le_of_not_lt hb)]

@[simp] theorem setDown_get_name (m : DLXMatrix) (i : Nat) (v : Nat) (k : Nat) :
    (dlxGet (setDown m i v) k).name = (dlxGet m k).name := by
  unfold setDown
  by_cases hb : i < m.nodes.length
  · by_cases hk : k = i
    · subst hk
      rw [dlxGet_dlxSet_self _ _ _ hb]
    · rw [dlxGet_dlxSet_ne _ _ _ _ hk]
  · rw [dlxSet_oob _ _ _ (Nat.le_of_not_lt hb)]

@[simp] theorem setSize_length (m : DLXMatrix) (i : Nat) (v : Int) :
    (setSize m i v).nodes.length = m.nodes.length := by
  unfold setSize
  simp

@[simp] theorem setSize_header (m : DLXMatrix) (i : Nat) (v : Int) :
    (setSize m i v).header = m.header := rfl

theorem setSize_oob (m : DLXMatrix) (i : Nat) (v : Int)
    (h : m.nodes.length ≤ i) : setSize m i v = m := by
  unfold setSize
  exact dlxSet_oob m i _ h

@[simp] theorem setSize_get_left (m : DLXMatrix) (i : Nat) (v : Int) (k : Nat) :
    (dlxGet (setSize m i v) k).left = (dlxGet m k).left := by
  unfold setSize
  by_cases hb : i < m.nodes.length
  · by_cases hk : k = i
    · subst hk
      rw [dlxGet_dlxSet_self _ _ _ hb]
    · rw [dlxGet_dlxSet_ne _ _ _ _ hk]
  · rw [dlxSet_oob _ _ _ (Nat.le_of_not_lt hb)]

@[simp] theorem setSize_get_right (m : DLXMatrix) (i : Nat) (v : Int) (k : Nat) :
    (dlxGet (setSize m i v) k).right = (dlxGet m k).right := by
  unfold setSize
  by_cases hb : i < m.nodes.length
  · by_cases hk : k = i
    · subst hk
      rw [dlxGet_dlxSet_self _ _ _ hb]
    · rw [dlxGet_dlxSet_ne _ _ _ _ hk]
  · rw [dlxSet_oob _ _ _ (Nat.le_of_not_lt hb)]

@[simp] theorem setSize_get_up (m : DLXMatrix) (i : Nat) (v : Int) (k : Nat) :
    (dlxGet (setSize m i v) k).up = (dlxGet m k).up := by
  unfold setSize
  by_cases hb : i < m.nodes.length
  · by_cases hk : k = i
    · subst hk
      rw [dlxGet_dlxSet_self _ _ _ hb]
    · rw [dlxGet_dlxSet_ne _ _ _ _ hk]
  · rw [dlxSet_oob _ _ _ (Nat.le_of_not_lt hb)]

@[simp] theorem setSize_get_down (m : DLXMatrix) (i : Nat) (v : Int) (k : Nat) :
    (dlxGet (setSize m i v) k).down = (dlxGet m k).down := by
  unfold setSize
  by_cases hb : i < m.nodes.length
  · by_cases hk : k = i
    · subst hk
      rw [dlxGet_dlxSet_self _ _ _ hb]
    · rw [dlxGet_dlxSet_ne _ _ _ _ hk]
  · rw [dlxSet_oob _ _ _ (Nat.le_of_not_lt hb)]

@[simp] theorem setSize_get_column (m : DLXMatrix) (i : Nat) (v : Int) (k : Nat) :
    (dlxGet (setSize m i v) k).column = (dlxGet m k).column := by
  unfold setSize
  by_cases hb : i < m.nodes.length
  · by_cases hk : k = i
    · subst hk
      rw [dlxGet_dlxSet_self _ _ _ hb]
    · rw [dlxGet_dlxSet_ne _ _ _ _ hk]
  · rw [dlxSet_oob _ _ _ (Nat.le_of_not_lt hb)]

@[simp] theorem setSize_get_rowId (m : DLXMatrix) (i : Nat) (v : Int) (k : Nat) :
    (dlxGet (setSize m i v) k).rowId = (dlxGet m k).rowId := by
  unfold setSize
  by_cases hb : i < m.nodes.length
  · by_cases hk : k = i
    · subst hk
      rw [dlxGet_dlxSet_self _ _ _ hb]
    · rw [dlxGet_dlxSet_ne _ _ _ _ hk]
  · rw [dlxSet_oob _ _ _ (Nat.le_of_not_lt hb)]

@[simp] theorem setSize_get_size_self (m : DLXMatrix) (i : Nat) (v : Int)
    (h : i < m.nodes.length) : (dlxGet (setSize m i v) i).size = v := by
  unfold setSize
  rw [dlxGet_dlxSet_self _ _ _ h]

@[simp] theorem setSize_get_size_ne (m : DLXMatrix) (i : Nat) (v : Int) (k : Nat)
    (h : k ≠ i) : (dlxGet (setSize m i v) k).size = (dlxGet m k).size := by
  unfold setSize
  rw [dlxGet_dlxSet_ne _ _ _ _ h]

@[simp] theorem setSize_get_name (m : DLXMatrix) (i : Nat) (v : Int) (k : Nat) :
    (dlxGet (setSize m i v) k).name = (dlxGet m k).name := by
  unfold setSize
  by_cases hb : i < m.nodes.length
  · by_cases hk : k = i
    · subst hk
      rw [dlxGet_dlxSet_self _ _ _ hb]
    · rw [dlxGet_dlxSet_ne _ _ _ _ hk]
  · rw [dlxSet_oob _ _ _ (Nat.le_of_not_lt hb)]

@[simp] theorem unlinkNode_length (m : DLXMatrix) (j : Nat) :
    (unlinkNode m j).nodes.length = m.nodes.length := by
  simp [unlinkNode]

@[simp] theorem unlinkNode_header (m : DLXMatrix) (j : Nat) :
    (unlinkNode m j).header = m.header := by
  simp [unlinkNode]

@[simp] theorem unlinkNode_get_left (m : DLXMatrix) (j k : Nat) :
    (dlxGet (unlinkNode m j) k).left = (dlxGet m k).left := by
  simp [unlinkNode]

@[simp] theorem unlinkNode_get_right (m : DLXMatrix) (j k : Nat) :
    (dlxGet (unlinkNode m j) k).right = (dlxGet m k).right := by
  simp [unlinkNode]

@[simp] theorem unlinkNode_get_column (m : DLXMatrix) (j k : Nat) :
    (dlxGet (unlinkNode m j) k).column = (dlxGet m k).column := by
  simp [unlinkNode]

@[simp] theorem relinkNode_length (m : DLXMatrix) (j : Nat) :
    (relinkNode m j).nodes.length = m.nodes.length := by
  simp [relinkNode]

@[simp] theorem relinkNode_header (m : DLXMatrix) (j : Nat) :
    (relinkNode m j).header = m.header := by
  simp [relinkNode]

@[simp] theorem relinkNode_get_left (m : DLXMatrix) (j k : Nat) :
    (dlxGet (relinkNode m j) k).left = (dlxGet m k).left := by
  simp [relinkNode]

@[simp] theorem relinkNode_get_right (m : DLXMatrix) (j k : Nat) :
    (dlxGet (relinkNode m j) k).right = (dlxGet m k).right := by
  simp [relinkNode]

@[simp] theorem relinkNode_get_column (m : DLXMatrix) (j k : Nat) :
    (dlxGet (relinkNode m j) k).column = (dlxGet m k).column := by
  simp [relinkNode]

theorem unlinkNode_eq (m : DLXMatrix) (j : Nat) :
    unlinkNode m j =
      setSize (setDown (setUp m (dlxGet m j).down (dlxGet m j).up)
          (dlxGet m j).up (dlxGet m j).down)
        ((dlxGet m j).column.getD 0)
        ((dlxGet (setDown (setUp m (dlxGet m j).down (dlxGet m j).up)
            (dlxGet m j).up (dlxGet m j).down)
          ((dlxGet m j).column.getD 0)).size - 1) := by
  simp only [unlinkNode]
  have h1 : (dlxGet (setUp m (dlxGet m j).down (dlxGet m j).up) j).up =
      (dlxGet m j).up := by
    by_cases hk : j = (dlxGet m j).down
    · by_cases hb : (dlxGet m j).down < m.nodes.length
      · rw [← hk] at hb ⊢
        rw [setUp_get_up_self _ _ _ hb]
      · rw [setUp_oob _ _ _ (Nat.le_of_not_lt hb)]
    · rw [setUp_get_up_ne _ _ _ _ hk]
  have h2 : (dlxGet (setUp m (dlxGet m j).down (dlxGet m j).up) j).down =
      (dlxGet m j).down := by simp
  rw [h1, h2]
  have h3 : (dlxGet (setDown (setUp m (dlxGet m j).down (dlxGet m j).up)
      (dlxGet m j).up (dlxGet m j).down) j).column = (dlxGet m j).column := by simp
  rw [h3]

theorem dlxSet_comm (m : DLXMatrix) (i k : Nat) (a b : DLXNodeData) (h : i ≠ k) :
    dlxSet (dlxSet m i a) k b = dlxSet (dlxSet m k b) i a := by
  unfold dlxSet
  simp only
  rw [List.set_comm _ _ _ h]

theorem setUp_self_value (m : DLXMatrix) (i : Nat) :
    setUp m i ((dlxGet m i).up) = m := by
  unfold setUp
  rw [show ({ dlxGet m i with up := (dlxGet m i).up } : DLXNodeData) = dlxGet m i from rfl]
  exact dlxSet_get_self m i

theorem setDown_self_value (m : DLXMatrix) (i : Nat) :
    setDown m i ((dlxGet m i).down) = m := by
  unfold setDown
  rw [show ({ dlxGet m i with down := (dlxGet m i).down } : DLXNodeData) = dlxGet m i from rfl]
  exact dlxSet_get_self m i

theorem setSize_self_value (m : DLXMatrix) (i : Nat) :
    setSize m i ((dlxGet m i).size) = m := by
  unfold setSize
  rw [show ({ dlxGet m i with size := (dlxGet m i).size } : DLXNodeData) = dlxGet m i from rfl]
  exact dlxSet_get_self m i

theorem setSize_setSize (m : DLXMatrix) (i : Nat) (a b : Int) :
    setSize (setSize m i a) i b = setSize m i b := by
  by_cases hb : i < m.nodes.length
  · unfold setSize
    rw [dlxGet_dlxSet_self _ _ _ hb]
    rw [dlxSet_dlxSet_same]
  · rw [setSize_oob _ _ _ (Nat.le_of_not_lt hb)]

theorem setSize_roundTrip (m2 : DLXMatrix) (c0 : Nat) :
    setSize (setSize m2 c0 ((dlxGet m2 c0).size - 1)) c0
      ((dlxGet (setSize m2 c0 ((dlxGet m2 c0).size - 1)) c0).size + 1) = m2 := by
  by_cases hcb : c0 < m2.nodes.length
  · rw [setSize_get_size_self _ _ _ hcb]
    rw [show ((dlxGet m2 c0).size - 1 + 1 : Int) = (dlxGet m2 c0).size by ring]
    rw [setSize_setSize]
    exact setSize_self_value m2 c0
  · have hle := Nat.le_of_not_lt hcb
    rw [setSize_oob m2 c0 _ hle, setSize_oob m2 c0 _ hle]

theorem node_up_restore (n : DLXNodeData) (a j : Nat) (hn : n.up = j) :
    ({ { n with up := a } with up := j } : DLXNodeData) = n := by
  cases n
  cases hn
  rfl

theorem node_down_restore (n : DLXNodeData) (a j : Nat) (hn : n.down = j) :
    ({ { n with down := a } with down := j } : DLXNodeData) = n := by
  cases n
  cases hn
  rfl

theorem node_ud_restore (n : DLXNodeData) (a b j : Nat) (h1 : n.up = j)
    (h2 : n.down = j) :
    ({ { { n with
           up := a
           down := b } with up := j } with down := j } : DLXNodeData) = n := by
  cases n
  cases h1
  cases h2
  rfl

theorem relink_unlink (m : DLXMatrix) (j : Nat) (h : vOK m j) :
    relinkNode (unlinkNode m j) j = m := by
  obtain ⟨hj, hd, hu, hdu, hud⟩ := h
  have htri : ((dlxGet m j).down = j ∧ (dlxGet m j).up = j) ∨
      ((dlxGet m j).down = (dlxGet m j).up ∧ j ≠ (dlxGet m j).down) ∨
      (j ≠ (dlxGet m j).down ∧ j ≠ (dlxGet m j).up ∧
        (dlxGet m j).down ≠ (dlxGet m j).up) := by
    by_cases h1 : (dlxGet m j).down = j
    · left
      refine ⟨h1, ?_⟩
      have := hdu
      rw [h1] at this
      -- this : (dlxGet m j).up = j ... careful: hdu is about (dlxGet m (down)).up
      exact this
    · by_cases h2 : j = (dlxGet m j).up
      · exfalso
        have := hud
        rw [← h2] at this
        exact h1 this
      · by_cases h3 : (dlxGet m j).down = (dlxGet m j).up
        · exact Or.inr (Or.inl ⟨h3, fun hc => h1 hc.symm⟩)
        · exact Or.inr (Or.inr ⟨fun hc => h1 hc.symm, h2, h3⟩)
  rw [unlinkNode_eq]
  simp only [relinkNode]
  rcases htri with ⟨hA1, hA2⟩ | ⟨hB0, hBj⟩ | ⟨hC1, hC2, hC3⟩
  · -- self-linked: the vertical writes are value-identities
    have e1 : setUp m j j = m := by
      have := setUp_self_value m j
      rwa [hA2] at this
    have e2 : setDown m j j = m := by
      have := setDown_self_value m j
      rwa [hA1] at this
    rw [hA1, hA2, e1, e2]
    have hcol : (dlxGet (setSize m ((dlxGet m j).column.getD 0)
        ((dlxGet m ((dlxGet m j).column.getD 0)).size - 1)) j).column =
        (dlxGet m j).column := by simp
    rw [hcol, setSize_roundTrip m ((dlxGet m j).column.getD 0)]
    rw [hA1, e1, hA2, e2]
  · -- two-cycle: j vertically between a single neighbor D = up = down
    rw [← hB0]
    have hudD : (dlxGet m (dlxGet m j).down).down = j := by
      rw [hB0]
      exact hud
    have hm2 : setDown (setUp m (dlxGet m j).down (dlxGet m j).down)
        (dlxGet m j).down (dlxGet m j).down =
        dlxSet m (dlxGet m j).down
          { dlxGet m (dlxGet m j).down with
            up := (dlxGet m j).down
            down := (dlxGet m j).down } := by
      unfold setUp setDown
      rw [dlxGet_dlxSet_self _ _ _ hd]
      rw [dlxSet_dlxSet_same]
    rw [hm2]
    have hcol : (dlxGet (setSize (dlxSet m (dlxGet m j).down
        { dlxGet m (dlxGet m j).down with
          up := (dlxGet m j).down
          down := (dlxGet m j).down }) ((dlxGet m j).column.getD 0)
        ((dlxGet (dlxSet m (dlxGet m j).down
          { dlxGet m (dlxGet m j).down with
            up := (dlxGet m j).down
            down := (dlxGet m j).down }) ((dlxGet m j).column.getD 0)).size - 1))
        j).column = (dlxGet m j).column := by
      rw [setSize_get_column]
      rw [dlxGet_dlxSet_ne _ _ _ _ hBj]
    rw [hcol, setSize_roundTrip]
    have hdown2 : (dlxGet (dlxSet m (dlxGet m j).down
        { dlxGet m (dlxGet m j).down with
          up := (dlxGet m j).down
          down := (dlxGet m j).down }) j).down = (dlxGet m j).down := by
      rw [dlxGet_dlxSet_ne _ _ _ _ hBj]
    rw [hdown2]
    have hup3 : (dlxGet (setUp (dlxSet m (dlxGet m j).down
        { dlxGet m (dlxGet m j).down with
          up := (dlxGet m j).down
          down := (dlxGet m j).down }) (dlxGet m j).down j) j).up =
        (dlxGet m j).up := by
      rw [setUp_get_up_ne _ _ _ _ hBj]
      rw [dlxGet_dlxSet_ne _ _ _ _ hBj]
    rw [hup3, ← hB0]
    have hS3 : setUp (dlxSet m (dlxGet m j).down
        { dlxGet m (dlxGet m j).down with
          up := (dlxGet m j).down
          down := (dlxGet m j).down }) (dlxGet m j).down j =
        dlxSet m (dlxGet m j).down
          ({ { dlxGet m (dlxGet m j).down with
               up := (dlxGet m j).down
               down := (dlxGet m j).down } with up := j }) := by
      unfold setUp
      rw [dlxGet_dlxSet_self _ _ _ hd]
      rw [dlxSet_dlxSet_same]
    rw [hS3]
    have hS4 : setDown (dlxSet m (dlxGet m j).down
        ({ { dlxGet m (dlxGet m j).down with
             up := (dlxGet m j).down
             down := (dlxGet m j).down } with up := j }))
        (dlxGet m j).down j =
        dlxSet m (dlxGet m j).down
          ({ { { dlxGet m (dlxGet m j).down with
                 up := (dlxGet m j).down
                 down := (dlxGet m j).down } with up := j } with down := j }) := by
      unfold setDown
      rw [dlxGet_dlxSet_self _ _ _ hd]
      rw [dlxSet_dlxSet_same]
    rw [hS4]
    exact (congrArg (dlxSet m (dlxGet m j).down)
        (node_ud_restore (dlxGet m (dlxGet m j).down) (dlxGet m j).down
          (dlxGet m j).down j hdu hudD)).trans
      (dlxSet_get_self m (dlxGet m j).down)
  · -- generic case: j, down, up pairwise distinct
    have hcol : (dlxGet (setSize (setDown (setUp m (dlxGet m j).down (dlxGet m j).up)
        (dlxGet m j).up (dlxGet m j).down) ((dlxGet m j).column.getD 0)
        ((dlxGet (setDown (setUp m (dlxGet m j).down (dlxGet m j).up)
          (dlxGet m j).up (dlxGet m j).down) ((dlxGet m j).column.getD 0)).size - 1))
        j).column = (dlxGet m j).column := by simp
    rw [hcol, setSize_roundTrip]
    have hdown2 : (dlxGet (setDown (setUp m (dlxGet m j).down (dlxGet m j).up)
        (dlxGet m j).up (dlxGet m j).down) j).down = (dlxGet m j).down := by
      rw [setDown_get_down_ne _ _ _ _ hC2]
      simp
    rw [hdown2]
    have hup3 : (dlxGet (setUp (setDown (setUp m (dlxGet m j).down (dlxGet m j).up)
        (dlxGet m j).up (dlxGet m j).down) (dlxGet m j).down j) j).up =
        (dlxGet m j).up := by
      rw [setUp_get_up_ne _ _ _ _ hC1]
      rw [setDown_get_up]
      rw [setUp_get_up_ne _ _ _ _ hC1]
    rw [hup3]
    have hS2 : setDown (setUp m (dlxGet m j).down (dlxGet m j).up)
        (dlxGet m j).up (dlxGet m j).down =
        dlxSet (dlxSet m (dlxGet m j).down
            { dlxGet m (dlxGet m j).down with up := (dlxGet m j).up })
          (dlxGet m j).up
          { dlxGet m (dlxGet m j).up with down := (dlxGet m j).down } := by
      unfold setUp setDown
      rw [dlxGet_dlxSet_ne _ _ _ _ (Ne.symm hC3)]
    rw [hS2]
    have hS3 : setUp (dlxSet (dlxSet m (dlxGet m j).down
          { dlxGet m (dlxGet m j).down with up := (dlxGet m j).up })
        (dlxGet m j).up
        { dlxGet m (dlxGet m j).up with down := (dlxGet m j).down })
        (dlxGet m j).down j =
        dlxSet m (dlxGet m j).up
          { dlxGet m (dlxGet m j).up with down := (dlxGet m j).down } := by
      unfold setUp
      rw [dlxGet_dlxSet_ne _ _ _ _ hC3]
      rw [dlxGet_dlxSet_self _ _ _ hd]
      rw [dlxSet_comm _ _ _ _ _ (Ne.symm hC3)]
      rw [dlxSet_dlxSet_same]
      exact congrArg (fun z => dlxSet z (dlxGet m j).up
          { dlxGet m (dlxGet m j).up with down := (dlxGet m j).down })
        ((congrArg (dlxSet m (dlxGet m j).down)
          (node_up_restore (dlxGet m (dlxGet m j).down) (dlxGet m j).up j hdu)).trans
         (dlxSet_get_self m (dlxGet m j).down))
    rw [hS3]
    have hS4 : setDown (dlxSet m (dlxGet m j).up
        { dlxGet m (dlxGet m j).up with down := (dlxGet m j).down })
        (dlxGet m j).up j = m := by
      unfold setDown
      rw [dlxGet_dlxSet_self _ _ _ hu]
      rw [dlxSet_dlxSet_same]
      exact (congrArg (dlxSet m (dlxGet m j).up)
          (node_down_restore (dlxGet m (dlxGet m j).up) (dlxGet m j).down j hud)).trans
        (dlxSet_get_self m (dlxGet m j).up)
    rw [hS4]

theorem unlinkNode_get_up_ne (m : DLXMatrix) (j k : Nat)
    (hk : k ≠ (dlxGet m j).down) :
    (dlxGet (unlinkNode m j) k).up = (dlxGet m k).up := by
  rw [unlinkNode_eq, setSize_get_up, setDown_get_up, setUp_get_up_ne _ _ _ _ hk]

theorem unlinkNode_get_up_d (m : DLXMatrix) (j : Nat)
    (hb : (dlxGet m j).down < m.nodes.length) :
    (dlxGet (unlinkNode m j) (dlxGet m j).down).up = (dlxGet m j).up := by
  rw [unlinkNode_eq, setSize_get_up, setDown_get_up, setUp_get_up_self _ _ _ hb]

theorem unlinkNode_get_down_ne (m : DLXMatrix) (j k : Nat)
    (hk : k ≠ (dlxGet m j).up) :
    (dlxGet (unlinkNode m j) k).down = (dlxGet m k).down := by
  rw [unlinkNode_eq, setSize_get_down, setDown_get_down_ne _ _ _ _ hk, setUp_get_down]

theorem unlinkNode_get_down_u (m : DLXMatrix) (j : Nat)
    (hb : (dlxGet m j).up < m.nodes.length) :
    (dlxGet (unlinkNode m j) (dlxGet m j).up).down = (dlxGet m j).down := by
  rw [unlinkNode_eq, setSize_get_down, setDown_get_down_self]
  simpa using hb

theorem vOK_unlink (m : DLXMatrix) (j x : Nat) (hj : vOK m j) (hx : vOK m x)
    (hne : x ≠ j) : vOK (unlinkNode m j) x := by
  obtain ⟨hjb, hjd, hju, hjdu, hjud⟩ := hj
  obtain ⟨hxb, hxd, hxu, hxdu, hxud⟩ := hx
  have hlen : (unlinkNode m j).nodes.length = m.nodes.length := by simp
  by_cases hxU : x = (dlxGet m j).up
  · -- x is directly above j
    have hxdown : (dlxGet (unlinkNode m j) x).down = (dlxGet m j).down := by
      rw [hxU]
      exact unlinkNode_get_down_u m j hju
    refine ⟨by rw [hlen]; exact hxb, by rw [hxdown, hlen]; exact hjd, ?_, ?_, ?_⟩
    · -- up bound
      by_cases hxD : x = (dlxGet m j).down
      · rw [hxD, unlinkNode_get_up_d m j hjd, hlen]
        exact hju
      · rw [unlinkNode_get_up_ne m j x hxD, hlen]
        exact hxu
    · -- down-up equation
      rw [hxdown, unlinkNode_get_up_d m j hjd, ← hxU]
    · -- up-down equation
      by_cases hxD : x = (dlxGet m j).down
      · -- x = up = down of j
        have h1 : (dlxGet (unlinkNode m j) x).up = (dlxGet m j).up := by
          rw [hxD]
          exact unlinkNode_get_up_d m j hjd
        rw [h1, unlinkNode_get_down_u m j hju, ← hxD]
      · rw [unlinkNode_get_up_ne m j x hxD]
        have hwU : (dlxGet m x).up ≠ (dlxGet m j).up := by
          intro hc
          rw [hc] at hxud
          rw [hjud] at hxud
          exact hne hxud.symm
        rw [unlinkNode_get_down_ne m j _ hwU]
        exact hxud
  · -- x is not directly above j
    have hxdown : (dlxGet (unlinkNode m j) x).down = (dlxGet m x).down :=
      unlinkNode_get_down_ne m j x hxU
    refine ⟨by rw [hlen]; exact hxb, by rw [hxdown, hlen]; exact hxd, ?_, ?_, ?_⟩
    · by_cases hxD : x = (dlxGet m j).down
      · have h1 : (dlxGet (unlinkNode m j) x).up = (dlxGet m j).up := by
          rw [hxD]
          exact unlinkNode_get_up_d m j hjd
        rw [h1, hlen]
        exact hju
      · rw [unlinkNode_get_up_ne m j x hxD, hlen]
        exact hxu
    · rw [hxdown]
      have hzD : (dlxGet m x).down ≠ (dlxGet m j).down := by
        intro hc
        rw [hc] at hxdu
        rw [hjdu] at hxdu
        exact hne hxdu.symm
      rw [unlinkNode_get_up_ne m j _ hzD]
      exact hxdu
    · by_cases hxD : x = (dlxGet m j).down
      · have h1 : (dlxGet (unlinkNode m j) x).up = (dlxGet m j).up := by
          rw [hxD]
          exact unlinkNode_get_up_d m j hjd
        rw [h1, unlinkNode_get_down_u m j hju, ← hxD]
      · have hwU : (dlxGet m x).up ≠ (dlxGet m j).up := by
          intro hc
          rw [hc] at hxud
          rw [hjud] at hxud
          exact hne hxud.symm
        rw [unlinkNode_get_up_ne m j x hxD, unlinkNode_get_down_ne m j _ hwU]
        exact hxud

theorem pairedOK_of_nodup (js : List Nat) : ∀ (m : DLXMatrix),
    js.Pairwise (fun a b => a ≠ b) → (∀ j ∈ js, vOK m j) → PairedOK m js := by
  induction js with
  | nil =>
    intro m _ _
    trivial
  | cons j rest ih =>
    intro m hpw hall
    obtain ⟨hhead, htail⟩ := List.pairwise_cons.mp hpw
    refine ⟨hall j (List.mem_cons_self j rest), ?_⟩
    refine ih (unlinkNode m j) htail ?_
    intro x hx
    exact vOK_unlink m j x (hall j (List.mem_cons_self j rest))
      (hall x (List.mem_cons_of_mem j hx)) (fun hc => (hhead x hx) hc.symm)

theorem undo_foldl (js : List Nat) : ∀ (m : DLXMatrix), PairedOK m js →
    js.reverse.foldl relinkNode (js.foldl unlinkNode m) = m := by
  induction js with
  | nil =>
    intro m _
    rfl
  | cons j rest ih =>
    intro m hp
    obtain ⟨hv, hrest⟩ := hp
    rw [List.foldl_cons, List.reverse_cons, List.foldl_append]
    rw [ih (unlinkNode m j) hrest]
    rw [List.foldl_cons, List.foldl_nil]
    exact relink_unlink m j hv

theorem chainList_congr (f g : Nat → Nat) (stop : Nat) :
    ∀ fuel x, (∀ y ∈ chainList f stop fuel x, f y = g y) →
      chainList f stop fuel x = chainList g stop fuel x := by
  intro fuel
  induction fuel with
  | zero =>
    intro x _
    rfl
  | succ n ih =>
    intro x hagree
    rw [chainList, chainList]
    by_cases hx : (x == stop) = true
    · rw [if_pos hx, if_pos hx]
    · rw [if_neg hx, if_neg hx]
    
      have hmem : x ∈ chainList f stop (n + 1) x := by
        rw [chainList, if_neg hx]
        exact List.mem_cons_self _ _
      have hfx : f x = g x := hagree x hmem
      rw [← hfx]
      have htail : ∀ y ∈ chainList f stop n (f x), f y = g y := by
        intro y hy
        refine hagree y ?_
        rw [chainList, if_neg hx]
        exact List.mem_cons_of_mem _ hy
      rw [ih (f x) htail]

theorem coverNodesLoop_foldl : ∀ (fuel : Nat) (m : DLXMatrix) (row j : Nat),
    coverNodesLoop fuel m row j =
      (chainList (fun x => (dlxGet m x).right) row fuel j).foldl unlinkNode m := by
  intro fuel
  induction fuel with
  | zero =>
    intro m row j
    rfl
  | succ n ih =>
    intro m row j
    rw [coverNodesLoop, chainList]
    by_cases hj : (j == row) = true
    · rw [if_pos hj, if_pos hj]
      rfl
    · rw [if_neg hj, if_neg hj]
      rw [List.foldl_cons]
      have hright : (dlxGet (unlinkNode m j) j).right = (dlxGet m j).right := by simp
      rw [ih (unlinkNode m j) row ((dlxGet (unlinkNode m j) j).right)]
      rw [hright]
      rw [chainList_congr (fun x => (dlxGet (unlinkNode m j) x).right)
        (fun x => (dlxGet m x).right) row n ((dlxGet m j).right)
        (fun y _ => by simp)]

theorem uncoverNodesLoop_foldl : ∀ (fuel : Nat) (m : DLXMatrix) (row j : Nat),
    uncoverNodesLoop fuel m row j =
      (chainList (fun x => (dlxGet m x).left) row fuel j).foldl relinkNode m := by
  intro fuel
  induction fuel with
  | zero =>
    intro m row j
    rfl
  | succ n ih =>
    intro m row j
    rw [uncoverNodesLoop, chainList]
    by_cases hj : (j == row) = true
    · rw [if_pos hj, if_pos hj]
      rfl
    · rw [if_neg hj, if_neg hj]
      rw [List.foldl_cons]
      have hleft : (dlxGet (relinkNode m j) j).left = (dlxGet m j).left := by simp
      rw [ih (relinkNode m j) row ((dlxGet (relinkNode m j) j).left)]
      rw [hleft]
      rw [chainList_congr (fun x => (dlxGet (relinkNode m j) x).left)
        (fun x => (dlxGet m x).left) row n ((dlxGet m j).left)
        (fun y _ => by simp)]

theorem relinkNode_get_up_ne (m : DLXMatrix) (j k : Nat)
    (hk : k ≠ (dlxGet m j).down) :
    (dlxGet (relinkNode m j) k).up = (dlxGet m k).up := by
  unfold relinkNode
  rw [setDown_get_up]
  have h1 : (dlxGet (setSize m ((dlxGet m j).column.getD 0)
      ((dlxGet m ((dlxGet m j).column.getD 0)).size + 1)) j).down =
      (dlxGet m j).down := by simp
  rw [h1]
  rw [setUp_get_up_ne _ _ _ _ hk]
  simp

theorem relinkNode_get_up_d (m : DLXMatrix) (j : Nat)
    (hb : (dlxGet m j).down < m.nodes.length) :
    (dlxGet (relinkNode m j) (dlxGet m j).down).up = j := by
  unfold relinkNode
  rw [setDown_get_up]
  have h1 : (dlxGet (setSize m ((dlxGet m j).column.getD 0)
      ((dlxGet m ((dlxGet m j).column.getD 0)).size + 1)) j).down =
      (dlxGet m j).down := by simp
  rw [h1]
  rw [setUp_get_up_self]
  simpa using hb

theorem relinkNode_get_up_cases (m : DLXMatrix) (j x : Nat) :
    (dlxGet (relinkNode m j) x).up = (dlxGet m x).up ∨
    ((dlxGet (relinkNode m j) x).up = j ∧ x = (dlxGet m j).down) := by
  by_cases hx : x = (dlxGet m j).down
  · by_cases hb : (dlxGet m j).down < m.nodes.length
    · right
      subst hx
      exact ⟨relinkNode_get_up_d m j hb, rfl⟩
    · left
      subst hx
      unfold relinkNode
      rw [setDown_get_up]
      have h1 : (dlxGet (setSize m ((dlxGet m j).column.getD 0)
          ((dlxGet m ((dlxGet m j).column.getD 0)).size + 1)) j).down =
          (dlxGet m j).down := by simp
      rw [h1]
      rw [setUp_oob]
      · simp
      · simpa using Nat.le_of_not_lt hb
  · left
    exact relinkNode_get_up_ne m j x hx

theorem relinkNode_get_down_cases (m : DLXMatrix) (j x : Nat) :
    (dlxGet (relinkNode m j) x).down = (dlxGet m x).down ∨
    ((dlxGet (relinkNode m j) x).down = j ∧ (x = j ∨ x = (dlxGet m j).up)) := by
  simp only [relinkNode]
  have h1 : (dlxGet (setSize m ((dlxGet m j).column.getD 0)
      ((dlxGet m ((dlxGet m j).column.getD 0)).size + 1)) j).down =
      (dlxGet m j).down := by simp
  rw [h1]
  have hup : (dlxGet (setUp (setSize m ((dlxGet m j).column.getD 0)
      ((dlxGet m ((dlxGet m j).column.getD 0)).size + 1)) (dlxGet m j).down j) j).up =
      j ∨ (dlxGet (setUp (setSize m ((dlxGet m j).column.getD 0)
      ((dlxGet m ((dlxGet m j).column.getD 0)).size + 1)) (dlxGet m j).down j) j).up =
      (dlxGet m j).up := by
    by_cases hjd : j = (dlxGet m j).down
    · by_cases hb : (dlxGet m j).down < m.nodes.length
      · left
        rw [← hjd]
        rw [setUp_get_up_self]
        rw [← hjd] at hb
        simpa using hb
      · right
        rw [setUp_oob]
        · simp
        · simpa using Nat.le_of_not_lt hb
    · right
      rw [setUp_get_up_ne _ _ _ _ hjd]
      simp
  rcases hup with hup | hup <;> rw [hup]
  · -- setDown target is j itself
    by_cases hx : x = j
    · by_cases hb : j < (setUp (setSize m ((dlxGet m j).column.getD 0)
          ((dlxGet m ((dlxGet m j).column.getD 0)).size + 1)) (dlxGet m j).down
          j).nodes.length
      · right
        subst hx
        rw [setDown_get_down_self _ _ _ hb]
        exact ⟨rfl, Or.inl rfl⟩
      · left
        rw [setDown_oob _ _ _ (Nat.le_of_not_lt hb)]
        subst hx
        simp
    · left
      rw [setDown_get_down_ne _ _ _ _ hx]
      simp
  · -- setDown target is the up neighbor
    by_cases hx : x = (dlxGet m j).up
    · by_cases hb : (dlxGet m j).up < (setUp (setSize m ((dlxGet m j).column.getD 0)
          ((dlxGet m ((dlxGet m j).column.getD 0)).size + 1)) (dlxGet m j).down
          j).nodes.length
      · right
        subst hx
        rw [setDown_get_down_self _ _ _ hb]
        exact ⟨rfl, Or.inr rfl⟩
      · left
        rw [setDown_oob _ _ _ (Nat.le_of_not_lt hb)]
        subst hx
        simp
    · left
      rw [setDown_get_down_ne _ _ _ _ hx]
      simp

theorem stInv_refl (c : Nat) (m0 : DLXMatrix)
    (hb : ∀ x, x < m0.nodes.length →
      (dlxGet m0 x).up < m0.nodes.length ∧ (dlxGet m0 x).down < m0.nodes.length)
    (hcl : ∀ x, x < m0.nodes.length →
      colOf m0 ((dlxGet m0 x).up) = colOf m0 x ∧
      colOf m0 ((dlxGet m0 x).down) = colOf m0 x) :
    StInv c m0 m0 :=
  ⟨rfl, fun _ => rfl, fun _ => rfl, fun _ => rfl, hb, hcl,
   fun _ _ _ => rfl, fun _ _ _ => rfl⟩

theorem stInv_unlink (c : Nat) (m0 m : DLXMatrix) (j : Nat)
    (hst : StInv c m0 m) (hjb : j < m0.nodes.length)
    (hjc : colOf m0 j ≠ some c) : StInv c m0 (unlinkNode m j) := by
  have hjbm : j < m.nodes.length := by rw [hst.len]; exact hjb
  have hdb : (dlxGet m j).down < m.nodes.length := by
    rw [hst.len]
    exact (hst.vbound j hjb).2
  have hub : (dlxGet m j).up < m.nodes.length := by
    rw [hst.len]
    exact (hst.vbound j hjb).1
  refine ⟨by simp [hst.len], fun x => by rw [unlinkNode_get_right]; exact hst.right x,
    fun x => by rw [unlinkNode_get_left]; exact hst.left x,
    fun x => by rw [unlinkNode_get_column]; exact hst.column x, ?_, ?_, ?_, ?_⟩
  · intro x hx
    constructor
    · by_cases hxd : x = (dlxGet m j).down
      · rw [hxd, unlinkNode_get_up_d m j hdb]
        exact (hst.vbound j hjb).1
      · rw [unlinkNode_get_up_ne m j x hxd]
        exact (hst.vbound x hx).1
    · by_cases hxu : x = (dlxGet m j).up
      · rw [hxu, unlinkNode_get_down_u m j hub]
        exact (hst.vbound j hjb).2
      · rw [unlinkNode_get_down_ne m j x hxu]
        exact (hst.vbound x hx).2
  · intro x hx
    constructor
    · by_cases hxd : x = (dlxGet m j).down
      · rw [hxd, unlinkNode_get_up_d m j hdb]
        rw [(hst.colCl j hjb).1, ← (hst.colCl j hjb).2, ← hxd]
      · rw [unlinkNode_get_up_ne m j x hxd]
        exact (hst.colCl x hx).1
    · by_cases hxu : x = (dlxGet m j).up
      · rw [hxu, unlinkNode_get_down_u m j hub]
        rw [(hst.colCl j hjb).2, ← (hst.colCl j hjb).1, ← hxu]
      · rw [unlinkNode_get_down_ne m j x hxu]
        exact (hst.colCl x hx).2
  · intro x hx hxc
    have hxd : x ≠ (dlxGet m j).down := by
      intro hc
      apply hjc
      rw [← (hst.colCl j hjb).2, ← hc, hxc]
    rw [unlinkNode_get_up_ne m j x hxd]
    exact hst.cUp x hx hxc
  · intro x hx hxc
    have hxu : x ≠ (dlxGet m j).up := by
      intro hc
      apply hjc
      rw [← (hst.colCl j hjb).1, ← hc, hxc]
    rw [unlinkNode_get_down_ne m j x hxu]
    exact hst.cDown x hx hxc

theorem stInv_relink (c : Nat) (m0 m : DLXMatrix) (j : Nat)
    (hst : StInv c m0 m) (hjb : j < m0.nodes.length)
    (hjc : colOf m0 j ≠ some c) : StInv c m0 (relinkNode m j) := by
  refine ⟨by simp [hst.len], fun x => by rw [relinkNode_get_right]; exact hst.right x,
    fun x => by rw [relinkNode_get_left]; exact hst.left x,
    fun x => by rw [relinkNode_get_column]; exact hst.column x, ?_, ?_, ?_, ?_⟩
  · intro x hx
    constructor
    · rcases relinkNode_get_up_cases m j x with h | ⟨h, _⟩
      · rw [h]
        exact (hst.vbound x hx).1
      · rw [h]
        exact hjb
    · rcases relinkNode_get_down_cases m j x with h | ⟨h, _⟩
      · rw [h]
        exact (hst.vbound x hx).2
      · rw [h]
        exact hjb
  · intro x hx
    constructor
    · rcases relinkNode_get_up_cases m j x with h | ⟨h, hxd⟩
      · rw [h]
        exact (hst.colCl x hx).1
      · rw [h, hxd]
        exact ((hst.colCl j hjb).2).symm
    · rcases relinkNode_get_down_cases m j x with h | ⟨h, hxj⟩
      · rw [h]
        exact (hst.colCl x hx).2
      · rcases hxj with hxj | hxu
        · rw [h, hxj]
        · rw [h, hxu]
          exact ((hst.colCl j hjb).1).symm
  · intro x hx hxc
    have hxd : x ≠ (dlxGet m j).down := by
      intro hc
      apply hjc
      rw [← (hst.colCl j hjb).2, ← hc, hxc]
    rw [relinkNode_get_up_ne m j x hxd]
    exact hst.cUp x hx hxc
  · intro x hx hxc
    rcases relinkNode_get_down_cases m j x with h | ⟨h, hxj⟩
    · rw [h]
      exact hst.cDown x hx hxc
    · exfalso
      rcases hxj with hxj | hxu
      · exact hjc (by rw [← hxj, hxc])
      · exact hjc (by rw [← (hst.colCl j hjb).1, ← hxu, hxc])

theorem stInv_foldl_unlink (c : Nat) (m0 : DLXMatrix) :
    ∀ (js : List Nat) (m : DLXMatrix), StInv c m0 m →
      (∀ j ∈ js, j < m0.nodes.length ∧ colOf m0 j ≠ some c) →
      StInv c m0 (js.foldl unlinkNode m) := by
  intro js
  induction js with
  | nil =>
    intro m hst _
    exact hst
  | cons j rest ih =>
    intro m hst hall
    rw [List.foldl_cons]
    exact ih (unlinkNode m j)
      (stInv_unlink c m0 m j hst (hall j (List.mem_cons_self j rest)).1
        (hall j (List.mem_cons_self j rest)).2)
      (fun x hx => hall x (List.mem_cons_of_mem j hx))

theorem stInv_foldl_relink (c : Nat) (m0 : DLXMatrix) :
    ∀ (js : List Nat) (m : DLXMatrix), StInv c m0 m →
      (∀ j ∈ js, j < m0.nodes.length ∧ colOf m0 j ≠ some c) →
      StInv c m0 (js.foldl relinkNode m) := by
  intro js
  induction js with
  | nil =>
    intro m hst _
    exact hst
  | cons j rest ih =>
    intro m hst hall
    rw [List.foldl_cons]
    exact ih (relinkNode m j)
      (stInv_relink c m0 m j hst (hall j (List.mem_cons_self j rest)).1
        (hall j (List.mem_cons_self j rest)).2)
      (fun x hx => hall x (List.mem_cons_of_mem j hx))

theorem coverRowsLoop_foldl (c : Nat) (m0 : DLXMatrix) :
    ∀ (fuel : Nat) (row : Nat) (m : DLXMatrix), StInv c m0 m →
      (∀ r ∈ chainList (fun x => (dlxGet m0 x).down) c fuel row,
        r < m0.nodes.length ∧ colOf m0 r = some c) →
      (∀ r ∈ chainList (fun x => (dlxGet m0 x).down) c fuel row,
        ∀ j ∈ chainList (fun x => (dlxGet m0 x).right) r m0.nodes.length
          ((dlxGet m0 r).right), j < m0.nodes.length ∧ colOf m0 j ≠ some c) →
      coverRowsLoop fuel m c row =
        ((chainList (fun x => (dlxGet m0 x).down) c fuel row).bind
          (fun r => chainList (fun x => (dlxGet m0 x).right) r m0.nodes.length
            ((dlxGet m0 r).right))).foldl unlinkNode m := by
  intro fuel
  induction fuel with
  | zero =>
    intro row m hst _ _
    rfl
  | succ n ih =>
    intro row m hst hrows hjs
    rw [coverRowsLoop, chainList]
    by_cases hrow : (row == c) = true
    · rw [if_pos hrow, if_pos hrow]
      rfl
    · rw [if_neg hrow, if_neg hrow]
      have hrowmem : row ∈ chainList (fun x => (dlxGet m0 x).down) c (n + 1) row := by
        rw [chainList, if_neg hrow]
        exact List.mem_cons_self _ _
      have hrb := (hrows row hrowmem).1
      have hrc := (hrows row hrowmem).2
      rw [coverNodesLoop_foldl]
      have hstart : (dlxGet m row).right = (dlxGet m0 row).right := hst.right row
      have hfuel : m.nodes.length = m0.nodes.length := hst.len
      have hchain : chainList (fun x => (dlxGet m x).right) row m.nodes.length
          ((dlxGet m row).right) =
          chainList (fun x => (dlxGet m0 x).right) row m0.nodes.length
            ((dlxGet m0 row).right) := by
        rw [hstart, hfuel]
        exact chainList_congr _ _ row m0.nodes.length ((dlxGet m0 row).right)
          (fun y _ => hst.right y)
      rw [hchain]
      have hst1 := stInv_foldl_unlink c m0 _ m hst (hjs row hrowmem)
      have hnext : (dlxGet (List.foldl unlinkNode m
          (chainList (fun x => (dlxGet m0 x).right) row m0.nodes.length
            ((dlxGet m0 row).right))) row).down = (dlxGet m0 row).down :=
        hst1.cDown row hrb hrc
      dsimp only
      rw [hnext]
      rw [ih ((dlxGet m0 row).down) _ hst1
        (fun r hr => hrows r (by rw [chainList, if_neg hrow]; exact List.mem_cons_of_mem _ hr))
        (fun r hr => hjs r (by rw [chainList, if_neg hrow]; exact List.mem_cons_of_mem _ hr))]
      simp only [List.cons_bind, List.foldl_append]

theorem uncoverRowsLoop_foldl (c : Nat) (m0 : DLXMatrix) :
    ∀ (fuel : Nat) (row : Nat) (m : DLXMatrix), StInv c m0 m →
      (∀ r ∈ chainList (fun x => (dlxGet m0 x).up) c fuel row,
        r < m0.nodes.length ∧ colOf m0 r = some c) →
      (∀ r ∈ chainList (fun x => (dlxGet m0 x).up) c fuel row,
        ∀ j ∈ chainList (fun x => (dlxGet m0 x).left) r m0.nodes.length
          ((dlxGet m0 r).left), j < m0.nodes.length ∧ colOf m0 j ≠ some c) →
      uncoverRowsLoop fuel m c row =
        ((chainList (fun x => (dlxGet m0 x).up) c fuel row).bind
          (fun r => chainList (fun x => (dlxGet m0 x).left) r m0.nodes.length
            ((dlxGet m0 r).left))).foldl relinkNode m := by
  intro fuel
  induction fuel with
  | zero =>
    intro row m hst _ _
    rfl
  | succ n ih =>
    intro row m hst hrows hjs
    rw [uncoverRowsLoop, chainList]
    by_cases hrow : (row == c) = true
    · rw [if_pos hrow, if_pos hrow]
      rfl
    · rw [if_neg hrow, if_neg hrow]
      have hrowmem : row ∈ chainList (fun x => (dlxGet m0 x).up) c (n + 1) row := by
        rw [chainList, if_neg hrow]
        exact List.mem_cons_self _ _
      have hrb := (hrows row hrowmem).1
      have hrc := (hrows row hrowmem).2
      rw [uncoverNodesLoop_foldl]
      have hstart : (dlxGet m row).left = (dlxGet m0 row).left := hst.left row
      have hfuel : m.nodes.length = m0.nodes.length := hst.len
      have hchain : chainList (fun x => (dlxGet m x).left) row m.nodes.length
          ((dlxGet m row).left) =
          chainList (fun x => (dlxGet m0 x).left) row m0.nodes.length
            ((dlxGet m0 row).left) := by
        rw [hstart, hfuel]
        exact chainList_congr _ _ row m0.nodes.length ((dlxGet m0 row).left)
          (fun y _ => hst.left y)
      rw [hchain]
      have hst1 := stInv_foldl_relink c m0 _ m hst (hjs row hrowmem)
      have hnext : (dlxGet (List.foldl relinkNode m
          (chainList (fun x => (dlxGet m0 x).left) row m0.nodes.length
            ((dlxGet m0 row).left))) row).up = (dlxGet m0 row).up :=
        hst1.cUp row hrb hrc
      dsimp only
      rw [hnext]
      rw [ih ((dlxGet m0 row).up) _ hst1
        (fun r hr => hrows r (by rw [chainList, if_neg hrow]; exact List.mem_cons_of_mem _ hr))
        (fun r hr => hjs r (by rw [chainList, if_neg hrow]; exact List.mem_cons_of_mem _ hr))]
      simp only [List.cons_bind, List.foldl_append]

theorem reverse_bind {α β : Type} (l : List α) (f : α → List β) :
    (l.bind f).reverse = l.reverse.bind (fun x => (f x).reverse) := by
  induction l with
  | nil => rfl
  | cons a l ih =>
    simp [ih]

theorem vOK_setLeft (m : DLXMatrix) (i v j : Nat) (h : vOK m j) :
    vOK (setLeft m i v) j := by
  obtain ⟨h1, h2, h3, h4, h5⟩ := h
  refine ⟨by simpa using h1, by simpa using h2, by simpa using h3, ?_, ?_⟩
  · simp only [setLeft_get_up, setLeft_get_down]
    exact h4
  · simp only [setLeft_get_up, setLeft_get_down]
    exact h5

theorem vOK_setRight (m : DLXMatrix) (i v j : Nat) (h : vOK m j) :
    vOK (setRight m i v) j := by
  obtain ⟨h1, h2, h3, h4, h5⟩ := h
  refine ⟨by simpa using h1, by simpa using h2, by simpa using h3, ?_, ?_⟩
  · simp only [setRight_get_up, setRight_get_down]
    exact h4
  · simp only [setRight_get_up, setRight_get_down]
    exact h5

theorem node_left_restore (n : DLXNodeData) (a j : Nat) (hn : n.left = j) :
    ({ { n with left := a } with left := j } : DLXNodeData) = n := by
  cases n
  cases hn
  rfl

theorem node_right_restore (n : DLXNodeData) (a j : Nat) (hn : n.right = j) :
    ({ { n with right := a } with right := j } : DLXNodeData) = n := by
  cases n
  cases hn
  rfl

theorem node_lr_restore (n : DLXNodeData) (a b j k : Nat) (h1 : n.left = j)
    (h2 : n.right = k) :
    ({ { { { n with left := a } with right := b } with left := j }
        with right := k } : DLXNodeData) = n := by
  cases n
  cases h1
  cases h2
  rfl

theorem setLeft_self_value (m : DLXMatrix) (i : Nat) :
    setLeft m i ((dlxGet m i).left) = m := by
  unfold setLeft
  rw [show ({ dlxGet m i with left := (dlxGet m i).left } : DLXNodeData) = dlxGet m i
    from rfl]
  exact dlxSet_get_self m i

theorem setRight_self_value (m : DLXMatrix) (i : Nat) :
    setRight m i ((dlxGet m i).right) = m := by
  unfold setRight
  rw [show ({ dlxGet m i with right := (dlxGet m i).right } : DLXNodeData) = dlxGet m i
    from rfl]
  exact dlxSet_get_self m i

theorem setLeft_setLeft (m : DLXMatrix) (i : Nat) (a b : Nat) :
    setLeft (setLeft m i a) i b = setLeft m i b := by
  by_cases hb : i < m.nodes.length
  · unfold setLeft
    rw [dlxGet_dlxSet_self _ _ _ hb]
    rw [dlxSet_dlxSet_same]
  · rw [setLeft_oob _ _ _ (Nat.le_of_not_lt hb)]

theorem setRight_setRight (m : DLXMatrix) (i : Nat) (a b : Nat) :
    setRight (setRight m i a) i b = setRight m i b := by
  by_cases hb : i < m.nodes.length
  · unfold setRight
    rw [dlxGet_dlxSet_self _ _ _ hb]
    rw [dlxSet_dlxSet_same]
  · rw [setRight_oob _ _ _ (Nat.le_of_not_lt hb)]

theorem header_restore (m : DLXMatrix) (c i k : Nat)
    (h1 : (dlxGet m i).left = c) (h2 : (dlxGet m k).right = c) :
    setRight (setLeft (setRight (setLeft m i k) k i) i c) k c = m := by
  by_cases hbi : i < m.nodes.length
  · by_cases hbk : k < m.nodes.length
    · by_cases hik : i = k
      · subst hik
        have hc1 : setLeft m i i = dlxSet m i { dlxGet m i with left := i } := rfl
        have hc2 : setRight (dlxSet m i { dlxGet m i with left := i }) i i =
            dlxSet m i { { dlxGet m i with left := i } with right := i } := by
          unfold setRight
          rw [dlxGet_dlxSet_self _ _ _ hbi, dlxSet_dlxSet_same]
        have hc3 : setLeft (dlxSet m i
            { { dlxGet m i with left := i } with right := i }) i c =
            dlxSet m i { { { dlxGet m i with left := i } with right := i }
              with left := c } := by
          unfold setLeft
          rw [dlxGet_dlxSet_self _ _ _ hbi, dlxSet_dlxSet_same]
        have hc4 : setRight (dlxSet m i
            { { { dlxGet m i with left := i } with right := i } with left := c }) i c =
            dlxSet m i { { { { dlxGet m i with left := i } with right := i }
              with left := c } with right := c } := by
          unfold setRight
          rw [dlxGet_dlxSet_self _ _ _ hbi, dlxSet_dlxSet_same]
        rw [hc1, hc2, hc3, hc4]
        have hnode : ({ { { { dlxGet m i with left := i } with right := i }
            with left := c } with right := c } : DLXNodeData) = dlxGet m i := by
          have := node_lr_restore (dlxGet m i) i i c c h1 h2
          exact this
        rw [hnode]
        exact dlxSet_get_self m i
      · have hc1 : setLeft m i k = dlxSet m i { dlxGet m i with left := k } := rfl
        have hc2 : setRight (dlxSet m i { dlxGet m i with left := k }) k i =
            dlxSet (dlxSet m i { dlxGet m i with left := k }) k
              { dlxGet m k with right := i } := by
          unfold setRight
          rw [dlxGet_dlxSet_ne _ _ _ _ (fun hc => hik hc.symm)]
        have hc3 : setLeft (dlxSet (dlxSet m i { dlxGet m i with left := k }) k
            { dlxGet m k with right := i }) i c =
            dlxSet m k { dlxGet m k with right := i } := by
          unfold setLeft
          rw [dlxGet_dlxSet_ne _ _ _ _ hik]
          rw [dlxGet_dlxSet_self _ _ _ hbi]
          rw [dlxSet_comm _ _ _ _ _ (fun hc => hik hc.symm)]
          rw [dlxSet_dlxSet_same]
          exact congrArg (fun z => dlxSet z k { dlxGet m k with right := i })
            ((congrArg (dlxSet m i) (node_left_restore (dlxGet m i) k c h1)).trans
              (dlxSet_get_self m i))
        have hc4 : setRight (dlxSet m k { dlxGet m k with right := i }) k c = m := by
          unfold setRight
          rw [dlxGet_dlxSet_self _ _ _ hbk]
          rw [dlxSet_dlxSet_same]
          exact (congrArg (dlxSet m k)
            (node_right_restore (dlxGet m k) i c h2)).trans (dlxSet_get_self m k)
        rw [hc1, hc2, hc3, hc4]
    · have hle := Nat.le_of_not_lt hbk
      rw [setRight_oob _ _ _ (by simpa using hle)]
      rw [setRight_oob _ _ _ (by simpa using hle)]
      rw [setLeft_setLeft]
      rw [← h1]
      exact setLeft_self_value m i
  · have hle := Nat.le_of_not_lt hbi
    rw [setLeft_oob _ _ _ hle]
    rw [setLeft_oob _ _ _ (by simpa using hle)]
    rw [setRight_setRight]
    rw [← h2]
    exact setRight_self_value m k

@[simp] theorem coverHdr_length (m : DLXMatrix) (c : Nat) :
    (coverHdr m c).nodes.length = m.nodes.length := by
  unfold coverHdr
  rw [setRight_length, setLeft_length]

@[simp] theorem coverHdr_get_up (m : DLXMatrix) (c x : Nat) :
    (dlxGet (coverHdr m c) x).up = (dlxGet m x).up := by
  unfold coverHdr
  rw [setRight_get_up, setLeft_get_up]

@[simp] theorem coverHdr_get_down (m : DLXMatrix) (c x : Nat) :
    (dlxGet (coverHdr m c) x).down = (dlxGet m x).down := by
  unfold coverHdr
  rw [setRight_get_down, setLeft_get_down]

@[simp] theorem coverHdr_get_column (m : DLXMatrix) (c x : Nat) :
    (dlxGet (coverHdr m c) x).column = (dlxGet m x).column := by
  unfold coverHdr
  rw [setRight_get_column, setLeft_get_column]

theorem coverHdr_get_right_ne (m : DLXMatrix) (c x : Nat)
    (hx : x ≠ (dlxGet m c).left) :
    (dlxGet (coverHdr m c) x).right = (dlxGet m x).right := by
  unfold coverHdr
  rw [setRight_get_right_ne _ _ _ _ hx, setLeft_get_right]

theorem coverHdr_get_left_ne (m : DLXMatrix) (c x : Nat)
    (hx : x ≠ (dlxGet m c).right) :
    (dlxGet (coverHdr m c) x).left = (dlxGet m x).left := by
  unfold coverHdr
  rw [setRight_get_left, setLeft_get_left_ne _ _ _ _ hx]

theorem colOf_coverHdr (m : DLXMatrix) (c x : Nat) :
    colOf (coverHdr m c) x = colOf m x := by
  unfold colOf
  rw [coverHdr_get_column]

theorem vOK_coverHdr (m : DLXMatrix) (c j : Nat) (h : vOK m j) :
    vOK (coverHdr m c) j := by
  unfold coverHdr
  exact vOK_setRight _ _ _ _ (vOK_setLeft _ _ _ _ h)

theorem cover_eq_hdr (m : DLXMatrix) (c : Nat) (hne : c ≠ (dlxGet m c).right) :
    cover m c = coverRowsLoop (coverHdr m c).nodes.length (coverHdr m c) c
      ((dlxGet (coverHdr m c) c).down) := by
  simp only [cover, coverHdr]
  rw [setLeft_get_left_ne m (dlxGet m c).right (dlxGet m c).left c hne,
    setLeft_get_right m (dlxGet m c).right (dlxGet m c).left c]

theorem rows_coverHdr (m : DLXMatrix) (c : Nat) :
    chainList (fun x => (dlxGet (coverHdr m c) x).down) c
      (coverHdr m c).nodes.length ((dlxGet (coverHdr m c) c).down) =
    dlxRows m c := by
  rw [coverHdr_length, coverHdr_get_down]
  exact (chainList_congr (fun x => (dlxGet m x).down)
    (fun x => (dlxGet (coverHdr m c) x).down) c m.nodes.length
    ((dlxGet m c).down)
    (fun y _ => (coverHdr_get_down m c y).symm)).symm

theorem rowNodes_coverHdr (m : DLXMatrix) (c r : Nat)
    (hr : r ≠ (dlxGet m c).left)
    (hall : ∀ y ∈ dlxRowNodes m r, y ≠ (dlxGet m c).left) :
    chainList (fun x => (dlxGet (coverHdr m c) x).right) r
      (coverHdr m c).nodes.length ((dlxGet (coverHdr m c) r).right) =
    dlxRowNodes m r := by
  rw [coverHdr_length, coverHdr_get_right_ne m c r hr]
  exact (chainList_congr (fun x => (dlxGet m x).right)
    (fun x => (dlxGet (coverHdr m c) x).right) r m.nodes.length
    ((dlxGet m r).right)
    (fun y hy => (coverHdr_get_right_ne m c y (hall y hy)).symm)).symm

theorem upchain_coverHdr (m : DLXMatrix) (c : Nat) :
    chainList (fun x => (dlxGet (coverHdr m c) x).up) c
      (coverHdr m c).nodes.length ((dlxGet (coverHdr m c) c).up) =
    chainList (fun x => (dlxGet m x).up) c m.nodes.length ((dlxGet m c).up) := by
  rw [coverHdr_length, coverHdr_get_up]
  exact (chainList_congr (fun x => (dlxGet m x).up)
    (fun x => (dlxGet (coverHdr m c) x).up) c m.nodes.length
    ((dlxGet m c).up)
    (fun y _ => (coverHdr_get_up m c y).symm)).symm

theorem leftchain_coverHdr (m : DLXMatrix) (c r : Nat)
    (hr : r ≠ (dlxGet m c).right)
    (hall : ∀ y ∈ chainList (fun x => (dlxGet m x).left) r m.nodes.length
      ((dlxGet m r).left), y ≠ (dlxGet m c).right) :
    chainList (fun x => (dlxGet (coverHdr m c) x).left) r
      (coverHdr m c).nodes.length ((dlxGet (coverHdr m c) r).left) =
    chainList (fun x => (dlxGet m x).left) r m.nodes.length
      ((dlxGet m r).left) := by
  rw [coverHdr_length, coverHdr_get_left_ne m c r hr]
  exact (chainList_congr (fun x => (dlxGet m x).left)
    (fun x => (dlxGet (coverHdr m c) x).left) r m.nodes.length
    ((dlxGet m r).left)
    (fun y hy => (coverHdr_get_left_ne m c y (hall y hy)).symm)).symm

theorem stInv_coverHdr_refl (m : DLXMatrix) (c : Nat)
    (hvb : ∀ x, x < m.nodes.length →
      (dlxGet m x).up < m.nodes.length ∧ (dlxGet m x).down < m.nodes.length)
    (hcl : ∀ x, x < m.nodes.length →
      colOf m ((dlxGet m x).up) = colOf m x ∧
      colOf m ((dlxGet m x).down) = colOf m x) :
    StInv c (coverHdr m c) (coverHdr m c) := by
  apply stInv_refl
  · intro x hx
    simp only [coverHdr_length, coverHdr_get_up, coverHdr_get_down] at hx ⊢
    exact hvb x hx
  · intro x hx
    simp only [coverHdr_length, coverHdr_get_up, coverHdr_get_down] at hx ⊢
    rw [colOf_coverHdr, colOf_coverHdr, colOf_coverHdr]
    exact hcl x hx

theorem cover_eq_foldl (m : DLXMatrix) (c : Nat) (h : dlxWF m c) :
    cover m c = ((dlxRows m c).bind (dlxRowNodes m)).foldl unlinkNode
      (coverHdr m c) := by
  obtain ⟨hc, hvb, hcl, hcc, hx1c, hx2c, hx1l, hx2r, hrows, hjs, hnd, hup,
    hleft, hx1nr, hx2nr, hx12⟩ := h
  have hst := stInv_coverHdr_refl m c hvb hcl
  have hA : ∀ r ∈ chainList (fun x => (dlxGet (coverHdr m c) x).down) c
      (coverHdr m c).nodes.length ((dlxGet (coverHdr m c) c).down),
      r < (coverHdr m c).nodes.length ∧ colOf (coverHdr m c) r = some c := by
    intro r hr
    rw [rows_coverHdr] at hr
    refine ⟨?_, ?_⟩
    · rw [coverHdr_length]
      exact (hrows r hr).1
    · rw [colOf_coverHdr]
      exact (hrows r hr).2
  have hB : ∀ r ∈ chainList (fun x => (dlxGet (coverHdr m c) x).down) c
      (coverHdr m c).nodes.length ((dlxGet (coverHdr m c) c).down),
      ∀ j ∈ chainList (fun x => (dlxGet (coverHdr m c) x).right) r
        (coverHdr m c).nodes.length ((dlxGet (coverHdr m c) r).right),
      j < (coverHdr m c).nodes.length ∧ colOf (coverHdr m c) j ≠ some c := by
    intro r hr
    rw [rows_coverHdr] at hr
    intro j hj
    rw [rowNodes_coverHdr m c r (fun he => hx2nr (he ▸ hr))
      (fun y hy he => (hx12 r hr).2 (he ▸ hy))] at hj
    refine ⟨?_, ?_⟩
    · rw [coverHdr_length]
      exact (hjs r hr j hj).1
    · rw [colOf_coverHdr]
      exact (hjs r hr j hj).2.1
  rw [cover_eq_hdr m c (fun he => hx1c he.symm)]
  rw [coverRowsLoop_foldl c (coverHdr m c) (coverHdr m c).nodes.length
    ((dlxGet (coverHdr m c) c).down) (coverHdr m c) hst hA hB]
  have hbind : (chainList (fun x => (dlxGet (coverHdr m c) x).down) c
      (coverHdr m c).nodes.length ((dlxGet (coverHdr m c) c).down)).bind
      (fun r => chainList (fun x => (dlxGet (coverHdr m c) x).right) r
        (coverHdr m c).nodes.length ((dlxGet (coverHdr m c) r).right)) =
      (dlxRows m c).bind (dlxRowNodes m) := by
    rw [rows_coverHdr]
    refine List.bind_congr ?_
    intro r hr
    exact rowNodes_coverHdr m c r (fun he => hx2nr (he ▸ hr))
      (fun y hy he => (hx12 r hr).2 (he ▸ hy))
  rw [hbind]

/-- C6: for every well-formed dancing-links matrix state and active column c,
performing uncover(c) immediately after cover(c) restores the exact prior
matrix: every left/right/up/down link and every size field is back to its
value from before the cover. -/
theorem c6_cover_uncover_restore (m : DLXMatrix) (c : Nat) (h : dlxWF m c) :
    uncover (cover m c) c = m := by
  obtain ⟨hc, hvb, hcl, hcc, hx1c, hx2c, hx1l, hx2r, hrows, hjs, hnd, hup,
    hleft, hx1nr, hx2nr, hx12⟩ := h
  have hst := stInv_coverHdr_refl m c hvb hcl
  have hJS : ∀ j ∈ (dlxRows m c).bind (dlxRowNodes m),
      j < (coverHdr m c).nodes.length ∧ colOf (coverHdr m c) j ≠ some c := by
    intro j hj
    rcases List.mem_bind.mp hj with ⟨r, hr, hjr⟩
    refine ⟨?_, ?_⟩
    · rw [coverHdr_length]
      exact (hjs r hr j hjr).1
    · rw [colOf_coverHdr]
      exact (hjs r hr j hjr).2.1
  have hstN : StInv c (coverHdr m c)
      (((dlxRows m c).bind (dlxRowNodes m)).foldl unlinkNode (coverHdr m c)) :=
    stInv_foldl_unlink c (coverHdr m c) _ (coverHdr m c) hst hJS
  have hNlen : ((((dlxRows m c).bind (dlxRowNodes m)).foldl unlinkNode
      (coverHdr m c)).nodes.length) = m.nodes.length := by
    rw [hstN.len, coverHdr_length]
  have hNup : (dlxGet (((dlxRows m c).bind (dlxRowNodes m)).foldl unlinkNode
      (coverHdr m c)) c).up = (dlxGet m c).up := by
    have h1 := hstN.cUp c (by rw [coverHdr_length]; exact hc)
      (by rw [colOf_coverHdr]; exact hcc)
    rw [h1, coverHdr_get_up]
  have hupch : chainList (fun x => (dlxGet (coverHdr m c) x).up) c
      m.nodes.length ((dlxGet m c).up) = (dlxRows m c).reverse := by
    have h0 := upchain_coverHdr m c
    rw [coverHdr_length, coverHdr_get_up] at h0
    exact h0.trans hup
  have hlr : ∀ r ∈ dlxRows m c,
      chainList (fun x => (dlxGet (coverHdr m c) x).left) r
        (coverHdr m c).nodes.length ((dlxGet (coverHdr m c) r).left) =
      (dlxRowNodes m r).reverse := by
    intro r hr
    have h1 := leftchain_coverHdr m c r (fun he => hx1nr (he ▸ hr)) ?_
    · exact h1.trans (hleft r hr)
    · intro y hy he
      rw [hleft r hr, List.mem_reverse] at hy
      exact (hx12 r hr).1 (he ▸ hy)
  have hA2 : ∀ r ∈ chainList (fun x => (dlxGet (coverHdr m c) x).up) c
      m.nodes.length ((dlxGet m c).up),
      r < (coverHdr m c).nodes.length ∧ colOf (coverHdr m c) r = some c := by
    intro r hr
    rw [hupch, List.mem_reverse] at hr
    refine ⟨?_, ?_⟩
    · rw [coverHdr_length]
      exact (hrows r hr).1
    · rw [colOf_coverHdr]
      exact (hrows r hr).2
  have hB2 : ∀ r ∈ chainList (fun x => (dlxGet (coverHdr m c) x).up) c
      m.nodes.length ((dlxGet m c).up),
      ∀ j ∈ chainList (fun x => (dlxGet (coverHdr m c) x).left) r
        (coverHdr m c).nodes.length ((dlxGet (coverHdr m c) r).left),
      j < (coverHdr m c).nodes.length ∧ colOf (coverHdr m c) j ≠ some c := by
    intro r hr
    rw [hupch, List.mem_reverse] at hr
    intro j hj
    rw [hlr r hr, List.mem_reverse] at hj
    refine ⟨?_, ?_⟩
    · rw [coverHdr_length]
      exact (hjs r hr j hj).1
    · rw [colOf_coverHdr]
      exact (hjs r hr j hj).2.1
  have hPaired : PairedOK (coverHdr m c) ((dlxRows m c).bind (dlxRowNodes m)) := by
    refine pairedOK_of_nodup _ _ hnd ?_
    intro j hj
    rcases List.mem_bind.mp hj with ⟨r, hr, hjr⟩
    exact vOK_coverHdr m c j (hjs r hr j hjr).2.2
  have hbindU : (chainList (fun x => (dlxGet (coverHdr m c) x).up) c
      m.nodes.length ((dlxGet m c).up)).bind
      (fun r => chainList (fun x => (dlxGet (coverHdr m c) x).left) r
        (coverHdr m c).nodes.length ((dlxGet (coverHdr m c) r).left)) =
      ((dlxRows m c).bind (dlxRowNodes m)).reverse := by
    rw [hupch]
    rw [reverse_bind]
    refine List.bind_congr ?_
    intro r hr
    rw [List.mem_reverse] at hr
    exact hlr r hr
  have hU : uncoverRowsLoop m.nodes.length
      (((dlxRows m c).bind (dlxRowNodes m)).foldl unlinkNode (coverHdr m c)) c
      ((dlxGet m c).up) = coverHdr m c := by
    rw [uncoverRowsLoop_foldl c (coverHdr m c) m.nodes.length
      ((dlxGet m c).up) _ hstN hA2 hB2]
    rw [hbindU]
    exact undo_foldl _ (coverHdr m c) hPaired
  rw [cover_eq_foldl m c ⟨hc, hvb, hcl, hcc, hx1c, hx2c, hx1l, hx2r, hrows,
    hjs, hnd, hup, hleft, hx1nr, hx2nr, hx12⟩]
  simp only [uncover]
  rw [hNlen, hNup, hU]
  rw [coverHdr_get_right_ne m c c (fun he => hx2c he.symm)]
  rw [setLeft_get_left_ne _ _ _ _ (fun he => hx1c he.symm)]
  rw [coverHdr_get_left_ne m c c (fun he => hx1c he.symm)]
  exact header_restore m c (dlxGet m c).right (dlxGet m c).left hx1l hx2r

theorem c6_cover_uncover_restore_witness :
    dlxWF wfMatrix 1 ∧ uncover (cover wfMatrix 1) 1 = wfMatrix :=
  ⟨by decide, c6_cover_uncover_restore wfMatrix 1 (by decide)⟩
